import Mathlib

/-!
# inventory-easy: the stock ledger of `backend/stock-service/src/server.js`

A shallow embedding of the stock service: the JavaScript values a JSON request
body can carry and the coercions the handlers apply to them, the tables the
handlers read and write, the two movement handlers `POST /api/stock/in` and
`POST /api/stock/out` as functions from the committed store to the committed
store, the HTTP response and the calls made on the connection, and the two
stock listings.

Limits of the model:
* a finite number is the decimal its literal writes; the sum of two integers
  is rounded as binary64 rounds it (it is exact below `2 ^ 53`), the rounding
  of a literal with a fraction part or of more than 53 significant bits is not
  modelled; a number prints in exponent notation from `1e21` on and below
  `1e-6`; arrays and objects in a body are not modelled;
* the schema and the SQL mode are not part of the sources, so the way a column
  converts a bound parameter is a parameter of the model (`Engine`), and so is
  the way text is compared and ordered (`Collation`); columns hold no `NULL`,
  and the listings of the stock service that are sorted by `p.name` follow the
  order of `String`;
* a transaction is a working copy of the store that replaces the committed
  store on commit; `beginTransaction`, the three statements and `commit` may
  fail (`Faults`), `getConnection`, `rollback` and `release` do not;
* requests are served one after another, and the Prometheus metrics are left
  out.
-/

namespace InventoryEasy

/-! ## JavaScript values -/

/-- A JavaScript number: `NaN`, the two infinities, or the finite decimal
`m / 10 ^ k` (a JSON number literal is such a decimal). -/
inductive JsNumber where
  | nan
  | posInf
  | negInf
  | fin (m : Int) (k : Nat)
  deriving DecidableEq

/-- A scalar value of a parsed JSON body, or `undefined` for an absent field.
Arrays and objects are not modelled. -/
inductive JsValue where
  | undefined
  | null
  | bool (b : Bool)
  | number (x : JsNumber)
  | string (s : String)
  deriving DecidableEq

namespace JsNumber

/-- The number with integer value `n`. -/
def ofInt (n : Int) : JsNumber := fin n 0

/-- The comparison `x <= 0`; a comparison with `NaN` is false. -/
def leZero : JsNumber → Bool
  | nan => false
  | posInf => false
  | negInf => true
  | fin m _ => decide (m ≤ 0)

/-- The comparison `x < 0`; a comparison with `NaN` is false. -/
def ltZero : JsNumber → Bool
  | nan => false
  | posInf => false
  | negInf => true
  | fin m _ => decide (m < 0)

/-- Whether the number is `+0`, `-0` or `NaN` (the falsy numbers). -/
def isFalsy : JsNumber → Bool
  | nan => true
  | fin m _ => decide (m = 0)
  | _ => false

/-- Unary minus. -/
def neg : JsNumber → JsNumber
  | nan => nan
  | posInf => negInf
  | negInf => posInf
  | fin m k => fin (-m) k

/-- The number of binary digits of `n`, by at most `fuel` halvings. -/
def bitLengthAux : Nat → Nat → Nat
  | 0, _ => 0
  | fuel + 1, n => if n = 0 then 0 else bitLengthAux fuel (n / 2) + 1

/-- The number of binary digits of a natural number (`0` for `0`). -/
def bitLength (n : Nat) : Nat := bitLengthAux n n

/-- The natural number that binary64 holds for `n`: `n` itself below `2 ^ 53`,
and above that `n` rounded to 53 significant binary digits, to the nearest and
to the even one in a tie (so `2 ^ 53 + 1` is held as `2 ^ 53`). -/
def roundToDouble (n : Nat) : Nat :=
  if n < 2 ^ 53 then n
  else
    let e := bitLength n - 53
    let q := n / 2 ^ e
    let r := n % 2 ^ e
    if 2 ^ (e - 1) < r ∨ (r = 2 ^ (e - 1) ∧ q % 2 = 1) then (q + 1) * 2 ^ e else q * 2 ^ e

/-- The number JavaScript holds for the integer `s` that a sum of integers
comes to: `s` itself below `2 ^ 53`, and above that `s` rounded as binary64
rounds it, an infinity from `2 ^ 1024` (written `(2 ^ 256) ^ 4`) on. -/
def ofSum (s : Int) : JsNumber :=
  if s.natAbs < 2 ^ 53 then fin s 0
  else if roundToDouble s.natAbs < (2 ^ 256) ^ 4 then
    fin (if s < 0 then -(roundToDouble s.natAbs : Int) else (roundToDouble s.natAbs : Int)) 0
  else if s < 0 then negInf
  else posInf

/-- The numeric `+`.  The sum of two integers is rounded as binary64 rounds it:
it is exact up to `2 ^ 53`.  The sum of two decimals of which one has a
fraction part is kept as the exact decimal, at the larger scale: the handlers
add integers only. -/
def add : JsNumber → JsNumber → JsNumber
  | nan, _ => nan
  | _, nan => nan
  | posInf, negInf => nan
  | negInf, posInf => nan
  | posInf, _ => posInf
  | _, posInf => posInf
  | negInf, _ => negInf
  | _, negInf => negInf
  | fin m 0, fin n 0 => ofSum (m + n)
  | fin m k, fin n j =>
      fin (m * (10 ^ (max k j - k) : Nat) + n * (10 ^ (max k j - j) : Nat)) (max k j)

/-- The numeric `-`. -/
def sub (x y : JsNumber) : JsNumber := add x (neg y)

/-- Numeric equality with an integer (the SQL comparison `column = ?` on an
integer column). -/
def eqInt : JsNumber → Int → Bool
  | fin m k, n => decide (m = n * (10 ^ k : Nat))
  | _, _ => false

end JsNumber

/-! ### String to number conversions -/

/-- White space of the `StringToNumber` grammar (white space and line
terminators). -/
def isStrWhiteSpace (c : Char) : Bool :=
  let n := c.toNat
  n = 0x09 || n = 0x0A || n = 0x0B || n = 0x0C || n = 0x0D || n = 0x20 || n = 0xA0
    || n = 0x1680 || (0x2000 ≤ n && n ≤ 0x200A) || n = 0x2028 || n = 0x2029
    || n = 0x202F || n = 0x205F || n = 0x3000 || n = 0xFEFF

/-- The value of `c` as a digit of the given radix, if it is one. -/
def digitValue (radix : Nat) (c : Char) : Option Nat :=
  let n := c.toNat
  let d :=
    if 48 ≤ n ∧ n ≤ 57 then some (n - 48)
    else if 97 ≤ n ∧ n ≤ 122 then some (n - 87)
    else if 65 ≤ n ∧ n ≤ 90 then some (n - 55)
    else none
  match d with
  | some v => if v < radix then some v else none
  | none => none

/-- The longest leading run of digits of the radix, as their values, and the
rest of the text. -/
def takeDigits (radix : Nat) : List Char → List Nat × List Char
  | [] => ([], [])
  | c :: cs =>
      match digitValue radix c with
      | some v => ((takeDigits radix cs).1.cons v, (takeDigits radix cs).2)
      | none => ([], c :: cs)

/-- The number written by a list of digits, most significant first. -/
def digitsValue (radix : Nat) (ds : List Nat) : Nat :=
  ds.foldl (fun acc d => acc * radix + d) 0

/-- An optional sign: whether it is minus, and the rest. -/
def takeSign : List Char → Bool × List Char
  | '-' :: cs => (true, cs)
  | '+' :: cs => (false, cs)
  | cs => (false, cs)

/-- The decimal `mant * 10 ^ (e - scale)` as a number. -/
def scaled (negative : Bool) (mant : Nat) (scale : Nat) (e : Int) : JsNumber :=
  let m : Int := if negative then -(mant : Int) else (mant : Int)
  let shift : Int := e - (scale : Int)
  if 0 ≤ shift then JsNumber.fin (m * (10 ^ shift.toNat : Nat)) 0
  else JsNumber.fin m (-shift).toNat

/-- The exponent part of a decimal literal that must end the string:
`none` when the text is not an exponent part. -/
def exponentPart : List Char → Option Int
  | [] => some 0
  | c :: cs =>
      if c = 'e' ∨ c = 'E' then
        match takeDigits 10 (takeSign cs).2 with
        | ([], _) => none
        | (ds, []) =>
            some (if (takeSign cs).1 then -(digitsValue 10 ds : Int) else (digitsValue 10 ds : Int))
        | (_, _ :: _) => none
      else none

/-- The `StrDecimalLiteral` of the `StringToNumber` grammar: an optional sign,
then `Infinity` or digits with an optional fraction and exponent. -/
def strDecimalLiteral (cs : List Char) : JsNumber :=
  let negative := (takeSign cs).1
  let body := (takeSign cs).2
  if body = "Infinity".toList then
    (if negative then JsNumber.negInf else JsNumber.posInf)
  else
    let ip := takeDigits 10 body
    let fp : List Nat × List Char :=
      match ip.2 with
      | '.' :: rest => takeDigits 10 rest
      | rest => ([], rest)
    if ip.1.isEmpty && fp.1.isEmpty then JsNumber.nan
    else
      match exponentPart fp.2 with
      | some e => scaled negative (digitsValue 10 (ip.1 ++ fp.1)) fp.1.length e
      | none => JsNumber.nan

/-- An unsigned literal `0x..`, `0o..` or `0b..` that is the whole text. -/
def nonDecimalLiteral : List Char → Option JsNumber
  | '0' :: p :: cs =>
      let radix : Nat :=
        if p = 'x' ∨ p = 'X' then 16
        else if p = 'o' ∨ p = 'O' then 8
        else if p = 'b' ∨ p = 'B' then 2
        else 0
      if radix = 0 then none
      else
        match takeDigits radix cs with
        | ([], _) => some JsNumber.nan
        | (ds, []) => some (JsNumber.fin (digitsValue radix ds) 0)
        | (_, _ :: _) => some JsNumber.nan
  | _ => none

/-- Drop white space at both ends. -/
def trimWhiteSpace (cs : List Char) : List Char :=
  ((cs.dropWhile isStrWhiteSpace).reverse.dropWhile isStrWhiteSpace).reverse

/-- The abstract operation `StringToNumber`: the empty or blank string is `0`,
a numeric literal is its value, anything else is `NaN`. -/
def stringToNumber (s : String) : JsNumber :=
  let t := trimWhiteSpace s.toList
  if t.isEmpty then JsNumber.fin 0 0
  else
    match nonDecimalLiteral t with
    | some x => x
    | none => strDecimalLiteral t

/-- The builtin `parseInt` on a string (no radix argument): leading white
space, a sign, an optional `0x`, then the longest run of digits; `NaN` when
there is no digit. -/
def parseIntString (s : String) : JsNumber :=
  let t := s.toList.dropWhile isStrWhiteSpace
  let negative := (takeSign t).1
  let body := (takeSign t).2
  let hex : Option (List Char) :=
    match body with
    | '0' :: p :: cs => if p = 'x' ∨ p = 'X' then some cs else none
    | _ => none
  let ds : List Nat :=
    match hex with
    | some cs => (takeDigits 16 cs).1
    | none => (takeDigits 10 body).1
  let radix : Nat := if hex.isSome then 16 else 10
  if ds.isEmpty then JsNumber.nan
  else if negative then JsNumber.fin (-(digitsValue radix ds : Int)) 0
  else JsNumber.fin (digitsValue radix ds) 0

namespace JsValue

/-- The value of an integer as a JavaScript number. -/
def ofInt (n : Int) : JsValue := number (JsNumber.ofInt n)

/-- The abstract operation `ToBoolean`; `!v` is its negation. -/
def truthy : JsValue → Bool
  | undefined => false
  | null => false
  | bool b => b
  | number x => !x.isFalsy
  | string s => !s.isEmpty

/-- The abstract operation `ToNumber`. -/
def toNumber : JsValue → JsNumber
  | undefined => JsNumber.nan
  | null => JsNumber.fin 0 0
  | bool b => if b then JsNumber.fin 1 0 else JsNumber.fin 0 0
  | number x => x
  | string s => stringToNumber s

/-- The expression `a || b`. -/
def or (a b : JsValue) : JsValue := if a.truthy then a else b

end JsValue

/-- The first decimal digit of `n`, by at most `fuel` divisions by ten. -/
def leadingDigitAux : Nat → Nat → Nat
  | 0, n => n
  | fuel + 1, n => if n < 10 then n else leadingDigitAux fuel (n / 10)

/-- The first decimal digit of a natural number (`0` for `0`). -/
def leadingDigit (n : Nat) : Nat := leadingDigitAux n n

/-- Whether the finite number `m / 10 ^ k` prints in exponent notation: it is
not zero and its magnitude is at least `1e21` or below `1e-6`. -/
def printsWithExponent (m : Int) (k : Nat) : Bool :=
  decide (m ≠ 0) &&
    (decide (10 ^ 21 * 10 ^ k ≤ m.natAbs) || decide (m.natAbs * 10 ^ 6 < 10 ^ k))

/-- The builtin `parseInt(v)`: `v` is turned into a string and the leading
integer of that string is read.  A finite number of magnitude from `1e-6` up to
`1e21` prints in positional decimal notation, so that its leading integer is
the number truncated towards zero; outside that range it prints in exponent
notation, as `1e+21` or `1.5e-7`, and its leading integer is its first digit,
with its sign; `undefined`, `null`, booleans, `NaN` and the infinities print as
words and give `NaN`. -/
def parseInt : JsValue → JsNumber
  | JsValue.number (JsNumber.fin m k) =>
      if printsWithExponent m k then
        JsNumber.fin (if m < 0 then -(leadingDigit m.natAbs : Int) else leadingDigit m.natAbs) 0
      else JsNumber.fin (Int.tdiv m (10 ^ k : Nat)) 0
  | JsValue.string s => parseIntString s
  | _ => JsNumber.nan

/-- An integer that JavaScript holds exactly, with its neighbours:
`Number.isSafeInteger`, a magnitude below `2 ^ 53`. -/
def SafeInteger (n : Int) : Prop := n.natAbs < 2 ^ 53

instance safeIntegerDecidable (n : Int) : Decidable (SafeInteger n) :=
  inferInstanceAs (Decidable (n.natAbs < 2 ^ 53))

/-! ## The store -/

/-- A row of `products`; `price` is kept as the value the driver returns for
the column, and the optional `description` and `category` are `none` when
`NULL`. -/
structure Product where
  id : Int
  name : String
  sku : String
  price : JsValue
  description : Option String
  category : Option String
  deriving DecidableEq

/-- A row of `stock`. -/
structure StockRecord where
  product_id : Int
  quantity : Int
  min_stock : Int
  max_stock : Int
  deriving DecidableEq

/-- The `movement_type` of a movement. -/
inductive MovementType where
  | IN
  | OUT
  deriving DecidableEq

/-- A row of `stock_movements`, with the columns the handlers write. -/
structure MovementRecord where
  product_id : Int
  movement_type : MovementType
  quantity : Int
  reason : String
  previous_quantity : Int
  new_quantity : Int
  deriving DecidableEq

/-- The committed contents of the three tables; `stock_movements` is in insertion
order. -/
structure Db where
  products : List Product
  stock : List StockRecord
  stock_movements : List MovementRecord
  deriving DecidableEq

/-- What the storage engine does with a parameter bound to an integer column
and to a text column: the stored value, or the message of the error it raises.
The schema and SQL mode are not in the sources, so this is a parameter. -/
structure Engine where
  intColumn : JsValue → Except String Int
  textColumn : JsValue → Except String String

/-- An engine that stores integers and strings as they are. -/
def Engine.Faithful (E : Engine) : Prop :=
  (∀ n : Int, E.intColumn (JsValue.ofInt n) = Except.ok n) ∧
  (∀ s : String, E.textColumn (JsValue.string s) = Except.ok s)

/-- An engine in strict mode whose integer columns are within the integers
JavaScript holds exactly: an integer bound to an integer column is kept as it
is or refused, it is refused beyond `2 ^ 53`, and `NaN` and the infinities are
refused. -/
def Engine.Strict (E : Engine) : Prop :=
  (∀ n m : Int, E.intColumn (JsValue.ofInt n) = Except.ok m → m = n ∧ SafeInteger n) ∧
  (∀ m : Int, E.intColumn (JsValue.number JsNumber.nan) ≠ Except.ok m ∧
    E.intColumn (JsValue.number JsNumber.posInf) ≠ Except.ok m ∧
    E.intColumn (JsValue.number JsNumber.negInf) ≠ Except.ok m)

/-- The integer columns of the engine hold the integer `n` as it is: `n` is in
their range. -/
def Engine.Stores (E : Engine) (n : Int) : Prop :=
  E.intColumn (JsValue.ofInt n) = Except.ok n

/-- The text column of the engine holds the string `s` as it is. -/
def Engine.StoresText (E : Engine) (s : String) : Prop :=
  E.textColumn (JsValue.string s) = Except.ok s

/-- Round the decimal `m / 10 ^ k` to the nearest integer, halves away from
zero. -/
def roundDecimal (m : Int) (k : Nat) : Int :=
  if 0 ≤ m then Int.tdiv (2 * m + (10 ^ k : Nat)) (2 * (10 ^ k : Nat))
  else Int.tdiv (2 * m - (10 ^ k : Nat)) (2 * (10 ^ k : Nat))

/-- Modelled from the spec: the table definitions are not in the sources; the
spec's data model makes `quantity`, `previous_quantity` and `new_quantity`
integers and `reason` free text.  This engine is one such schema: an integer
column takes a finite number rounded to the nearest integer and the integer
written by a string, and rejects everything else; a text column takes strings.
-/
def referenceEngine : Engine where
  intColumn := fun v =>
    match v with
    | JsValue.number (JsNumber.fin m k) => Except.ok (roundDecimal m k)
    | JsValue.string s =>
        match stringToNumber s with
        | JsNumber.fin m 0 => Except.ok m
        | _ => Except.error "Incorrect integer value"
    | JsValue.bool b => Except.ok (if b then 1 else 0)
    | _ => Except.error "Incorrect integer value"
  textColumn := fun v =>
    match v with
    | JsValue.string s => Except.ok s
    | _ => Except.error "Incorrect string value"

/-- Modelled from the spec: the reference engine with integer columns of 32
bits in strict mode, which refuse a value out of their range. -/
def strictEngine : Engine where
  intColumn := fun v =>
    match referenceEngine.intColumn v with
    | Except.ok n =>
        if -(2 ^ 31 : Int) ≤ n ∧ n < 2 ^ 31 then Except.ok n
        else Except.error "Out of range value"
    | Except.error e => Except.error e
  textColumn := referenceEngine.textColumn

/-- The storage steps of one request that fail, each with the message of the
error thrown; `none` is a step that succeeds. -/
structure Faults where
  beginTransaction : Option String
  select : Option String
  update : Option String
  insert : Option String
  commit : Option String
  deriving DecidableEq

/-- No storage failure. -/
def Faults.none : Faults := ⟨Option.none, Option.none, Option.none, Option.none, Option.none⟩

/-- The calls a handler makes on its pooled connection. -/
inductive ConnCall where
  | beginTransaction
  | select
  | update
  | insert
  | commit
  | rollback
  | release
  deriving DecidableEq

/-! ## Requests and responses -/

/-- The fields a movement handler reads from `req.body`. -/
structure MovementBody where
  product_id : JsValue
  quantity : JsValue
  reason : JsValue
  deriving DecidableEq

/-- The `data` of a successful movement. -/
structure MovementData where
  product_id : JsValue
  previous_quantity : Int
  new_quantity : JsNumber
  deriving DecidableEq

/-- The response envelope with its HTTP status; an absent key is `none`. -/
structure Response (α : Type) where
  status : Nat
  success : Bool
  data : Option α
  count : Option Nat
  error : Option String
  message : Option String
  available : Option Int
  requested : Option JsValue
  deriving DecidableEq

/-- The result of running a movement handler: the committed store afterwards,
the response sent and the calls made on the connection. -/
structure Outcome where
  db : Db
  response : Response MovementData
  calls : List ConnCall
  deriving DecidableEq

/-- The body `{ success: false, error }` sent with a status. -/
def errorResponse {α : Type} (status : Nat) (msg : String) : Response α :=
  { status := status, success := false, data := none, count := none, error := some msg,
    message := none, available := none, requested := none }

/-! ## The statements of the movement handlers -/

/-- The rows of `stock` a `WHERE product_id = ?` selects: the parameter is
compared numerically with the integer column, a text parameter being read as
`ToNumber` reads it. -/
def matchesProduct (product_id : JsValue) (s : StockRecord) : Bool :=
  product_id.toNumber.eqInt s.product_id

/-- The statement `SELECT quantity FROM stock WHERE product_id = ?`. -/
def selectQuantity (db : Db) (product_id : JsValue) : List Int :=
  (db.stock.filter (matchesProduct product_id)).map (fun s => s.quantity)

/-- The statement `UPDATE stock SET quantity = ? WHERE product_id = ?`. -/
def updateQuantity (E : Engine) (db : Db) (newQty : JsNumber) (product_id : JsValue) :
    Except String Db :=
  match E.intColumn (JsValue.number newQty) with
  | Except.error e => Except.error e
  | Except.ok q =>
      Except.ok { db with
        stock := db.stock.map (fun s => if matchesProduct product_id s then { s with quantity := q } else s) }

/-- The statement `INSERT INTO stock_movements (product_id, movement_type,
quantity, reason, previous_quantity, new_quantity) VALUES (?, ?, ?, ?, ?, ?)`.
-/
def insertMovement (E : Engine) (db : Db) (product_id : JsValue) (movement_type : MovementType)
    (quantity reason : JsValue) (previousQty : Int) (newQty : JsNumber) : Except String Db :=
  match E.intColumn product_id, E.intColumn quantity, E.textColumn reason,
      E.intColumn (JsValue.ofInt previousQty), E.intColumn (JsValue.number newQty) with
  | Except.ok p, Except.ok q, Except.ok r, Except.ok prev, Except.ok new =>
      Except.ok { db with
        stock_movements := db.stock_movements ++
          [{ product_id := p, movement_type := movement_type, quantity := q, reason := r,
             previous_quantity := prev, new_quantity := new }] }
  | Except.error e, _, _, _, _ => Except.error e
  | _, Except.error e, _, _, _ => Except.error e
  | _, _, Except.error e, _, _ => Except.error e
  | _, _, _, Except.error e, _ => Except.error e
  | _, _, _, _, Except.error e => Except.error e

/-- One awaited storage call: it throws when the step is faulty or the engine
rejects the statement. -/
def attempt {α : Type} (fault : Option String) (result : Except String α) : Except String α :=
  match fault with
  | some msg => Except.error msg
  | none => result

/-- The `catch` block followed by `finally`: roll back, answer 500 with the
error's message, release.  Nothing of the transaction is committed. -/
def storageError (db : Db) (calls : List ConnCall) (msg : String) : Outcome :=
  { db := db, response := errorResponse 500 msg,
    calls := calls ++ [ConnCall.rollback, ConnCall.release] }

/-! ## The movement handlers -/

/-- The handler of `POST /api/stock/in`, run on the committed store `db` with
the storage failures `f`. -/
def stockIn (E : Engine) (f : Faults) (db : Db) (body : MovementBody) : Outcome :=
  match f.beginTransaction with
  | some msg => storageError db [ConnCall.beginTransaction] msg
  | none =>
    if !body.product_id.truthy || !body.quantity.truthy || body.quantity.toNumber.leZero then
      { db := db,
        response := errorResponse 400 "Valid product_id and positive quantity are required",
        calls := [ConnCall.beginTransaction, ConnCall.release] }
    else
      match attempt f.select (Except.ok (selectQuantity db body.product_id)) with
      | Except.error msg => storageError db [ConnCall.beginTransaction, ConnCall.select] msg
      | Except.ok [] =>
          { db := db,
            response := errorResponse 404 "Product not found",
            calls := [ConnCall.beginTransaction, ConnCall.select, ConnCall.rollback,
              ConnCall.release] }
      | Except.ok (previousQty :: _) =>
          let newQty := (JsNumber.ofInt previousQty).add (parseInt body.quantity)
          match attempt f.update (updateQuantity E db newQty body.product_id) with
          | Except.error msg =>
              storageError db [ConnCall.beginTransaction, ConnCall.select, ConnCall.update] msg
          | Except.ok tx1 =>
              match attempt f.insert (insertMovement E tx1 body.product_id MovementType.IN
                  body.quantity (body.reason.or (JsValue.string "Stock entry")) previousQty
                  newQty) with
              | Except.error msg =>
                  storageError db [ConnCall.beginTransaction, ConnCall.select, ConnCall.update,
                    ConnCall.insert] msg
              | Except.ok tx2 =>
                  match f.commit with
                  | some msg =>
                      storageError db [ConnCall.beginTransaction, ConnCall.select,
                        ConnCall.update, ConnCall.insert, ConnCall.commit] msg
                  | none =>
                      { db := tx2,
                        response :=
                          { status := 200, success := true,
                            data := some { product_id := body.product_id,
                                           previous_quantity := previousQty,
                                           new_quantity := newQty },
                            count := none, error := none,
                            message := some "Stock entry registered successfully",
                            available := none, requested := none },
                        calls := [ConnCall.beginTransaction, ConnCall.select, ConnCall.update,
                          ConnCall.insert, ConnCall.commit, ConnCall.release] }

/-- The handler of `POST /api/stock/out`, run on the committed store `db` with
the storage failures `f`. -/
def stockOut (E : Engine) (f : Faults) (db : Db) (body : MovementBody) : Outcome :=
  match f.beginTransaction with
  | some msg => storageError db [ConnCall.beginTransaction] msg
  | none =>
    if !body.product_id.truthy || !body.quantity.truthy || body.quantity.toNumber.leZero then
      { db := db,
        response := errorResponse 400 "Valid product_id and positive quantity are required",
        calls := [ConnCall.beginTransaction, ConnCall.release] }
    else
      match attempt f.select (Except.ok (selectQuantity db body.product_id)) with
      | Except.error msg => storageError db [ConnCall.beginTransaction, ConnCall.select] msg
      | Except.ok [] =>
          { db := db,
            response := errorResponse 404 "Product not found",
            calls := [ConnCall.beginTransaction, ConnCall.select, ConnCall.rollback,
              ConnCall.release] }
      | Except.ok (previousQty :: _) =>
          let newQty := (JsNumber.ofInt previousQty).sub (parseInt body.quantity)
          if newQty.ltZero then
            { db := db,
              response :=
                { status := 400, success := false, data := none, count := none,
                  error := some "Insufficient stock", message := none,
                  available := some previousQty, requested := some body.quantity },
              calls := [ConnCall.beginTransaction, ConnCall.select, ConnCall.rollback,
                ConnCall.release] }
          else
            match attempt f.update (updateQuantity E db newQty body.product_id) with
            | Except.error msg =>
                storageError db [ConnCall.beginTransaction, ConnCall.select, ConnCall.update] msg
            | Except.ok tx1 =>
                match attempt f.insert (insertMovement E tx1 body.product_id MovementType.OUT
                    body.quantity (body.reason.or (JsValue.string "Stock exit")) previousQty
                    newQty) with
                | Except.error msg =>
                    storageError db [ConnCall.beginTransaction, ConnCall.select, ConnCall.update,
                      ConnCall.insert] msg
                | Except.ok tx2 =>
                    match f.commit with
                    | some msg =>
                        storageError db [ConnCall.beginTransaction, ConnCall.select,
                          ConnCall.update, ConnCall.insert, ConnCall.commit] msg
                    | none =>
                        { db := tx2,
                          response :=
                            { status := 200, success := true,
                              data := some { product_id := body.product_id,
                                             previous_quantity := previousQty,
                                             new_quantity := newQty },
                              count := none, error := none,
                              message := some "Stock exit registered successfully",
                              available := none, requested := none },
                          calls := [ConnCall.beginTransaction, ConnCall.select, ConnCall.update,
                            ConnCall.insert, ConnCall.commit, ConnCall.release] }

/-- A request to one of the two movement endpoints. -/
inductive MovementRequest where
  | stockIn (body : MovementBody)
  | stockOut (body : MovementBody)
  deriving DecidableEq

/-- Serve one movement request. -/
def serve (E : Engine) (f : Faults) (db : Db) : MovementRequest → Outcome
  | MovementRequest.stockIn body => stockIn E f db body
  | MovementRequest.stockOut body => stockOut E f db body

/-- Serve requests one after another, each with its own storage failures; the
result is the committed store at the end. -/
def serveAll (E : Engine) (db : Db) : List (Faults × MovementRequest) → Db
  | [] => db
  | (f, r) :: rest => serveAll E (serve E f db r).db rest

/-! ## The stock listings -/

/-- The derived `status` column. -/
inductive StockStatus where
  | LOW
  | HIGH
  | NORMAL
  deriving DecidableEq

/-- A row of the stock listings: `s.*`, the product's name, SKU and price, and
the status (`price` is `undefined` in the single-product listing, which does
not select it). -/
structure StockRow where
  product_id : Int
  quantity : Int
  min_stock : Int
  max_stock : Int
  product_name : String
  sku : String
  price : JsValue
  status : StockStatus
  deriving DecidableEq

/-- The `CASE` expression of `GET /api/stock`. -/
def statusOfList (s : StockRecord) : StockStatus :=
  if s.quantity ≤ s.min_stock then StockStatus.LOW
  else if s.quantity ≥ s.max_stock then StockStatus.HIGH
  else StockStatus.NORMAL

/-- The `CASE` expression of `GET /api/stock/product/:productId`. -/
def statusOfProduct (s : StockRecord) : StockStatus :=
  if s.quantity ≤ s.min_stock then StockStatus.LOW
  else if s.quantity ≥ s.max_stock then StockStatus.HIGH
  else StockStatus.NORMAL

/-- The rows of `stock s INNER JOIN products p ON s.product_id = p.id`, each
built by `row`. -/
def joinStock {α : Type} (db : Db) (keep : StockRecord → Bool) (row : StockRecord → Product → α) :
    List α :=
  (db.stock.filter keep).flatMap (fun s =>
    (db.products.filter (fun p => decide (s.product_id = p.id))).map (row s))

/-- The handler of `GET /api/stock`; `fault` is the failure of the query, if
any.  `ORDER BY p.name` is modelled by the order of `String`. -/
def getStock (fault : Option String) (db : Db) : Response (List StockRow) :=
  match fault with
  | some msg => errorResponse 500 msg
  | none =>
      let rows := (joinStock db (fun _ => true) (fun s p =>
          ({ product_id := s.product_id, quantity := s.quantity, min_stock := s.min_stock,
             max_stock := s.max_stock, product_name := p.name, sku := p.sku, price := p.price,
             status := statusOfList s } : StockRow))).insertionSort
          (fun a b => a.product_name ≤ b.product_name)
      { status := 200, success := true, data := some rows, count := some rows.length,
        error := none, message := none, available := none, requested := none }

/-- The handler of `GET /api/stock/product/:productId`; the route parameter is
a string. -/
def getStockByProduct (fault : Option String) (db : Db) (productId : String) :
    Response StockRow :=
  match fault with
  | some msg => errorResponse 500 msg
  | none =>
      match joinStock db (matchesProduct (JsValue.string productId)) (fun s p =>
          ({ product_id := s.product_id, quantity := s.quantity, min_stock := s.min_stock,
             max_stock := s.max_stock, product_name := p.name, sku := p.sku,
             price := JsValue.undefined, status := statusOfProduct s } : StockRow)) with
      | [] => errorResponse 404 "Stock not found"
      | row :: _ =>
          { status := 200, success := true, data := some row, count := none, error := none,
            message := none, available := none, requested := none }

/-! ## Vocabulary of the statements -/

/-- The quantity a handler reads for a product: `stockRows[0].quantity`. -/
def currentQuantity (db : Db) (product_id : JsValue) : Option Int :=
  (selectQuantity db product_id).head?

/-- The store after an accepted movement: the stock rows of the product carry
the new quantity and the record is appended to the ledger. -/
def applyMovement (db : Db) (product_id : JsValue) (q : Int) (r : MovementRecord) : Db :=
  { db with
    stock := db.stock.map (fun s => if matchesProduct product_id s then { s with quantity := q } else s),
    stock_movements := db.stock_movements ++ [r] }

/-- What an accepted request has done, in terms of the values the engine
stored: `newQty` is the handler's computation of the new quantity from the
quantity read. -/
def Accepted (E : Engine) (t : MovementType) (dflt : String) (newQty : Int → JsNumber)
    (db : Db) (body : MovementBody) (out : Outcome) : Prop :=
  ∃ prev rest p qi rs pv nw,
    selectQuantity db body.product_id = prev :: rest ∧
    E.intColumn body.product_id = Except.ok p ∧ E.intColumn body.quantity = Except.ok qi ∧
    E.textColumn (body.reason.or (JsValue.string dflt)) = Except.ok rs ∧
    E.intColumn (JsValue.ofInt prev) = Except.ok pv ∧
    E.intColumn (JsValue.number (newQty prev)) = Except.ok nw ∧
    out.response.data = some ⟨body.product_id, prev, newQty prev⟩ ∧
    out.db = applyMovement db body.product_id nw ⟨p, t, qi, rs, pv, nw⟩

/-- The body of a movement request. -/
def MovementRequest.body : MovementRequest → MovementBody
  | MovementRequest.stockIn b => b
  | MovementRequest.stockOut b => b

/-- The direction of the endpoint a request is sent to. -/
def MovementRequest.direction : MovementRequest → MovementType
  | MovementRequest.stockIn _ => MovementType.IN
  | MovementRequest.stockOut _ => MovementType.OUT

/-- The default reason of a direction. -/
def defaultReason : MovementType → String
  | MovementType.IN => "Stock entry"
  | MovementType.OUT => "Stock exit"

/-- An absent, `null` or string value: the shape of the optional `reason`. -/
def JsValue.IsOptionalString (v : JsValue) : Prop :=
  v = JsValue.undefined ∨ v = JsValue.null ∨ ∃ s : String, v = JsValue.string s

/-- The text of `reason || dflt` for an optional string `reason`. -/
def storedReason (dflt : String) : JsValue → String
  | JsValue.string s => if s.isEmpty then dflt else s
  | _ => dflt

/-- The sum of the `quantity` fields of the records of one product and one
direction. -/
def ledgerSum (t : MovementType) (product_id : Int) (ms : List MovementRecord) : Int :=
  ((ms.filter (fun m => decide (m.product_id = product_id ∧ m.movement_type = t))).map
    (fun m => m.quantity)).sum

/-- The balance of a product's ledger: IN quantities minus OUT quantities. -/
def ledgerBalance (product_id : Int) (ms : List MovementRecord) : Int :=
  ledgerSum MovementType.IN product_id ms - ledgerSum MovementType.OUT product_id ms

/-- A store with one product, its stock row at the given quantity with the
default thresholds 5 and 100, and an empty ledger. -/
def sampleDb (quantity : Int) : Db :=
  { products := [⟨1, "Laptop", "LAP-001", JsValue.string "999.99", none, none⟩],
    stock := [⟨1, quantity, 5, 100⟩],
    stock_movements := [] }

/-- The Status Classifier in the words of the specification: `LOW` if
`quantity <= min_stock`, `HIGH` if `quantity >= max_stock`, else `NORMAL`. -/
def classifyStatus (quantity min_stock max_stock : Int) : StockStatus :=
  if quantity ≤ min_stock then StockStatus.LOW
  else if quantity ≥ max_stock then StockStatus.HIGH
  else StockStatus.NORMAL

/-- The ledger invariant for one product: every stock row of the product holds
the balance of the product's ledger, and it is not negative. -/
def LedgerInvariant (db : Db) (product_id : Int) : Prop :=
  ∀ s ∈ db.stock, s.product_id = product_id →
    s.quantity = ledgerBalance product_id db.stock_movements ∧ 0 ≤ s.quantity

/-- A request whose product_id and quantity are integers (of any sign). -/
def MovementRequest.IsIntegral (r : MovementRequest) : Prop :=
  ∃ p q : Int, r.body.product_id = JsValue.ofInt p ∧ r.body.quantity = JsValue.ofInt q

/-! ## The handlers with a rollback that can fail -/

/-- How the `try` block of a movement handler ends: with a `return` (or by
reaching its end) after sending a response, the store being `db`, or by
throwing an error. -/
inductive TryEnd where
  | returned (db : Db) (response : Response MovementData)
  | threw (msg : String)
  deriving DecidableEq

/-- A run of the `try` block: the calls made on the connection and the way the
block ends. -/
structure TryRun where
  calls : List ConnCall
  ending : TryEnd
  deriving DecidableEq

/-- A run of a whole handler when `rollback` may throw too: then no response
may be sent at all. -/
structure HandlerRun where
  db : Db
  response : Option (Response MovementData)
  calls : List ConnCall
  deriving DecidableEq

/-- The `try` block of `POST /api/stock/in`; `rollback` is the error a call of
`connection.rollback()` throws, if it throws. -/
def stockInTry (E : Engine) (f : Faults) (rollback : Option String) (db : Db)
    (body : MovementBody) : TryRun :=
  match f.beginTransaction with
  | some msg => ⟨[ConnCall.beginTransaction], TryEnd.threw msg⟩
  | none =>
    if !body.product_id.truthy || !body.quantity.truthy || body.quantity.toNumber.leZero then
      ⟨[ConnCall.beginTransaction],
        TryEnd.returned db
          (errorResponse 400 "Valid product_id and positive quantity are required")⟩
    else
      match attempt f.select (Except.ok (selectQuantity db body.product_id)) with
      | Except.error msg => ⟨[ConnCall.beginTransaction, ConnCall.select], TryEnd.threw msg⟩
      | Except.ok [] =>
          match rollback with
          | some msg =>
              ⟨[ConnCall.beginTransaction, ConnCall.select, ConnCall.rollback], TryEnd.threw msg⟩
          | none =>
              ⟨[ConnCall.beginTransaction, ConnCall.select, ConnCall.rollback],
                TryEnd.returned db (errorResponse 404 "Product not found")⟩
      | Except.ok (previousQty :: _) =>
          let newQty := (JsNumber.ofInt previousQty).add (parseInt body.quantity)
          match attempt f.update (updateQuantity E db newQty body.product_id) with
          | Except.error msg =>
              ⟨[ConnCall.beginTransaction, ConnCall.select, ConnCall.update], TryEnd.threw msg⟩
          | Except.ok tx1 =>
              match attempt f.insert (insertMovement E tx1 body.product_id MovementType.IN
                  body.quantity (body.reason.or (JsValue.string "Stock entry")) previousQty
                  newQty) with
              | Except.error msg =>
                  ⟨[ConnCall.beginTransaction, ConnCall.select, ConnCall.update, ConnCall.insert],
                    TryEnd.threw msg⟩
              | Except.ok tx2 =>
                  match f.commit with
                  | some msg =>
                      ⟨[ConnCall.beginTransaction, ConnCall.select, ConnCall.update,
                        ConnCall.insert, ConnCall.commit], TryEnd.threw msg⟩
                  | none =>
                      ⟨[ConnCall.beginTransaction, ConnCall.select, ConnCall.update,
                        ConnCall.insert, ConnCall.commit],
                        TryEnd.returned tx2
                          { status := 200, success := true,
                            data := some { product_id := body.product_id,
                                           previous_quantity := previousQty,
                                           new_quantity := newQty },
                            count := none, error := none,
                            message := some "Stock entry registered successfully",
                            available := none, requested := none }⟩

/-- The `try` block of `POST /api/stock/out`. -/
def stockOutTry (E : Engine) (f : Faults) (rollback : Option String) (db : Db)
    (body : MovementBody) : TryRun :=
  match f.beginTransaction with
  | some msg => ⟨[ConnCall.beginTransaction], TryEnd.threw msg⟩
  | none =>
    if !body.product_id.truthy || !body.quantity.truthy || body.quantity.toNumber.leZero then
      ⟨[ConnCall.beginTransaction],
        TryEnd.returned db
          (errorResponse 400 "Valid product_id and positive quantity are required")⟩
    else
      match attempt f.select (Except.ok (selectQuantity db body.product_id)) with
      | Except.error msg => ⟨[ConnCall.beginTransaction, ConnCall.select], TryEnd.threw msg⟩
      | Except.ok [] =>
          match rollback with
          | some msg =>
              ⟨[ConnCall.beginTransaction, ConnCall.select, ConnCall.rollback], TryEnd.threw msg⟩
          | none =>
              ⟨[ConnCall.beginTransaction, ConnCall.select, ConnCall.rollback],
                TryEnd.returned db (errorResponse 404 "Product not found")⟩
      | Except.ok (previousQty :: _) =>
          let newQty := (JsNumber.ofInt previousQty).sub (parseInt body.quantity)
          if newQty.ltZero then
            match rollback with
            | some msg =>
                ⟨[ConnCall.beginTransaction, ConnCall.select, ConnCall.rollback],
                  TryEnd.threw msg⟩
            | none =>
                ⟨[ConnCall.beginTransaction, ConnCall.select, ConnCall.rollback],
                  TryEnd.returned db
                    { status := 400, success := false, data := none, count := none,
                      error := some "Insufficient stock", message := none,
                      available := some previousQty, requested := some body.quantity }⟩
          else
            match attempt f.update (updateQuantity E db newQty body.product_id) with
            | Except.error msg =>
                ⟨[ConnCall.beginTransaction, ConnCall.select, ConnCall.update], TryEnd.threw msg⟩
            | Except.ok tx1 =>
                match attempt f.insert (insertMovement E tx1 body.product_id MovementType.OUT
                    body.quantity (body.reason.or (JsValue.string "Stock exit")) previousQty
                    newQty) with
                | Except.error msg =>
                    ⟨[ConnCall.beginTransaction, ConnCall.select, ConnCall.update,
                      ConnCall.insert], TryEnd.threw msg⟩
                | Except.ok tx2 =>
                    match f.commit with
                    | some msg =>
                        ⟨[ConnCall.beginTransaction, ConnCall.select, ConnCall.update,
                          ConnCall.insert, ConnCall.commit], TryEnd.threw msg⟩
                    | none =>
                        ⟨[ConnCall.beginTransaction, ConnCall.select, ConnCall.update,
                          ConnCall.insert, ConnCall.commit],
                          TryEnd.returned tx2
                            { status := 200, success := true,
                              data := some { product_id := body.product_id,
                                             previous_quantity := previousQty,
                                             new_quantity := newQty },
                              count := none, error := none,
                              message := some "Stock exit registered successfully",
                              available := none, requested := none }⟩

/-- The `catch` and `finally` blocks around a run of the `try` block that
started on the store `db`: an error is answered by `rollback` and the 500
response, unless `rollback` throws in its turn and the error leaves the handler
with no response sent; `release` is called last in every case.  The store is
the committed one: a transaction left open commits nothing here. -/
def finishRun (rollback : Option String) (db : Db) (t : TryRun) : HandlerRun :=
  match t.ending with
  | TryEnd.returned db' response =>
      { db := db', response := some response, calls := t.calls ++ [ConnCall.release] }
  | TryEnd.threw msg =>
      match rollback with
      | some _ =>
          { db := db, response := none,
            calls := t.calls ++ [ConnCall.rollback, ConnCall.release] }
      | none =>
          { db := db, response := some (errorResponse 500 msg),
            calls := t.calls ++ [ConnCall.rollback, ConnCall.release] }

/-- A movement handler from the acquisition of the connection to its release,
with a `rollback` that may fail. -/
def handleMovement (E : Engine) (f : Faults) (rollback : Option String) (db : Db) :
    MovementRequest → HandlerRun
  | MovementRequest.stockIn body => finishRun rollback db (stockInTry E f rollback db body)
  | MovementRequest.stockOut body => finishRun rollback db (stockOutTry E f rollback db body)

/-! ## The movement history -/

/-- A row of the movement history: `sm.*`, that is the record, its position in
the ledger as `id` and its creation time, with the product's name and SKU. -/
structure MovementRow where
  id : Nat
  movement : MovementRecord
  created_at : Nat
  product_name : String
  sku : String
  deriving DecidableEq

/-- The rows of `stock_movements sm INNER JOIN products p ON sm.product_id =
p.id` that a `WHERE` clause keeps; `createdAt i` is the creation time the store
gave to the record at position `i` of the ledger. -/
def joinMovements (createdAt : Nat → Nat) (db : Db) (keep : MovementRecord → Bool) :
    List MovementRow :=
  (db.stock_movements.enum.filter (fun im => keep im.2)).flatMap (fun im =>
    (db.products.filter (fun p => decide (im.2.product_id = p.id))).map
      (fun p => ⟨im.1, im.2, createdAt im.1, p.name, p.sku⟩))

/-- The order of `ORDER BY sm.created_at DESC`. -/
def newestFirst (a b : MovementRow) : Prop := b.created_at ≤ a.created_at

instance newestFirstDecidable : DecidableRel newestFirst :=
  fun a b => inferInstanceAs (Decidable (b.created_at ≤ a.created_at))

instance newestFirstTotal : IsTotal MovementRow newestFirst :=
  ⟨fun a b => Nat.le_total b.created_at a.created_at⟩

instance newestFirstTrans : IsTrans MovementRow newestFirst :=
  ⟨fun _ _ _ hab hbc => Nat.le_trans hbc hab⟩

/-- The condition the history query puts on a record: `sm.product_id = ?` when
the route carries a product id, none otherwise. -/
def historyFilter (productId : Option String) (m : MovementRecord) : Bool :=
  match productId with
  | some s =>
      if (JsValue.string s).truthy then (JsValue.string s).toNumber.eqInt m.product_id
      else true
  | none => true

/-- The handler of `GET /api/stock/movements/:productId?`; `fault` is the
failure of the query, if any. -/
def getMovements (fault : Option String) (createdAt : Nat → Nat) (db : Db)
    (productId : Option String) : Response (List MovementRow) :=
  match fault with
  | some msg => errorResponse 500 msg
  | none =>
      let rows := ((joinMovements createdAt db (historyFilter productId)).insertionSort
        newestFirst).take 100
      { status := 200, success := true, data := some rows, count := some rows.length,
        error := none, message := none, available := none, requested := none }

/-- Referential integrity of the ledger: every record refers to a row of
`products`. -/
def LedgerRefersToProducts (db : Db) : Prop :=
  ∀ m ∈ db.stock_movements, ∃ p ∈ db.products, m.product_id = p.id

/-- A store with two products and a ledger of three records, the second one of
product 2. -/
def historyDb : Db :=
  { products := [⟨1, "Laptop", "LAP-001", JsValue.string "999.99", none, none⟩,
                 ⟨2, "Mouse", "MOU-001", JsValue.string "19.90", none, none⟩],
    stock := [⟨1, 12, 5, 100⟩, ⟨2, 4, 5, 100⟩],
    stock_movements := [⟨1, MovementType.IN, 15, "Stock entry", 0, 15⟩,
                        ⟨2, MovementType.IN, 4, "Stock entry", 0, 4⟩,
                        ⟨1, MovementType.OUT, 3, "sold", 15, 12⟩] }

/-! ## The products service: creation of a product -/

/-- The exponent that leads a text, if one does: `e` or `E`, an optional sign
and digits; `0` when the text does not start with an exponent part. -/
def leadingExponent : List Char → Int
  | [] => 0
  | c :: cs =>
      if c = 'e' ∨ c = 'E' then
        match (takeDigits 10 (takeSign cs).2).1 with
        | [] => 0
        | ds => if (takeSign cs).1 then -(digitsValue 10 ds : Int) else (digitsValue 10 ds : Int)
      else 0

/-- The builtin `parseFloat` on a string: leading white space, then the
longest decimal literal that starts the text (`Infinity` included); `NaN` when
there is none. -/
def parseFloatString (s : String) : JsNumber :=
  let t := s.toList.dropWhile isStrWhiteSpace
  let negative := (takeSign t).1
  let body := (takeSign t).2
  if body.take 8 = "Infinity".toList then
    (if negative then JsNumber.negInf else JsNumber.posInf)
  else
    let ip := takeDigits 10 body
    let fp : List Nat × List Char :=
      match ip.2 with
      | '.' :: rest => takeDigits 10 rest
      | rest => ([], rest)
    if ip.1.isEmpty && fp.1.isEmpty then JsNumber.nan
    else scaled negative (digitsValue 10 (ip.1 ++ fp.1)) fp.1.length (leadingExponent fp.2)

/-- The builtin `parseFloat(v)`: `v` is turned into a string and the leading
decimal literal of that string is read.  A number prints as a literal of its
own value; `undefined`, `null` and booleans print as words and give `NaN`. -/
def parseFloat : JsValue → JsNumber
  | JsValue.number x => x
  | JsValue.string s => parseFloatString s
  | _ => JsNumber.nan

/-- An error thrown by a storage call: `error.code` (absent for an error that
does not come from the server) and `error.message`. -/
structure StorageError where
  code : Option String
  message : String
  deriving DecidableEq

/-- What the storage engine does with the parameters bound to the columns of
`products`: the stored value, or the error it raises.  The schema is not in the
sources, so this is a parameter. -/
structure CatalogEngine where
  textColumn : JsValue → Except StorageError String
  optionalTextColumn : JsValue → Except StorageError (Option String)
  priceColumn : JsNumber → Except StorageError JsValue

/-- The error of a duplicate key, by the code the handlers test. -/
def duplicateEntry : StorageError :=
  { code := some "ER_DUP_ENTRY", message := "Duplicate entry" }

/-- Modelled from the spec: the table definitions are not in the sources.  This
engine takes strings in the required text columns, strings and `null` in the
optional ones, and keeps a finite price as the number it is. -/
def referenceCatalog : CatalogEngine where
  textColumn := fun v =>
    match v with
    | JsValue.string s => Except.ok s
    | _ => Except.error ⟨some "ER_BAD_NULL_ERROR", "Column cannot be null"⟩
  optionalTextColumn := fun v =>
    match v with
    | JsValue.string s => Except.ok (some s)
    | JsValue.null => Except.ok none
    | _ => Except.error ⟨none, "Bind parameters must not contain undefined"⟩
  priceColumn := fun x =>
    match x with
    | JsNumber.fin m k => Except.ok (JsValue.number (JsNumber.fin m k))
    | _ => Except.error ⟨some "ER_TRUNCATED_WRONG_VALUE", "Incorrect decimal value"⟩

/-- The fields the creation handler reads from `req.body`. -/
structure ProductBody where
  name : JsValue
  description : JsValue
  sku : JsValue
  price : JsValue
  category : JsValue
  deriving DecidableEq

/-- The `data` of a created or updated product; `id` is the number
`result.insertId` after a creation and the route parameter after an update. -/
structure ProductData where
  id : JsValue
  name : JsValue
  sku : JsValue
  price : JsValue
  category : JsValue
  deriving DecidableEq

/-- The storage calls of a creation that fail for a reason of their own
(`none`: the call runs). -/
structure CreateFaults where
  insertProduct : Option StorageError
  insertStock : Option StorageError
  deriving DecidableEq

/-- One awaited call of `pool.execute`: it throws when the call is faulty or
the store rejects the statement. -/
def execute {α : Type} (fault : Option StorageError) (result : Except StorageError α) :
    Except StorageError α :=
  match fault with
  | some e => Except.error e
  | none => result

/-- The statement `INSERT INTO products (name, description, sku, price,
category) VALUES (?, ?, ?, ?, ?)`, in a store that gives the new row the id
`insertId`.  Modelled from the spec: the keys are not in the sources; the SKU
is unique, and so is the id. -/
def insertProduct (C : CatalogEngine) (insertId : Int) (db : Db) (name description sku : JsValue)
    (price : JsNumber) (category : JsValue) : Except StorageError Db :=
  match C.textColumn name, C.optionalTextColumn description, C.textColumn sku,
      C.priceColumn price, C.optionalTextColumn category with
  | Except.ok n, Except.ok d, Except.ok s, Except.ok p, Except.ok c =>
      if db.products.any (fun row => decide (row.sku = s ∨ row.id = insertId)) then
        Except.error duplicateEntry
      else
        Except.ok { db with products := db.products ++ [⟨insertId, n, s, p, d, c⟩] }
  | Except.error e, _, _, _, _ => Except.error e
  | _, Except.error e, _, _, _ => Except.error e
  | _, _, Except.error e, _, _ => Except.error e
  | _, _, _, Except.error e, _ => Except.error e
  | _, _, _, _, Except.error e => Except.error e

/-- The statement `INSERT INTO stock (product_id, quantity, min_stock,
max_stock) VALUES (?, 0, 5, 100)`.  Modelled from the spec: the keys are not in
the sources; a product has one stock row at most. -/
def insertStock (db : Db) (product_id : Int) : Except StorageError Db :=
  if db.stock.any (fun s => decide (s.product_id = product_id)) then
    Except.error duplicateEntry
  else
    Except.ok { db with stock := db.stock ++ [⟨product_id, 0, 5, 100⟩] }

/-- The `catch` block of the creation handler. -/
def createFailed (error : StorageError) : Response ProductData :=
  if error.code = some "ER_DUP_ENTRY" then errorResponse 409 "SKU already exists"
  else errorResponse 500 error.message

/-- The handler of `POST /api/products`: the committed store afterwards and the
response.  Each call of `pool.execute` is committed on its own. -/
def createProduct (C : CatalogEngine) (f : CreateFaults) (insertId : Int) (db : Db)
    (body : ProductBody) : Db × Response ProductData :=
  if !body.name.truthy || !body.sku.truthy || !body.price.truthy then
    (db, errorResponse 400 "Name, SKU, and price are required")
  else
    match execute f.insertProduct (insertProduct C insertId db body.name body.description
        body.sku (parseFloat body.price) body.category) with
    | Except.error error => (db, createFailed error)
    | Except.ok db1 =>
        match execute f.insertStock (insertStock db1 insertId) with
        | Except.error error => (db1, createFailed error)
        | Except.ok db2 =>
            (db2,
              { status := 201, success := true,
                data := some { id := JsValue.ofInt insertId, name := body.name,
                               sku := body.sku,
                               price := body.price, category := body.category },
                count := none, error := none, message := some "Product created successfully",
                available := none, requested := none })

/-- A store with no rows. -/
def emptyDb : Db := { products := [], stock := [], stock_movements := [] }

/-- A creation request with every field, at the given price. -/
def penBody (price : JsValue) : ProductBody :=
  { name := JsValue.string "Pen", description := JsValue.string "Blue pen",
    sku := JsValue.string "PEN-001", price := price, category := JsValue.string "Office" }

/-! ## The other handlers, on the answers of the store

The handlers below are functions of what `pool.execute` gives back: the rows of
a `SELECT` (of a type `Row`, the columns not being in the sources), the result
of a write, or the error thrown. -/

/-- The result of a write: `result.affectedRows` and `result.insertId`. -/
structure WriteResult where
  affectedRows : Nat
  insertId : Int
  deriving DecidableEq

/-- The body `{ success: true, data, count }` of a list. -/
def listResponse {Row : Type} (rows : List Row) : Response (List Row) :=
  { status := 200, success := true, data := some rows, count := some rows.length,
    error := none, message := none, available := none, requested := none }

/-- The body `{ success: true, data }`. -/
def dataResponse {α : Type} (data : α) : Response α :=
  { status := 200, success := true, data := some data, count := none, error := none,
    message := none, available := none, requested := none }

/-- The body `{ success: true, data, message }` sent with a status. -/
def savedResponse {α : Type} (status : Nat) (data : α) (message : String) : Response α :=
  { status := status, success := true, data := some data, count := none, error := none,
    message := some message, available := none, requested := none }

/-- The body `{ success: true, message }`. -/
def messageResponse {α : Type} (message : String) : Response α :=
  { status := 200, success := true, data := none, count := none, error := none,
    message := some message, available := none, requested := none }

/-- The handler of `GET /api/products`. -/
def getProducts {Row : Type} (result : Except StorageError (List Row)) : Response (List Row) :=
  match result with
  | Except.ok rows => listResponse rows
  | Except.error error => errorResponse 500 error.message

/-- The handler of `GET /api/products/:id`. -/
def getProductById {Row : Type} (result : Except StorageError (List Row)) : Response Row :=
  match result with
  | Except.ok [] => errorResponse 404 "Product not found"
  | Except.ok (row :: _) => dataResponse row
  | Except.error error => errorResponse 500 error.message

/-- The handler of `PUT /api/products/:id`. -/
def updateProduct (id : String) (body : ProductBody) (result : Except StorageError WriteResult) :
    Response ProductData :=
  match result with
  | Except.ok r =>
      if r.affectedRows = 0 then errorResponse 404 "Product not found"
      else savedResponse 200
        { id := JsValue.string id, name := body.name, sku := body.sku, price := body.price,
          category := body.category } "Product updated successfully"
  | Except.error error => errorResponse 500 error.message

/-- The handler of `DELETE /api/products/:id`. -/
def deleteProduct (result : Except StorageError WriteResult) : Response Unit :=
  match result with
  | Except.ok r =>
      if r.affectedRows = 0 then errorResponse 404 "Product not found"
      else messageResponse "Product deleted successfully"
  | Except.error error => errorResponse 500 error.message

/-- The handler of `GET /api/products/categories/list`; `category` reads the
column of a row. -/
def getCategories {Row : Type} (category : Row → JsValue)
    (result : Except StorageError (List Row)) : Response (List JsValue) :=
  match result with
  | Except.ok rows => dataResponse (rows.map category)
  | Except.error error => errorResponse 500 error.message

/-- The fields the supplier handlers read from `req.body`. -/
structure SupplierBody where
  name : JsValue
  contact_person : JsValue
  email : JsValue
  phone : JsValue
  address : JsValue
  city : JsValue
  country : JsValue
  status : JsValue
  deriving DecidableEq

/-- The `data` of a created or updated supplier. -/
structure SupplierData where
  id : JsValue
  name : JsValue
  contact_person : JsValue
  email : JsValue
  status : JsValue
  deriving DecidableEq

/-- The handler of `GET /api/suppliers`. -/
def getSuppliers {Row : Type} (result : Except StorageError (List Row)) : Response (List Row) :=
  match result with
  | Except.ok rows => listResponse rows
  | Except.error error => errorResponse 500 error.message

/-- The handler of `GET /api/suppliers/:id`. -/
def getSupplierById {Row : Type} (result : Except StorageError (List Row)) : Response Row :=
  match result with
  | Except.ok [] => errorResponse 404 "Supplier not found"
  | Except.ok (row :: _) => dataResponse row
  | Except.error error => errorResponse 500 error.message

/-- The handler of `POST /api/suppliers`. -/
def createSupplier (body : SupplierBody) (result : Except StorageError WriteResult) :
    Response SupplierData :=
  if !body.name.truthy then errorResponse 400 "Supplier name is required"
  else
    match result with
    | Except.ok r =>
        savedResponse 201
          { id := JsValue.ofInt r.insertId, name := body.name,
            contact_person := body.contact_person, email := body.email,
            status := body.status.or (JsValue.string "ACTIVE") }
          "Supplier created successfully"
    | Except.error error => errorResponse 500 error.message

/-- The handler of `PUT /api/suppliers/:id`. -/
def updateSupplier (id : String) (body : SupplierBody)
    (result : Except StorageError WriteResult) : Response SupplierData :=
  match result with
  | Except.ok r =>
      if r.affectedRows = 0 then errorResponse 404 "Supplier not found"
      else savedResponse 200
        { id := JsValue.string id, name := body.name, contact_person := body.contact_person,
          email := body.email, status := body.status } "Supplier updated successfully"
  | Except.error error => errorResponse 500 error.message

/-- The handler of `DELETE /api/suppliers/:id`. -/
def deleteSupplier (result : Except StorageError WriteResult) : Response Unit :=
  match result with
  | Except.ok r =>
      if r.affectedRows = 0 then errorResponse 404 "Supplier not found"
      else messageResponse "Supplier deleted successfully"
  | Except.error error => errorResponse 500 error.message

/-- The handler of `GET /api/suppliers/:id/products`. -/
def getSupplierProducts {Row : Type} (result : Except StorageError (List Row)) :
    Response (List Row) :=
  match result with
  | Except.ok rows => listResponse rows
  | Except.error error => errorResponse 500 error.message

/-- The fields the association handler reads from `req.body`. -/
structure AssociationBody where
  product_id : JsValue
  cost_price : JsValue
  is_primary : JsValue
  deriving DecidableEq

/-- The `data` of a created association. -/
structure AssociationData where
  id : Int
  product_id : JsValue
  supplier_id : String
  cost_price : JsValue
  deriving DecidableEq

/-- The handler of `POST /api/suppliers/:supplierId/products`. -/
def associateProduct (supplierId : String) (body : AssociationBody)
    (result : Except StorageError WriteResult) : Response AssociationData :=
  if !body.product_id.truthy then errorResponse 400 "Product ID is required"
  else
    match result with
    | Except.ok r =>
        savedResponse 201
          { id := r.insertId, product_id := body.product_id, supplier_id := supplierId,
            cost_price := body.cost_price }
          "Product associated with supplier successfully"
    | Except.error error =>
        if error.code = some "ER_DUP_ENTRY" then
          errorResponse 409 "Product already associated with this supplier"
        else errorResponse 500 error.message

/-- The handler of `DELETE /api/suppliers/:supplierId/products/:productId`. -/
def disassociateProduct (result : Except StorageError WriteResult) : Response Unit :=
  match result with
  | Except.ok r =>
      if r.affectedRows = 0 then errorResponse 404 "Association not found"
      else messageResponse "Product disassociated from supplier successfully"
  | Except.error error => errorResponse 500 error.message

/-- The handler of `GET /api/suppliers/cities/list`; `city` reads the column of
a row. -/
def getCities {Row : Type} (city : Row → JsValue) (result : Except StorageError (List Row)) :
    Response (List JsValue) :=
  match result with
  | Except.ok rows => dataResponse (rows.map city)
  | Except.error error => errorResponse 500 error.message

/-- A row of the low-stock alerts: `s.*` and the product's name, SKU and
price. -/
structure AlertRow where
  product_id : Int
  quantity : Int
  min_stock : Int
  max_stock : Int
  product_name : String
  sku : String
  price : JsValue
  deriving DecidableEq

/-- The handler of `GET /api/stock/alerts/low`; `fault` is the failure of the
query, if any. -/
def getLowStockAlerts (fault : Option String) (db : Db) : Response (List AlertRow) :=
  match fault with
  | some msg => errorResponse 500 msg
  | none =>
      listResponse ((joinStock db (fun s => decide (s.quantity ≤ s.min_stock)) (fun s p =>
          ({ product_id := s.product_id, quantity := s.quantity, min_stock := s.min_stock,
             max_stock := s.max_stock, product_name := p.name, sku := p.sku,
             price := p.price } : AlertRow))).insertionSort
          (fun a b => a.quantity ≤ b.quantity))

/-! ## The operations of the stock service -/

/-- A request to one of the endpoints of the stock service that reach the
store. -/
inductive StockOperation where
  | listStock
  | stockOfProduct (productId : String)
  | movement (request : MovementRequest)
  | history (productId : Option String)
  | lowStockAlerts
  deriving DecidableEq

/-- The committed store after an operation and the status of the answer.  The
four listings run a `SELECT` only; `fault` is the failure of that query and
`createdAt` the creation times of the ledger. -/
def StockOperation.run (E : Engine) (f : Faults) (fault : Option String)
    (createdAt : Nat → Nat) (db : Db) : StockOperation → Db × Nat
  | StockOperation.listStock => (db, (getStock fault db).status)
  | StockOperation.stockOfProduct productId => (db, (getStockByProduct fault db productId).status)
  | StockOperation.movement request =>
      ((serve E f db request).db, (serve E f db request).response.status)
  | StockOperation.history productId => (db, (getMovements fault createdAt db productId).status)
  | StockOperation.lowStockAlerts => (db, (getLowStockAlerts fault db).status)

/-! ## The response envelope -/

/-- The rule of the envelope: a response with status 400, 404, 409 or 500 has
`success: false`, a non-empty `error` and no `data`; a response with status 200
or 201 has `success: true` and no `error`. -/
def Response.IsEnveloped {α : Type} (r : Response α) : Prop :=
  ((r.status = 400 ∨ r.status = 404 ∨ r.status = 409 ∨ r.status = 500) →
    r.success = false ∧ (∃ e : String, r.error = some e ∧ e ≠ "") ∧ r.data = none) ∧
  ((r.status = 200 ∨ r.status = 201) → r.success = true ∧ r.error = none)

/-- A failure of a query that has a message. -/
def FaultNamed (fault : Option String) : Prop := fault ≠ some ""

/-- Storage failures that all have a message. -/
def Faults.Named (f : Faults) : Prop :=
  FaultNamed f.beginTransaction ∧ FaultNamed f.select ∧ FaultNamed f.update ∧
  FaultNamed f.insert ∧ FaultNamed f.commit

/-- An engine whose errors all have a message. -/
def Engine.Named (E : Engine) : Prop :=
  (∀ v : JsValue, E.intColumn v ≠ Except.error "") ∧
  (∀ v : JsValue, E.textColumn v ≠ Except.error "")

/-- An answer of the store whose error, if it is one, has a message. -/
def AnswerNamed {α : Type} (result : Except StorageError α) : Prop :=
  ∀ e : StorageError, result = Except.error e → e.message ≠ ""

/-- A catalog engine whose errors all have a message. -/
def CatalogEngine.Named (C : CatalogEngine) : Prop :=
  (∀ v : JsValue, AnswerNamed (C.textColumn v)) ∧
  (∀ v : JsValue, AnswerNamed (C.optionalTextColumn v)) ∧
  (∀ x : JsNumber, AnswerNamed (C.priceColumn x))

/-- Failures of a creation that all have a message. -/
def CreateFaults.Named (f : CreateFaults) : Prop :=
  (∀ e, f.insertProduct = some e → e.message ≠ "") ∧
  (∀ e, f.insertStock = some e → e.message ≠ "")

/-- A call of one of the `/api` handlers of the three services, with what the
store holds or answers; `Row` is the type of the rows of the `SELECT *`
queries. -/
inductive ApiCall (Row : Type) where
  | getStock (fault : Option String) (db : Db)
  | getStockByProduct (fault : Option String) (db : Db) (productId : String)
  | stockIn (E : Engine) (f : Faults) (db : Db) (body : MovementBody)
  | stockOut (E : Engine) (f : Faults) (db : Db) (body : MovementBody)
  | getMovements (fault : Option String) (createdAt : Nat → Nat) (db : Db)
      (productId : Option String)
  | getLowStockAlerts (fault : Option String) (db : Db)
  | getProducts (result : Except StorageError (List Row))
  | getProductById (result : Except StorageError (List Row))
  | createProduct (C : CatalogEngine) (f : CreateFaults) (insertId : Int) (db : Db)
      (body : ProductBody)
  | updateProduct (id : String) (body : ProductBody) (result : Except StorageError WriteResult)
  | deleteProduct (result : Except StorageError WriteResult)
  | getCategories (category : Row → JsValue) (result : Except StorageError (List Row))
  | getSuppliers (result : Except StorageError (List Row))
  | getSupplierById (result : Except StorageError (List Row))
  | createSupplier (body : SupplierBody) (result : Except StorageError WriteResult)
  | updateSupplier (id : String) (body : SupplierBody)
      (result : Except StorageError WriteResult)
  | deleteSupplier (result : Except StorageError WriteResult)
  | getSupplierProducts (result : Except StorageError (List Row))
  | associateProduct (supplierId : String) (body : AssociationBody)
      (result : Except StorageError WriteResult)
  | disassociateProduct (result : Except StorageError WriteResult)
  | getCities (city : Row → JsValue) (result : Except StorageError (List Row))

/-- Every error the store throws in the call has a message. -/
def ApiCall.Named {Row : Type} : ApiCall Row → Prop
  | ApiCall.getStock fault _ => FaultNamed fault
  | ApiCall.getStockByProduct fault _ _ => FaultNamed fault
  | ApiCall.stockIn E f _ _ => E.Named ∧ f.Named
  | ApiCall.stockOut E f _ _ => E.Named ∧ f.Named
  | ApiCall.getMovements fault _ _ _ => FaultNamed fault
  | ApiCall.getLowStockAlerts fault _ => FaultNamed fault
  | ApiCall.getProducts result => AnswerNamed result
  | ApiCall.getProductById result => AnswerNamed result
  | ApiCall.createProduct C f _ _ _ => C.Named ∧ f.Named
  | ApiCall.updateProduct _ _ result => AnswerNamed result
  | ApiCall.deleteProduct result => AnswerNamed result
  | ApiCall.getCategories _ result => AnswerNamed result
  | ApiCall.getSuppliers result => AnswerNamed result
  | ApiCall.getSupplierById result => AnswerNamed result
  | ApiCall.createSupplier _ result => AnswerNamed result
  | ApiCall.updateSupplier _ _ result => AnswerNamed result
  | ApiCall.deleteSupplier result => AnswerNamed result
  | ApiCall.getSupplierProducts result => AnswerNamed result
  | ApiCall.associateProduct _ _ result => AnswerNamed result
  | ApiCall.disassociateProduct result => AnswerNamed result
  | ApiCall.getCities _ result => AnswerNamed result

/-- The response of the call follows the rule of the envelope. -/
def ApiCall.Enveloped {Row : Type} : ApiCall Row → Prop
  | ApiCall.getStock fault db => (InventoryEasy.getStock fault db).IsEnveloped
  | ApiCall.getStockByProduct fault db productId =>
      (InventoryEasy.getStockByProduct fault db productId).IsEnveloped
  | ApiCall.stockIn E f db body => (InventoryEasy.stockIn E f db body).response.IsEnveloped
  | ApiCall.stockOut E f db body => (InventoryEasy.stockOut E f db body).response.IsEnveloped
  | ApiCall.getMovements fault createdAt db productId =>
      (InventoryEasy.getMovements fault createdAt db productId).IsEnveloped
  | ApiCall.getLowStockAlerts fault db => (InventoryEasy.getLowStockAlerts fault db).IsEnveloped
  | ApiCall.getProducts result => (InventoryEasy.getProducts result).IsEnveloped
  | ApiCall.getProductById result => (InventoryEasy.getProductById result).IsEnveloped
  | ApiCall.createProduct C f insertId db body =>
      (InventoryEasy.createProduct C f insertId db body).2.IsEnveloped
  | ApiCall.updateProduct id body result =>
      (InventoryEasy.updateProduct id body result).IsEnveloped
  | ApiCall.deleteProduct result => (InventoryEasy.deleteProduct result).IsEnveloped
  | ApiCall.getCategories category result =>
      (InventoryEasy.getCategories category result).IsEnveloped
  | ApiCall.getSuppliers result => (InventoryEasy.getSuppliers result).IsEnveloped
  | ApiCall.getSupplierById result => (InventoryEasy.getSupplierById result).IsEnveloped
  | ApiCall.createSupplier body result => (InventoryEasy.createSupplier body result).IsEnveloped
  | ApiCall.updateSupplier id body result =>
      (InventoryEasy.updateSupplier id body result).IsEnveloped
  | ApiCall.deleteSupplier result => (InventoryEasy.deleteSupplier result).IsEnveloped
  | ApiCall.getSupplierProducts result =>
      (InventoryEasy.getSupplierProducts result).IsEnveloped
  | ApiCall.associateProduct supplierId body result =>
      (InventoryEasy.associateProduct supplierId body result).IsEnveloped
  | ApiCall.disassociateProduct result =>
      (InventoryEasy.disassociateProduct result).IsEnveloped
  | ApiCall.getCities city result => (InventoryEasy.getCities city result).IsEnveloped

/-! ## Storage errors -/

/-- The body of a response without the contents of `data`: what is left says
whether the field is there. -/
def Response.envelope {α : Type} (r : Response α) : Response Unit :=
  { status := r.status, success := r.success, data := r.data.map (fun _ => ()),
    count := r.count, error := r.error, message := r.message, available := r.available,
    requested := r.requested }

/-- The response of a call, without the contents of `data`. -/
def ApiCall.response {Row : Type} : ApiCall Row → Response Unit
  | ApiCall.getStock fault db => (InventoryEasy.getStock fault db).envelope
  | ApiCall.getStockByProduct fault db productId =>
      (InventoryEasy.getStockByProduct fault db productId).envelope
  | ApiCall.stockIn E f db body => (InventoryEasy.stockIn E f db body).response.envelope
  | ApiCall.stockOut E f db body => (InventoryEasy.stockOut E f db body).response.envelope
  | ApiCall.getMovements fault createdAt db productId =>
      (InventoryEasy.getMovements fault createdAt db productId).envelope
  | ApiCall.getLowStockAlerts fault db => (InventoryEasy.getLowStockAlerts fault db).envelope
  | ApiCall.getProducts result => (InventoryEasy.getProducts result).envelope
  | ApiCall.getProductById result => (InventoryEasy.getProductById result).envelope
  | ApiCall.createProduct C f insertId db body =>
      (InventoryEasy.createProduct C f insertId db body).2.envelope
  | ApiCall.updateProduct id body result =>
      (InventoryEasy.updateProduct id body result).envelope
  | ApiCall.deleteProduct result => (InventoryEasy.deleteProduct result).envelope
  | ApiCall.getCategories category result =>
      (InventoryEasy.getCategories category result).envelope
  | ApiCall.getSuppliers result => (InventoryEasy.getSuppliers result).envelope
  | ApiCall.getSupplierById result => (InventoryEasy.getSupplierById result).envelope
  | ApiCall.createSupplier body result => (InventoryEasy.createSupplier body result).envelope
  | ApiCall.updateSupplier id body result =>
      (InventoryEasy.updateSupplier id body result).envelope
  | ApiCall.deleteSupplier result => (InventoryEasy.deleteSupplier result).envelope
  | ApiCall.getSupplierProducts result => (InventoryEasy.getSupplierProducts result).envelope
  | ApiCall.associateProduct supplierId body result =>
      (InventoryEasy.associateProduct supplierId body result).envelope
  | ApiCall.disassociateProduct result => (InventoryEasy.disassociateProduct result).envelope
  | ApiCall.getCities city result => (InventoryEasy.getCities city result).envelope

/-- The message of the error an answer of the store is, if it is one. -/
def thrownBy {α : Type} (result : Except StorageError α) : Option String :=
  match result with
  | Except.error error => some error.message
  | Except.ok _ => none

/-- The message of an error that is not the duplicate key the handler looks
for. -/
def unexpected {α : Type} (result : Except StorageError α) : Option String :=
  match result with
  | Except.error error => if error.code = some "ER_DUP_ENTRY" then none else some error.message
  | Except.ok _ => none

/-- The message of the error a `try` block ends with, if it throws. -/
def TryRun.thrown (t : TryRun) : Option String :=
  match t.ending with
  | TryEnd.threw msg => some msg
  | TryEnd.returned _ _ => none

/-- The message of the unexpected error a storage step of the call throws, if
one does: the failure of the query, the error the `try` block of a movement
ends with, or the error the store answers a statement that is reached with, a
duplicate key apart where the handler looks for it. -/
def ApiCall.thrown {Row : Type} : ApiCall Row → Option String
  | ApiCall.getStock fault _ => fault
  | ApiCall.getStockByProduct fault _ _ => fault
  | ApiCall.stockIn E f db body => (stockInTry E f none db body).thrown
  | ApiCall.stockOut E f db body => (stockOutTry E f none db body).thrown
  | ApiCall.getMovements fault _ _ _ => fault
  | ApiCall.getLowStockAlerts fault _ => fault
  | ApiCall.getProducts result => thrownBy result
  | ApiCall.getProductById result => thrownBy result
  | ApiCall.createProduct C f insertId db body =>
      if !body.name.truthy || !body.sku.truthy || !body.price.truthy then none
      else
        match execute f.insertProduct (insertProduct C insertId db body.name body.description
            body.sku (parseFloat body.price) body.category) with
        | Except.error error => unexpected (Except.error error : Except StorageError Db)
        | Except.ok db1 => unexpected (execute f.insertStock (insertStock db1 insertId))
  | ApiCall.updateProduct _ _ result => thrownBy result
  | ApiCall.deleteProduct result => thrownBy result
  | ApiCall.getCategories _ result => thrownBy result
  | ApiCall.getSuppliers result => thrownBy result
  | ApiCall.getSupplierById result => thrownBy result
  | ApiCall.createSupplier body result => if !body.name.truthy then none else thrownBy result
  | ApiCall.updateSupplier _ _ result => thrownBy result
  | ApiCall.deleteSupplier result => thrownBy result
  | ApiCall.getSupplierProducts result => thrownBy result
  | ApiCall.associateProduct _ body result =>
      if !body.product_id.truthy then none else unexpected result
  | ApiCall.disassociateProduct result => thrownBy result
  | ApiCall.getCities _ result => thrownBy result

/-! ## Requests served at the same time

A movement handler talks to the store four times: the `SELECT` of the quantity,
the `UPDATE`, the `INSERT` and the `COMMIT`.  The `SELECT` is a plain read, with
no `FOR UPDATE`, and the handlers set no isolation level.  On a store whose plain
reads take no lock, another transaction may commit between the `SELECT` of a
request and its `UPDATE`; the `UPDATE` holds the row until the `COMMIT`, so the
three writing calls of a request run as one step here. -/

/-- How a movement handler stands after its `SELECT` and its checks: a response
is sent, or the handler goes on with the quantity it has read. -/
inductive ReadEnd where
  | answered (out : Outcome)
  | goesOn (previousQty : Int)

/-- The first part of a movement handler: `beginTransaction`, the validation,
the `SELECT` of the quantity in the committed store `db`, and the checks made on
what was read. -/
def readPhase (f : Faults) (db : Db) : MovementRequest → ReadEnd
  | MovementRequest.stockIn body =>
      match f.beginTransaction with
      | some msg => ReadEnd.answered (storageError db [ConnCall.beginTransaction] msg)
      | none =>
        if !body.product_id.truthy || !body.quantity.truthy || body.quantity.toNumber.leZero then
          ReadEnd.answered
            { db := db,
              response := errorResponse 400 "Valid product_id and positive quantity are required",
              calls := [ConnCall.beginTransaction, ConnCall.release] }
        else
          match attempt f.select (Except.ok (selectQuantity db body.product_id)) with
          | Except.error msg =>
              ReadEnd.answered
                (storageError db [ConnCall.beginTransaction, ConnCall.select] msg)
          | Except.ok [] =>
              ReadEnd.answered
                { db := db,
                  response := errorResponse 404 "Product not found",
                  calls := [ConnCall.beginTransaction, ConnCall.select, ConnCall.rollback,
                    ConnCall.release] }
          | Except.ok (previousQty :: _) => ReadEnd.goesOn previousQty
  | MovementRequest.stockOut body =>
      match f.beginTransaction with
      | some msg => ReadEnd.answered (storageError db [ConnCall.beginTransaction] msg)
      | none =>
        if !body.product_id.truthy || !body.quantity.truthy || body.quantity.toNumber.leZero then
          ReadEnd.answered
            { db := db,
              response := errorResponse 400 "Valid product_id and positive quantity are required",
              calls := [ConnCall.beginTransaction, ConnCall.release] }
        else
          match attempt f.select (Except.ok (selectQuantity db body.product_id)) with
          | Except.error msg =>
              ReadEnd.answered
                (storageError db [ConnCall.beginTransaction, ConnCall.select] msg)
          | Except.ok [] =>
              ReadEnd.answered
                { db := db,
                  response := errorResponse 404 "Product not found",
                  calls := [ConnCall.beginTransaction, ConnCall.select, ConnCall.rollback,
                    ConnCall.release] }
          | Except.ok (previousQty :: _) =>
              if ((JsNumber.ofInt previousQty).sub (parseInt body.quantity)).ltZero then
                ReadEnd.answered
                  { db := db,
                    response :=
                      { status := 400, success := false, data := none, count := none,
                        error := some "Insufficient stock", message := none,
                        available := some previousQty, requested := some body.quantity },
                    calls := [ConnCall.beginTransaction, ConnCall.select, ConnCall.rollback,
                      ConnCall.release] }
              else ReadEnd.goesOn previousQty

/-- The second part of a movement handler, with the quantity `previousQty` it
has read: the `UPDATE`, the `INSERT` and the `COMMIT`, on the store `db`
committed by then. -/
def writePhase (E : Engine) (f : Faults) (db : Db) (previousQty : Int) :
    MovementRequest → Outcome
  | MovementRequest.stockIn body =>
      let newQty := (JsNumber.ofInt previousQty).add (parseInt body.quantity)
      match attempt f.update (updateQuantity E db newQty body.product_id) with
      | Except.error msg =>
          storageError db [ConnCall.beginTransaction, ConnCall.select, ConnCall.update] msg
      | Except.ok tx1 =>
          match attempt f.insert (insertMovement E tx1 body.product_id MovementType.IN
              body.quantity (body.reason.or (JsValue.string "Stock entry")) previousQty
              newQty) with
          | Except.error msg =>
              storageError db [ConnCall.beginTransaction, ConnCall.select, ConnCall.update,
                ConnCall.insert] msg
          | Except.ok tx2 =>
              match f.commit with
              | some msg =>
                  storageError db [ConnCall.beginTransaction, ConnCall.select,
                    ConnCall.update, ConnCall.insert, ConnCall.commit] msg
              | none =>
                  { db := tx2,
                    response :=
                      { status := 200, success := true,
                        data := some { product_id := body.product_id,
                                       previous_quantity := previousQty,
                                       new_quantity := newQty },
                        count := none, error := none,
                        message := some "Stock entry registered successfully",
                        available := none, requested := none },
                    calls := [ConnCall.beginTransaction, ConnCall.select, ConnCall.update,
                      ConnCall.insert, ConnCall.commit, ConnCall.release] }
  | MovementRequest.stockOut body =>
      let newQty := (JsNumber.ofInt previousQty).sub (parseInt body.quantity)
      match attempt f.update (updateQuantity E db newQty body.product_id) with
      | Except.error msg =>
          storageError db [ConnCall.beginTransaction, ConnCall.select, ConnCall.update] msg
      | Except.ok tx1 =>
          match attempt f.insert (insertMovement E tx1 body.product_id MovementType.OUT
              body.quantity (body.reason.or (JsValue.string "Stock exit")) previousQty
              newQty) with
          | Except.error msg =>
              storageError db [ConnCall.beginTransaction, ConnCall.select, ConnCall.update,
                ConnCall.insert] msg
          | Except.ok tx2 =>
              match f.commit with
              | some msg =>
                  storageError db [ConnCall.beginTransaction, ConnCall.select,
                    ConnCall.update, ConnCall.insert, ConnCall.commit] msg
              | none =>
                  { db := tx2,
                    response :=
                      { status := 200, success := true,
                        data := some { product_id := body.product_id,
                                       previous_quantity := previousQty,
                                       new_quantity := newQty },
                        count := none, error := none,
                        message := some "Stock exit registered successfully",
                        available := none, requested := none },
                    calls := [ConnCall.beginTransaction, ConnCall.select, ConnCall.update,
                      ConnCall.insert, ConnCall.commit, ConnCall.release] }

/-- A handler run without another request in between: its two parts one after
the other on the same store. -/
def runAlone (E : Engine) (f : Faults) (db : Db) (r : MovementRequest) : Outcome :=
  match readPhase f db r with
  | ReadEnd.answered out => out
  | ReadEnd.goesOn previousQty => writePhase E f db previousQty r

/-- A step of a schedule: the request numbered `i` runs its first part, or its
second part. -/
inductive Event where
  | select (i : Nat)
  | write (i : Nat)
  deriving DecidableEq

/-- The store and the requests while a schedule runs: the committed store, the
quantity read by each request that has not written yet, and the responses sent
so far, in the order they were sent. -/
structure Run where
  db : Db
  reads : List (Nat × Int)
  answers : List (Nat × Response MovementData)
  deriving DecidableEq

/-- One step of a schedule of the requests `reqs`.  A request runs each of its
parts once, the second after the first; a step that is out of turn does nothing.
-/
def runEvent (E : Engine) (reqs : List (Faults × MovementRequest)) (s : Run) : Event → Run
  | Event.select i =>
      if (s.reads.lookup i).isSome || (s.answers.lookup i).isSome then s
      else
        match reqs[i]? with
        | none => s
        | some (f, r) =>
            match readPhase f s.db r with
            | ReadEnd.answered out =>
                { db := out.db, reads := s.reads, answers := s.answers ++ [(i, out.response)] }
            | ReadEnd.goesOn previousQty =>
                { db := s.db, reads := (i, previousQty) :: s.reads, answers := s.answers }
  | Event.write i =>
      match s.reads.lookup i, reqs[i]? with
      | some previousQty, some (f, r) =>
          { db := (writePhase E f s.db previousQty r).db,
            reads := s.reads.filter (fun x => x.1 != i),
            answers := s.answers ++ [(i, (writePhase E f s.db previousQty r).response)] }
      | _, _ => s

/-- Run a schedule from the committed store `db`. -/
def runSchedule (E : Engine) (reqs : List (Faults × MovementRequest)) (db : Db)
    (events : List Event) : Run :=
  events.foldl (runEvent E reqs) { db := db, reads := [], answers := [] }

/-- The schedule that serves the requests numbered `order` one after another. -/
def serialSchedule (order : List Nat) : List Event :=
  order.flatMap (fun i => [Event.select i, Event.write i])

/-- The statuses of the responses sent, by request number. -/
def Run.statuses (s : Run) : List (Nat × Nat) :=
  s.answers.map (fun a => (a.1, a.2.status))

/-- A stock-in of `quantity` units of product 1. -/
def restock (quantity : Int) : Faults × MovementRequest :=
  (Faults.none,
    MovementRequest.stockIn ⟨JsValue.ofInt 1, JsValue.ofInt quantity, JsValue.undefined⟩)

/-- A stock-out of `quantity` units of product 1. -/
def withdraw (quantity : Int) : Faults × MovementRequest :=
  (Faults.none,
    MovementRequest.stockOut ⟨JsValue.ofInt 1, JsValue.ofInt quantity, JsValue.undefined⟩)

/-! ## The list queries of products and suppliers -/

/-- The test `if (filter)` on a filter of the query string: the filter is given
and is not the empty string.  A filter is absent or a string here; a key given
twice, which the parser turns into an array, is outside the model. -/
def present : Option String → Bool
  | some s => !s.isEmpty
  | none => false

/-- The SQL text and the values bound to its placeholders, as the list handlers
pass them to `pool.execute`. -/
structure ListQuery where
  text : String
  params : List String
  deriving DecidableEq

/-- One block `if (filter) { query += condition; params.push(...) }`. -/
def addFilter (q : ListQuery) (filter : Option String) (condition : String)
    (bound : String → List String) : ListQuery :=
  match filter with
  | some s => if present (some s) then ⟨q.text ++ condition, q.params ++ bound s⟩ else q
  | none => q

/-- The template literal of the search pattern. -/
def likePattern (search : String) : String := "%" ++ search ++ "%"

/-- The query built by `GET /api/products`. -/
def productsQuery (category search : Option String) : ListQuery :=
  let q0 : ListQuery := ⟨"SELECT * FROM products WHERE 1=1", []⟩
  let q1 := addFilter q0 category " AND category = ?" (fun c => [c])
  let q2 := addFilter q1 search " AND (name LIKE ? OR sku LIKE ?)"
    (fun s => [likePattern s, likePattern s])
  ⟨q2.text ++ " ORDER BY name ASC", q2.params⟩

/-- The query built by `GET /api/suppliers`. -/
def suppliersQuery (status city search : Option String) : ListQuery :=
  let q0 : ListQuery := ⟨"SELECT * FROM suppliers WHERE 1=1", []⟩
  let q1 := addFilter q0 status " AND status = ?" (fun v => [v])
  let q2 := addFilter q1 city " AND city = ?" (fun v => [v])
  let q3 := addFilter q2 search " AND (name LIKE ? OR contact_person LIKE ? OR email LIKE ?)"
    (fun s => [likePattern s, likePattern s, likePattern s])
  ⟨q3.text ++ " ORDER BY name ASC", q3.params⟩

/-- The number of `?` placeholders of a SQL text. -/
def placeholders (text : String) : Nat := text.toList.count '?'

/-- A condition of a list query in the words of the specification: its text,
with one `?` for each value it binds. -/
structure Clause where
  text : String
  params : List String
  deriving DecidableEq

/-- The condition that a column equals a value. -/
def equalsClause (column value : String) : Clause :=
  ⟨" AND " ++ column ++ " = ?", [value]⟩

/-- The alternatives `column LIKE ?` of a search, joined by `OR`. -/
def likeAlternatives : List String → String
  | [] => ""
  | [column] => column ++ " LIKE ?"
  | column :: rest => column ++ " LIKE ? OR " ++ likeAlternatives rest

/-- The condition that one of the columns contains the search term: the pattern
`%term%` is bound once for each column. -/
def searchClause (columns : List String) (term : String) : Clause :=
  ⟨" AND (" ++ likeAlternatives columns ++ ")", columns.map (fun _ => "%" ++ term ++ "%")⟩

/-- The conditions a filter adds: one when it is given and not empty, none
otherwise. -/
def whenPresent (filter : Option String) (clause : String → Clause) : List Clause :=
  match filter with
  | some s => if s = "" then [] else [clause s]
  | none => []

/-- A list query in the words of the specification: the conditions in their
order after `WHERE 1=1`, their values in the same order, and the ordering by
name at the end. -/
def assemble (table : String) (clauses : List Clause) : ListQuery :=
  ⟨"SELECT * FROM " ++ table ++ " WHERE 1=1" ++ String.join (clauses.map (fun c => c.text))
      ++ " ORDER BY name ASC",
    (clauses.map (fun c => c.params)).flatten⟩

/-- How the store compares text: `column = ?`, `column LIKE ?` and the order
of `ORDER BY column` under the collation of the column, an order in which any
two texts compare.  The schema is not in the sources, so this is a parameter.
-/
structure Collation where
  equal : String → String → Bool
  like : String → String → Bool
  le : String → String → Bool
  le_total : ∀ a b : String, le a b = true ∨ le b a = true
  le_trans : ∀ a b c : String, le a b = true → le b c = true → le a c = true

/-- The `WHERE` clause of the query of `productsQuery` on a row: each condition
that is present holds; a `NULL` category equals no value. -/
def keepProduct (T : Collation) (category search : Option String) (p : Product) : Bool :=
  (match category with
    | some v =>
        if present (some v) then
          (match p.category with
            | some c => T.equal c v
            | none => false)
        else true
    | none => true) &&
  (match search with
    | some s =>
        if present (some s) then T.like p.name (likePattern s) || T.like p.sku (likePattern s)
        else true
    | none => true)

/-- The rows the query of `productsQuery` selects; `ORDER BY name ASC` follows
the order of the collation. -/
def selectProducts (T : Collation) (db : Db) (category search : Option String) : List Product :=
  (db.products.filter (keepProduct T category search)).insertionSort
    (fun a b => T.le a.name b.name = true)

/-- The handler of `GET /api/products` on the store `db`; `fault` is the error
the query throws, if it throws. -/
def listProducts (T : Collation) (fault : Option StorageError) (db : Db)
    (category search : Option String) : Response (List Product) :=
  getProducts (execute fault (Except.ok (selectProducts T db category search)))

/-- A row matches the filters, in the words of the specification: when a
category is given the row has that category, and when a search term is given
the name or the SKU of the row contains it. -/
def ProductMatches (T : Collation) (category search : Option String) (p : Product) : Prop :=
  (∀ v : String, category = some v → v ≠ "" →
    ∃ c : String, p.category = some c ∧ T.equal c v = true) ∧
  (∀ s : String, search = some s → s ≠ "" →
    T.like p.name ("%" ++ s ++ "%") = true ∨ T.like p.sku ("%" ++ s ++ "%") = true)

/-- A collation for the examples: text is equal when it is the same, a
pattern `%term%` matches the values that contain `term`, and text is ordered as
`String` is. -/
def plainCollation : Collation where
  equal := fun a b => decide (a = b)
  like := fun value pattern =>
    value.toList.tails.any
      (fun t => decide (t.take (pattern.length - 2) = (pattern.toList.drop 1).dropLast))
  le := fun a b => decide (a ≤ b)
  le_total := fun a b => by
    simp only [decide_eq_true_eq]
    exact le_total a b
  le_trans := fun a b c hab hbc => by
    simp only [decide_eq_true_eq] at hab hbc ⊢
    exact le_trans hab hbc

/-- A catalog of three products. -/
def catalogDb : Db :=
  { products := [⟨1, "Pen", "PEN-001", JsValue.string "2.50", none, some "Office"⟩,
                 ⟨2, "Desk", "DSK-001", JsValue.string "120.00", none, some "Furniture"⟩,
                 ⟨3, "Pencil", "PCL-001", JsValue.string "1.00", none, some "Office"⟩],
    stock := [], stock_movements := [] }

/-! ## Rows addressed by their id -/

/-- The comparison `id = ?` of an integer key with a route parameter, which is
a string: the store compares them as numbers, as in `matchesProduct`. -/
def matchesId (param : String) (id : Int) : Bool :=
  (JsValue.string param).toNumber.eqInt id

/-- A row of `suppliers`; the columns other than the key are kept as the values
the store holds for them. -/
structure Supplier where
  id : Int
  name : JsValue
  contact_person : JsValue
  email : JsValue
  phone : JsValue
  address : JsValue
  city : JsValue
  country : JsValue
  status : JsValue
  deriving DecidableEq

/-- A row of `product_suppliers`. -/
structure ProductSupplier where
  id : Int
  product_id : Int
  supplier_id : Int
  cost_price : JsValue
  is_primary : JsValue
  deriving DecidableEq

/-- The committed contents of the tables of the suppliers service. -/
structure SupplierDb where
  suppliers : List Supplier
  product_suppliers : List ProductSupplier
  deriving DecidableEq

/-- The database `inventory_db` the three services connect to. -/
structure Database where
  inventory : Db
  supply : SupplierDb
  deriving DecidableEq

/-- A statement `UPDATE t SET ... WHERE condition`: `set` is what the store
makes of the `SET` clause on a row, or the error it raises; the rows afterwards
and the number of rows the condition matched, which is `affectedRows` with the
flags the driver sets by default. -/
def updateWhere {Row : Type} (keep : Row → Bool) (set : Row → Except StorageError Row) :
    List Row → Except StorageError (List Row × Nat)
  | [] => Except.ok ([], 0)
  | row :: rest =>
      if keep row then
        match set row, updateWhere keep set rest with
        | Except.ok row', Except.ok (rest', n) => Except.ok (row' :: rest', n + 1)
        | Except.error e, _ => Except.error e
        | _, Except.error e => Except.error e
      else
        match updateWhere keep set rest with
        | Except.ok (rest', n) => Except.ok (row :: rest', n)
        | Except.error e => Except.error e

/-- A statement `DELETE FROM t WHERE condition`: the rows afterwards and the
number of rows deleted. -/
def deleteWhere {Row : Type} (keep : Row → Bool) (rows : List Row) : List Row × Nat :=
  (rows.filter (fun row => !keep row), (rows.filter keep).length)

/-- The `SET` clause of `PUT /api/products/:id` on a row, with the values the
engine makes of the parameters. -/
def setProduct (C : CatalogEngine) (name description sku : JsValue) (price : JsNumber)
    (category : JsValue) (row : Product) : Except StorageError Product :=
  match C.textColumn name, C.optionalTextColumn description, C.textColumn sku,
      C.priceColumn price, C.optionalTextColumn category with
  | Except.ok n, Except.ok d, Except.ok s, Except.ok p, Except.ok c =>
      Except.ok ⟨row.id, n, s, p, d, c⟩
  | Except.error e, _, _, _, _ => Except.error e
  | _, Except.error e, _, _, _ => Except.error e
  | _, _, Except.error e, _, _ => Except.error e
  | _, _, _, Except.error e, _ => Except.error e
  | _, _, _, _, Except.error e => Except.error e

/-- What the engine of the suppliers service does with a parameter bound to a
column of `suppliers`.  The schema is not in the sources, so this is a
parameter. -/
structure SupplierEngine where
  column : JsValue → Except StorageError JsValue

/-- The `SET` clause of `PUT /api/suppliers/:id` on a row. -/
def setSupplier (S : SupplierEngine) (body : SupplierBody) (row : Supplier) :
    Except StorageError Supplier :=
  match S.column body.name, S.column body.contact_person, S.column body.email,
      S.column body.phone, S.column body.address, S.column body.city, S.column body.country,
      S.column body.status with
  | Except.ok n, Except.ok cp, Except.ok em, Except.ok ph, Except.ok ad, Except.ok ci,
      Except.ok co, Except.ok st => Except.ok ⟨row.id, n, cp, em, ph, ad, ci, co, st⟩
  | Except.error e, _, _, _, _, _, _, _ => Except.error e
  | _, Except.error e, _, _, _, _, _, _ => Except.error e
  | _, _, Except.error e, _, _, _, _, _ => Except.error e
  | _, _, _, Except.error e, _, _, _, _ => Except.error e
  | _, _, _, _, Except.error e, _, _, _ => Except.error e
  | _, _, _, _, _, Except.error e, _, _ => Except.error e
  | _, _, _, _, _, _, Except.error e, _ => Except.error e
  | _, _, _, _, _, _, _, Except.error e => Except.error e

/-- The handler of `GET /api/products/:id` on the store. -/
def getProductByIdOn (fault : Option StorageError) (db : Db) (id : String) : Response Product :=
  getProductById (execute fault (Except.ok (db.products.filter (fun p => matchesId id p.id))))

/-- The handler of `PUT /api/products/:id` on the store: the store afterwards
and the response. -/
def updateProductOn (C : CatalogEngine) (fault : Option StorageError) (db : Db) (id : String)
    (body : ProductBody) : Db × Response ProductData :=
  match execute fault (updateWhere (fun p => matchesId id p.id)
      (setProduct C body.name body.description body.sku (parseFloat body.price) body.category)
      db.products) with
  | Except.ok (rows, n) =>
      ({ db with products := rows }, updateProduct id body (Except.ok ⟨n, 0⟩))
  | Except.error error => (db, updateProduct id body (Except.error error))

/-- The handler of `DELETE /api/products/:id` on the store.  What the schema
does to the rows that refer to a deleted product is not in the sources; the
statement names the rows of `products` only. -/
def deleteProductOn (fault : Option StorageError) (db : Db) (id : String) :
    Db × Response Unit :=
  match execute fault (Except.ok (deleteWhere (fun p => matchesId id p.id) db.products)) with
  | Except.ok (rows, n) => ({ db with products := rows }, deleteProduct (Except.ok ⟨n, 0⟩))
  | Except.error error => (db, deleteProduct (Except.error error))

/-- The handler of `GET /api/suppliers/:id` on the store. -/
def getSupplierByIdOn (fault : Option StorageError) (db : SupplierDb) (id : String) :
    Response Supplier :=
  getSupplierById (execute fault (Except.ok (db.suppliers.filter (fun s => matchesId id s.id))))

/-- The handler of `PUT /api/suppliers/:id` on the store. -/
def updateSupplierOn (S : SupplierEngine) (fault : Option StorageError) (db : SupplierDb)
    (id : String) (body : SupplierBody) : SupplierDb × Response SupplierData :=
  match execute fault (updateWhere (fun s => matchesId id s.id) (setSupplier S body)
      db.suppliers) with
  | Except.ok (rows, n) =>
      ({ db with suppliers := rows }, updateSupplier id body (Except.ok ⟨n, 0⟩))
  | Except.error error => (db, updateSupplier id body (Except.error error))

/-- The handler of `DELETE /api/suppliers/:id` on the store. -/
def deleteSupplierOn (fault : Option StorageError) (db : SupplierDb) (id : String) :
    SupplierDb × Response Unit :=
  match execute fault (Except.ok (deleteWhere (fun s => matchesId id s.id) db.suppliers)) with
  | Except.ok (rows, n) => ({ db with suppliers := rows }, deleteSupplier (Except.ok ⟨n, 0⟩))
  | Except.error error => (db, deleteSupplier (Except.error error))

/-- The handler of `DELETE /api/suppliers/:supplierId/products/:productId` on
the store. -/
def disassociateProductOn (fault : Option StorageError) (db : SupplierDb)
    (supplierId productId : String) : SupplierDb × Response Unit :=
  match execute fault (Except.ok (deleteWhere
      (fun a => matchesId supplierId a.supplier_id && matchesId productId a.product_id)
      db.product_suppliers)) with
  | Except.ok (rows, n) =>
      ({ db with product_suppliers := rows }, disassociateProduct (Except.ok ⟨n, 0⟩))
  | Except.error error => (db, disassociateProduct (Except.error error))

/-- A request that addresses rows by the id, or the ids, of its route. -/
inductive IdRequest where
  | getProduct (id : String)
  | putProduct (id : String) (body : ProductBody)
  | deleteProduct (id : String)
  | getSupplier (id : String)
  | putSupplier (id : String) (body : SupplierBody)
  | deleteSupplier (id : String)
  | getStockByProduct (productId : String)
  | disassociateProduct (supplierId productId : String)

/-- Serve a request addressed by id: the database afterwards and the response,
without the contents of `data`; `fault` is the error the statement throws for
a reason of its own, if it throws. -/
def IdRequest.run (C : CatalogEngine) (S : SupplierEngine) (fault : Option StorageError)
    (d : Database) : IdRequest → Database × Response Unit
  | IdRequest.getProduct id => (d, (getProductByIdOn fault d.inventory id).envelope)
  | IdRequest.putProduct id body =>
      ({ d with inventory := (updateProductOn C fault d.inventory id body).1 },
        (updateProductOn C fault d.inventory id body).2.envelope)
  | IdRequest.deleteProduct id =>
      ({ d with inventory := (deleteProductOn fault d.inventory id).1 },
        (deleteProductOn fault d.inventory id).2.envelope)
  | IdRequest.getSupplier id => (d, (getSupplierByIdOn fault d.supply id).envelope)
  | IdRequest.putSupplier id body =>
      ({ d with supply := (updateSupplierOn S fault d.supply id body).1 },
        (updateSupplierOn S fault d.supply id body).2.envelope)
  | IdRequest.deleteSupplier id =>
      ({ d with supply := (deleteSupplierOn fault d.supply id).1 },
        (deleteSupplierOn fault d.supply id).2.envelope)
  | IdRequest.getStockByProduct productId =>
      (d, (InventoryEasy.getStockByProduct (fault.map (fun e => e.message)) d.inventory
        productId).envelope)
  | IdRequest.disassociateProduct supplierId productId =>
      ({ d with supply := (disassociateProductOn fault d.supply supplierId productId).1 },
        (disassociateProductOn fault d.supply supplierId productId).2.envelope)

/-- The number of rows the id, or the ids, of a request match: rows of
`products`, of `suppliers`, of `stock` joined with their product, or of
`product_suppliers`. -/
def IdRequest.matched (d : Database) : IdRequest → Nat
  | IdRequest.getProduct id => (d.inventory.products.filter (fun p => matchesId id p.id)).length
  | IdRequest.putProduct id _ =>
      (d.inventory.products.filter (fun p => matchesId id p.id)).length
  | IdRequest.deleteProduct id =>
      (d.inventory.products.filter (fun p => matchesId id p.id)).length
  | IdRequest.getSupplier id => (d.supply.suppliers.filter (fun s => matchesId id s.id)).length
  | IdRequest.putSupplier id _ =>
      (d.supply.suppliers.filter (fun s => matchesId id s.id)).length
  | IdRequest.deleteSupplier id =>
      (d.supply.suppliers.filter (fun s => matchesId id s.id)).length
  | IdRequest.getStockByProduct productId =>
      (joinStock d.inventory (matchesProduct (JsValue.string productId))
        (fun s p => (s, p))).length
  | IdRequest.disassociateProduct supplierId productId =>
      (d.supply.product_suppliers.filter
        (fun a => matchesId supplierId a.supplier_id && matchesId productId a.product_id)).length

/-- A database for the examples: the store of `sampleDb` with one supplier, who
supplies product 1. -/
def sampleDatabase : Database :=
  { inventory := sampleDb 10,
    supply :=
      { suppliers := [⟨1, JsValue.string "Acme", JsValue.null, JsValue.null, JsValue.null,
          JsValue.null, JsValue.string "Bogota", JsValue.string "Colombia",
          JsValue.string "ACTIVE"⟩],
        product_suppliers := [⟨1, 1, 1, JsValue.null, JsValue.bool false⟩] } }

/-- An engine of the suppliers service that keeps strings and `null` and refuses
the rest. -/
def referenceSuppliers : SupplierEngine where
  column := fun v =>
    match v with
    | JsValue.string s => Except.ok (JsValue.string s)
    | JsValue.null => Except.ok JsValue.null
    | _ => Except.error ⟨none, "Bind parameters must not contain undefined"⟩

/-! ## The low-stock alerts and the stock listing -/

/-- The columns a row of the stock listing shares with a row of the alerts: all
but the status. -/
def StockRow.alert (r : StockRow) : AlertRow :=
  { product_id := r.product_id, quantity := r.quantity, min_stock := r.min_stock,
    max_stock := r.max_stock, product_name := r.product_name, sku := r.sku, price := r.price }

/-- A store with three products: a pen at 2 units, a desk at 50 and a lamp at 5,
the thresholds being 5 and 100. -/
def alertsDb : Db :=
  { products := [⟨1, "Pen", "PEN-001", JsValue.string "2.50", none, none⟩,
                 ⟨2, "Desk", "DSK-001", JsValue.string "120.00", none, none⟩,
                 ⟨3, "Lamp", "LMP-001", JsValue.string "30.00", none, none⟩],
    stock := [⟨3, 5, 5, 100⟩, ⟨2, 50, 5, 100⟩, ⟨1, 2, 5, 100⟩],
    stock_movements := [] }

/-! ## The movement handlers on the whole database -/

/-- A movement handler on the database the three services share: its statements
name the tables `stock` and `stock_movements`, which are in `inventory`. -/
def serveOn (E : Engine) (f : Faults) (d : Database) (r : MovementRequest) :
    Database × Response MovementData :=
  ({ d with inventory := (serve E f d.inventory r).db }, (serve E f d.inventory r).response)

/-! ## The chain of a product's records -/

/-- The records of one product, in the order of the ledger. -/
def recordsOf (product_id : Int) (ms : List MovementRecord) : List MovementRecord :=
  ms.filter (fun m => decide (m.product_id = product_id))

/-- The records form a chain from the quantity `start` to the quantity
`current`: the first record has `start` as previous_quantity, each later record
has the new_quantity of the record before it as previous_quantity, and the
new_quantity of the last record is `current`; with no record, `start` is
`current`. -/
def Chained : Int → List MovementRecord → Int → Prop
  | start, [], current => start = current
  | start, m :: rest, current => m.previous_quantity = start ∧ Chained m.new_quantity rest current

instance chainedDecidable :
    (start : Int) → (ms : List MovementRecord) → (current : Int) →
      Decidable (Chained start ms current)
  | start, [], current => inferInstanceAs (Decidable (start = current))
  | _, m :: rest, current =>
      @instDecidableAnd _ _ _ (chainedDecidable m.new_quantity rest current)

/-- The records of a product are chained from `start` to the quantity of each
stock row of the product. -/
def ChainInvariant (db : Db) (product_id start : Int) : Prop :=
  ∀ s ∈ db.stock, s.product_id = product_id →
    Chained start (recordsOf product_id db.stock_movements) s.quantity

instance chainInvariantDecidable (db : Db) (product_id start : Int) :
    Decidable (ChainInvariant db product_id start) :=
  inferInstanceAs (Decidable (∀ s ∈ db.stock, s.product_id = product_id →
    Chained start (recordsOf product_id db.stock_movements) s.quantity))

/-- A request whose product_id is an integer. -/
def MovementRequest.NamesProduct (r : MovementRequest) : Prop :=
  ∃ p : Int, r.body.product_id = JsValue.ofInt p

/-! ## The dashboard: `handleResponse` -/

/-- A parsed response body, as far as `handleResponse` looks at it: `null`, of
which no property can be read, or a value with its properties `success` and
`error` (`undefined` for a property that is not there) and the rest of it. -/
inductive ParsedBody (α : Type) where
  | null
  | value (success error : JsValue) (content : α)
  deriving DecidableEq

/-- What `handleResponse` reads of the response of `fetch`: `response.ok`, and
the outcome of `response.json()`, which rejects with a `SyntaxError` when the
body is not JSON. -/
structure FetchResponse (α : Type) where
  ok : Bool
  json : Except String (ParsedBody α)

/-- What `handleResponse` throws: the `Error` it makes from an argument, whose
message is the string of that argument (the argument itself when it is a
string); the `TypeError` of reading a property of `null`; or the `SyntaxError`
of `response.json()`. -/
inductive Thrown where
  | error (argument : JsValue)
  | typeError
  | syntaxError (message : String)
  deriving DecidableEq

/-- The function `handleResponse` of `services/api.js`. -/
def handleResponse {α : Type} (response : FetchResponse α) : Except Thrown (ParsedBody α) :=
  match response.json with
  | Except.error message => Except.error (Thrown.syntaxError message)
  | Except.ok ParsedBody.null => Except.error Thrown.typeError
  | Except.ok (ParsedBody.value success error content) =>
      if !response.ok || !success.truthy then
        Except.error (Thrown.error (error.or (JsValue.string "Error en la petición")))
      else Except.ok (ParsedBody.value success error content)

/-- The response of `fetch` to a response of a handler: `ok` for a status from
200 to 299, and the JSON body with its `success` and, when it has one, its
`error`. -/
def Response.fetched {α : Type} (r : Response α) : FetchResponse (Response α) :=
  { ok := decide (200 ≤ r.status ∧ r.status ≤ 299),
    json := Except.ok (ParsedBody.value (JsValue.bool r.success)
      (match r.error with
        | some e => JsValue.string e
        | none => JsValue.undefined) r) }

/-! ## Coercions of integers -/

theorem truthy_ofInt {n : Int} (h : n ≠ 0) : (JsValue.ofInt n).truthy = true := by
  simp [JsValue.ofInt, JsNumber.ofInt, JsValue.truthy, JsNumber.isFalsy, h]

theorem leZero_ofInt (n : Int) : (JsValue.ofInt n).toNumber.leZero = decide (n ≤ 0) := by
  simp [JsValue.ofInt, JsNumber.ofInt, JsValue.toNumber, JsNumber.leZero]

theorem parseInt_ofInt {n : Int} (h : n.natAbs < 10 ^ 21) :
    parseInt (JsValue.ofInt n) = JsNumber.ofInt n := by
  have hp : printsWithExponent n 0 = false := by
    simp only [printsWithExponent, pow_zero, mul_one, Bool.and_eq_false_imp, decide_eq_true_eq,
      Bool.or_eq_false_iff, decide_eq_false_iff_not, not_le, not_lt]
    intro hn
    refine ⟨h, ?_⟩
    have : 0 < n.natAbs := Int.natAbs_pos.mpr hn
    omega
  simp [JsValue.ofInt, JsNumber.ofInt, parseInt, hp]

theorem SafeInteger.lt_exponent {n : Int} (h : SafeInteger n) : n.natAbs < 10 ^ 21 :=
  lt_trans h (by norm_num)

theorem roundToDouble_of_lt {n : Nat} (h : n < 2 ^ 53) : JsNumber.roundToDouble n = n := by
  unfold JsNumber.roundToDouble
  rw [if_pos h]

theorem bitLengthAux_spec : ∀ (fuel n : Nat), n ≤ fuel → n ≠ 0 →
    2 ^ (JsNumber.bitLengthAux fuel n - 1) ≤ n ∧ n < 2 ^ JsNumber.bitLengthAux fuel n := by
  intro fuel
  induction fuel with
  | zero => intro n h hn; omega
  | succ fuel ih =>
    intro n h hn
    simp only [JsNumber.bitLengthAux, hn, if_false, Nat.add_sub_cancel]
    by_cases h2 : n / 2 = 0
    · have h1 : n = 1 := by omega
      subst h1
      cases fuel <;> simp [JsNumber.bitLengthAux]
    · have hle : n / 2 ≤ fuel := by omega
      obtain ⟨ha, hb⟩ := ih (n / 2) hle h2
      have hpos : 1 ≤ JsNumber.bitLengthAux fuel (n / 2) := by
        by_contra hc
        have h0 : JsNumber.bitLengthAux fuel (n / 2) = 0 := by omega
        rw [h0] at hb
        omega
      constructor
      · have : 2 ^ JsNumber.bitLengthAux fuel (n / 2)
            = 2 ^ (JsNumber.bitLengthAux fuel (n / 2) - 1) * 2 := by
          rw [← pow_succ]; congr 1; omega
        omega
      · rw [pow_succ]; omega

theorem bitLength_spec {n : Nat} (hn : n ≠ 0) :
    2 ^ (JsNumber.bitLength n - 1) ≤ n ∧ n < 2 ^ JsNumber.bitLength n :=
  bitLengthAux_spec n n le_rfl hn

/-- Rounding to binary64 brings no integer from `2 ^ 53` on below `2 ^ 53`. -/
theorem le_roundToDouble {n : Nat} (h : 2 ^ 53 ≤ n) : 2 ^ 53 ≤ JsNumber.roundToDouble n := by
  have hn : n ≠ 0 := by
    have : 0 < 2 ^ 53 := by norm_num
    omega
  obtain ⟨hlo, hhi⟩ := bitLength_spec hn
  have hb : 54 ≤ JsNumber.bitLength n := by
    by_contra hc
    have : 2 ^ JsNumber.bitLength n ≤ 2 ^ 53 := Nat.pow_le_pow_right (by norm_num) (by omega)
    omega
  have hq : 2 ^ 52 ≤ n / 2 ^ (JsNumber.bitLength n - 53) := by
    rw [Nat.le_div_iff_mul_le (by positivity)]
    calc 2 ^ 52 * 2 ^ (JsNumber.bitLength n - 53)
        = 2 ^ (52 + (JsNumber.bitLength n - 53)) := by rw [pow_add]
      _ = 2 ^ (JsNumber.bitLength n - 1) := by congr 1; omega
      _ ≤ n := hlo
  have hlt : ¬ n < 2 ^ 53 := by omega
  have hpow : 2 ^ 1 ≤ 2 ^ (JsNumber.bitLength n - 53) :=
    Nat.pow_le_pow_right (by norm_num) (by omega)
  have hbase : 2 ^ 53
      ≤ n / 2 ^ (JsNumber.bitLength n - 53) * 2 ^ (JsNumber.bitLength n - 53) := by
    calc 2 ^ 53 = 2 ^ 52 * 2 ^ 1 := by norm_num
      _ ≤ n / 2 ^ (JsNumber.bitLength n - 53) * 2 ^ (JsNumber.bitLength n - 53) :=
        Nat.mul_le_mul hq hpow
  simp only [JsNumber.roundToDouble, hlt, if_false]
  split
  · calc 2 ^ 53 ≤ n / 2 ^ (JsNumber.bitLength n - 53) * 2 ^ (JsNumber.bitLength n - 53) := hbase
      _ ≤ (n / 2 ^ (JsNumber.bitLength n - 53) + 1) * 2 ^ (JsNumber.bitLength n - 53) :=
        Nat.mul_le_mul_right _ (Nat.le_succ _)
  · exact hbase

theorem roundToDouble_pos {n : Nat} (h : 0 < n) : 0 < JsNumber.roundToDouble n := by
  by_cases hlt : n < 2 ^ 53
  · rw [roundToDouble_of_lt hlt]; exact h
  · exact lt_of_lt_of_le (by norm_num) (le_roundToDouble (by omega))

theorem ofSum_safe {s : Int} (h : SafeInteger s) : JsNumber.ofSum s = JsNumber.ofInt s := by
  unfold SafeInteger at h
  unfold JsNumber.ofSum
  rw [if_pos h]
  rfl

theorem add_ofInt_eq (a b : Int) :
    (JsNumber.ofInt a).add (JsNumber.ofInt b) = JsNumber.ofSum (a + b) := by
  simp [JsNumber.ofInt, JsNumber.add]

theorem sub_ofInt_eq (a b : Int) :
    (JsNumber.ofInt a).sub (JsNumber.ofInt b) = JsNumber.ofSum (a - b) := by
  simp [JsNumber.ofInt, JsNumber.sub, JsNumber.neg, JsNumber.add, sub_eq_add_neg]

theorem add_ofInt (a b : Int) (h : SafeInteger (a + b)) :
    (JsNumber.ofInt a).add (JsNumber.ofInt b) = JsNumber.ofInt (a + b) := by
  rw [add_ofInt_eq, ofSum_safe h]

theorem sub_ofInt (a b : Int) (h : SafeInteger (a - b)) :
    (JsNumber.ofInt a).sub (JsNumber.ofInt b) = JsNumber.ofInt (a - b) := by
  rw [sub_ofInt_eq, ofSum_safe h]

/-- Beyond `2 ^ 53` the sum of two integers is rounded: `2 ^ 53 + 1` is
`2 ^ 53`, `2 ^ 53 + 3` is `2 ^ 53 + 4`, and `1e21 + 1` is `1e21`. -/
theorem add_rounds :
    (JsNumber.ofInt (2 ^ 53)).add (JsNumber.ofInt 1) = JsNumber.ofInt (2 ^ 53) ∧
    (JsNumber.ofInt (2 ^ 53)).add (JsNumber.ofInt 3) = JsNumber.ofInt (2 ^ 53 + 4) ∧
    (JsNumber.ofInt (10 ^ 21)).add (JsNumber.ofInt 1) = JsNumber.ofInt (10 ^ 21) ∧
    (JsNumber.ofInt (2 ^ 53 - 2)).add (JsNumber.ofInt 1) = JsNumber.ofInt (2 ^ 53 - 1) := by
  refine ⟨by decide, by decide, by decide, by decide⟩

/-- The sign of a sum of integers is the sign of the number JavaScript holds
for it. -/
theorem ltZero_ofSum (s : Int) : (JsNumber.ofSum s).ltZero = decide (s < 0) := by
  unfold JsNumber.ofSum
  split
  · rfl
  · by_cases hs : s < 0
    · have hpos : 0 < JsNumber.roundToDouble s.natAbs := roundToDouble_pos (by omega)
      have hneg : -(JsNumber.roundToDouble s.natAbs : Int) < 0 := by omega
      split
      · simp [hs, JsNumber.ltZero, hneg]
      · simp [hs, JsNumber.ltZero]
    · have hnn : ¬ (JsNumber.roundToDouble s.natAbs : Int) < 0 := by omega
      split
      · simp [hs, JsNumber.ltZero, hnn]
      · simp [hs, JsNumber.ltZero]

theorem ltZero_sub_ofInt (a b : Int) :
    ((JsNumber.ofInt a).sub (JsNumber.ofInt b)).ltZero = decide (a < b) := by
  rw [sub_ofInt_eq, ltZero_ofSum]
  simp

/-- What a strict engine stores for the number JavaScript holds for the sum
`s` of two integers is `s`: a rounded sum is beyond its range. -/
theorem ofSum_stored {E : Engine} (hE : E.Strict) {s nw : Int}
    (h : E.intColumn (JsValue.number (JsNumber.ofSum s)) = Except.ok nw) : nw = s := by
  unfold JsNumber.ofSum at h
  split at h
  · exact (hE.1 s nw h).1
  · rename_i hc
    have hge := le_roundToDouble (not_lt.mp hc)
    split at h
    · have hsafe := (hE.1 _ nw h).2
      unfold SafeInteger at hsafe
      exfalso
      split at hsafe <;> omega
    · split at h
      · exact absurd h (hE.2 nw).2.2
      · exact absurd h (hE.2 nw).2.1

theorem ltZero_ofInt (n : Int) : (JsNumber.ofInt n).ltZero = decide (n < 0) := by
  simp [JsNumber.ofInt, JsNumber.ltZero]

/-- A positive integer quantity with a non-zero product id passes the
validation of the handlers. -/
theorem guard_ofInt {p q : Int} (hp : p ≠ 0) (hq : 0 < q) :
    (!(JsValue.ofInt p).truthy || !(JsValue.ofInt q).truthy
      || (JsValue.ofInt q).toNumber.leZero) = false := by
  simp [truthy_ofInt hp, truthy_ofInt (ne_of_gt hq), leZero_ofInt, hq]

theorem textColumn_reason {E : Engine} (hE : E.Faithful) {r : JsValue} (hr : r.IsOptionalString)
    (dflt : String) :
    E.textColumn (r.or (JsValue.string dflt)) = Except.ok (storedReason dflt r) := by
  rcases hr with h | h | ⟨s, h⟩
  · subst h; simpa [JsValue.or, JsValue.truthy, storedReason] using hE.2 dflt
  · subst h; simpa [JsValue.or, JsValue.truthy, storedReason] using hE.2 dflt
  · subst h
    by_cases hs : s.isEmpty = true
    · simpa [JsValue.or, JsValue.truthy, storedReason, hs] using hE.2 dflt
    · simpa [JsValue.or, JsValue.truthy, storedReason, hs] using hE.2 s

/-! ## The paths of the handlers -/

theorem insertMovement_ok {E : Engine} {db tx : Db} {pid : JsValue} {t : MovementType}
    {q r : JsValue} {prev : Int} {nq : JsNumber}
    (h : insertMovement E db pid t q r prev nq = Except.ok tx) :
    ∃ p qi rs pv nw, E.intColumn pid = Except.ok p ∧ E.intColumn q = Except.ok qi ∧
      E.textColumn r = Except.ok rs ∧ E.intColumn (JsValue.ofInt prev) = Except.ok pv ∧
      E.intColumn (JsValue.number nq) = Except.ok nw ∧
      tx = { db with stock_movements := db.stock_movements ++ [⟨p, t, qi, rs, pv, nw⟩] } := by
  unfold insertMovement at h
  split at h <;> simp at h
  rename_i p qi rs pv nw h1 h2 h3 h4 h5
  exact ⟨p, qi, rs, pv, nw, h1, h2, h3, h4, h5, h.symm⟩

/-- Every run of the stock-in handler either answers 200 after applying the
movement, or answers another status and leaves the store as it was. -/
theorem stockIn_cases (E : Engine) (f : Faults) (db : Db) (body : MovementBody) :
    ((stockIn E f db body).response.status ≠ 200 ∧ (stockIn E f db body).db = db) ∨
    ((stockIn E f db body).response.status = 200 ∧
      Accepted E MovementType.IN "Stock entry"
        (fun prev => (JsNumber.ofInt prev).add (parseInt body.quantity)) db body
        (stockIn E f db body)) := by
  cases hb : f.beginTransaction with
  | some msg => left; simp [stockIn, hb, storageError, errorResponse]
  | none =>
  by_cases hg : (!body.product_id.truthy || !body.quantity.truthy
      || body.quantity.toNumber.leZero) = true
  · left; simp only [stockIn, hb, hg, if_true]; simp [errorResponse]
  cases hs : f.select with
  | some msg => left; simp [stockIn, hb, hg, hs, attempt, storageError, errorResponse]
  | none =>
  cases hq : selectQuantity db body.product_id with
  | nil => left; simp [stockIn, hb, hg, hs, hq, attempt, errorResponse]
  | cons prev rest =>
  cases hu : f.update with
  | some msg => left; simp [stockIn, hb, hg, hs, hq, hu, attempt, storageError, errorResponse]
  | none =>
  cases hup : updateQuantity E db ((JsNumber.ofInt prev).add (parseInt body.quantity))
      body.product_id with
  | error e => left; simp [stockIn, hb, hg, hs, hq, hu, hup, attempt, storageError, errorResponse]
  | ok tx1 =>
  cases hi : f.insert with
  | some msg =>
    left; simp [stockIn, hb, hg, hs, hq, hu, hup, hi, attempt, storageError, errorResponse]
  | none =>
  cases hin : insertMovement E tx1 body.product_id MovementType.IN body.quantity
      (body.reason.or (JsValue.string "Stock entry")) prev
      ((JsNumber.ofInt prev).add (parseInt body.quantity)) with
  | error e =>
    left; simp [stockIn, hb, hg, hs, hq, hu, hup, hi, hin, attempt, storageError, errorResponse]
  | ok tx2 =>
  cases hc : f.commit with
  | some msg =>
    left
    simp [stockIn, hb, hg, hs, hq, hu, hup, hi, hin, hc, attempt, storageError, errorResponse]
  | none =>
  right
  obtain ⟨p, qi, rs, pv, nw, h1, h2, h3, h4, h5, h6⟩ := insertMovement_ok hin
  have hst : stockIn E f db body = ⟨tx2, ⟨200, true, some ⟨body.product_id, prev,
      (JsNumber.ofInt prev).add (parseInt body.quantity)⟩, none, none,
      some "Stock entry registered successfully", none, none⟩,
      [ConnCall.beginTransaction, ConnCall.select, ConnCall.update, ConnCall.insert,
        ConnCall.commit, ConnCall.release]⟩ := by
    simp [stockIn, hb, hg, hs, hq, hu, hup, hi, hin, hc, attempt]
  unfold updateQuantity at hup
  simp only [h5] at hup
  cases hup
  rw [hst]
  exact ⟨rfl, prev, rest, p, qi, rs, pv, nw, hq, h1, h2, h3, h4, h5, rfl,
    by simp [h6, applyMovement]⟩

/-- Every run of the stock-out handler either answers 200 after applying the
movement, or answers another status and leaves the store as it was. -/
theorem stockOut_cases (E : Engine) (f : Faults) (db : Db) (body : MovementBody) :
    ((stockOut E f db body).response.status ≠ 200 ∧ (stockOut E f db body).db = db) ∨
    ((stockOut E f db body).response.status = 200 ∧
      Accepted E MovementType.OUT "Stock exit"
        (fun prev => (JsNumber.ofInt prev).sub (parseInt body.quantity)) db body
        (stockOut E f db body)) := by
  cases hb : f.beginTransaction with
  | some msg => left; simp [stockOut, hb, storageError, errorResponse]
  | none =>
  by_cases hg : (!body.product_id.truthy || !body.quantity.truthy
      || body.quantity.toNumber.leZero) = true
  · left; simp only [stockOut, hb, hg, if_true]; simp [errorResponse]
  cases hs : f.select with
  | some msg => left; simp [stockOut, hb, hg, hs, attempt, storageError, errorResponse]
  | none =>
  cases hq : selectQuantity db body.product_id with
  | nil => left; simp [stockOut, hb, hg, hs, hq, attempt, errorResponse]
  | cons prev rest =>
  by_cases hlt : ((JsNumber.ofInt prev).sub (parseInt body.quantity)).ltZero = true
  · left; simp [stockOut, hb, hg, hs, hq, hlt, attempt]
  cases hu : f.update with
  | some msg =>
    left; simp [stockOut, hb, hg, hs, hq, hlt, hu, attempt, storageError, errorResponse]
  | none =>
  cases hup : updateQuantity E db ((JsNumber.ofInt prev).sub (parseInt body.quantity))
      body.product_id with
  | error e =>
    left; simp [stockOut, hb, hg, hs, hq, hlt, hu, hup, attempt, storageError, errorResponse]
  | ok tx1 =>
  cases hi : f.insert with
  | some msg =>
    left; simp [stockOut, hb, hg, hs, hq, hlt, hu, hup, hi, attempt, storageError, errorResponse]
  | none =>
  cases hin : insertMovement E tx1 body.product_id MovementType.OUT body.quantity
      (body.reason.or (JsValue.string "Stock exit")) prev
      ((JsNumber.ofInt prev).sub (parseInt body.quantity)) with
  | error e =>
    left
    simp [stockOut, hb, hg, hs, hq, hlt, hu, hup, hi, hin, attempt, storageError, errorResponse]
  | ok tx2 =>
  cases hc : f.commit with
  | some msg =>
    left
    simp [stockOut, hb, hg, hs, hq, hlt, hu, hup, hi, hin, hc, attempt, storageError,
      errorResponse]
  | none =>
  right
  obtain ⟨p, qi, rs, pv, nw, h1, h2, h3, h4, h5, h6⟩ := insertMovement_ok hin
  have hst : stockOut E f db body = ⟨tx2, ⟨200, true, some ⟨body.product_id, prev,
      (JsNumber.ofInt prev).sub (parseInt body.quantity)⟩, none, none,
      some "Stock exit registered successfully", none, none⟩,
      [ConnCall.beginTransaction, ConnCall.select, ConnCall.update, ConnCall.insert,
        ConnCall.commit, ConnCall.release]⟩ := by
    simp [stockOut, hb, hg, hs, hq, hlt, hu, hup, hi, hin, hc, attempt]
  unfold updateQuantity at hup
  simp only [h5] at hup
  cases hup
  rw [hst]
  exact ⟨rfl, prev, rest, p, qi, rs, pv, nw, hq, h1, h2, h3, h4, h5, rfl,
    by simp [h6, applyMovement]⟩

theorem number_ofInt (n : Int) : JsValue.number (JsNumber.ofInt n) = JsValue.ofInt n := rfl

/-- The value of `reason || dflt` for an optional string `reason`. -/
theorem reason_or_default {r : JsValue} (hr : r.IsOptionalString) (dflt : String) :
    r.or (JsValue.string dflt) = JsValue.string (storedReason dflt r) := by
  rcases hr with h | h | ⟨s, h⟩
  · subst h; rfl
  · subst h; rfl
  · subst h
    by_cases hs : s.isEmpty = true
    · simp [JsValue.or, JsValue.truthy, storedReason, hs]
    · simp [JsValue.or, JsValue.truthy, storedReason, hs]

/-- The run of the stock-in handler on a well-formed request for an existing
product, without storage failure, when the columns hold the values bound to
them. -/
theorem stockIn_stores {E : Engine} {db : Db} {p c q : Int} {rest : List Int}
    {reason : JsValue} (hp : p ≠ 0) (hq : 0 < q) (hqs : q.natAbs < 10 ^ 21)
    (hns : SafeInteger (c + q))
    (hsel : selectQuantity db (JsValue.ofInt p) = c :: rest) (hr : reason.IsOptionalString)
    (hEp : E.Stores p) (hEq : E.Stores q) (hEc : E.Stores c) (hEn : E.Stores (c + q))
    (hEr : E.StoresText (storedReason "Stock entry" reason)) :
    stockIn E Faults.none db ⟨JsValue.ofInt p, JsValue.ofInt q, reason⟩ =
      ⟨applyMovement db (JsValue.ofInt p) (c + q)
          ⟨p, MovementType.IN, q, storedReason "Stock entry" reason, c, c + q⟩,
        ⟨200, true, some ⟨JsValue.ofInt p, c, JsNumber.ofInt (c + q)⟩, none, none,
          some "Stock entry registered successfully", none, none⟩,
        [ConnCall.beginTransaction, ConnCall.select, ConnCall.update, ConnCall.insert,
          ConnCall.commit, ConnCall.release]⟩ := by
  have hg := guard_ofInt hp hq
  unfold Engine.Stores at hEp hEq hEc hEn
  unfold Engine.StoresText at hEr
  simp [stockIn, Faults.none, hg, attempt, hsel, parseInt_ofInt hqs, add_ofInt c q hns,
    updateQuantity, insertMovement, number_ofInt, hEp, hEq, hEc, hEn, reason_or_default hr, hEr,
    applyMovement]

/-- The run of the stock-in handler on a well-formed request for an existing
product, without storage failure. -/
theorem stockIn_run {E : Engine} (hE : E.Faithful) {db : Db} {p c q : Int} {rest : List Int}
    {reason : JsValue} (hp : p ≠ 0) (hq : 0 < q) (hqs : q.natAbs < 10 ^ 21)
    (hns : SafeInteger (c + q))
    (hsel : selectQuantity db (JsValue.ofInt p) = c :: rest) (hr : reason.IsOptionalString) :
    stockIn E Faults.none db ⟨JsValue.ofInt p, JsValue.ofInt q, reason⟩ =
      ⟨applyMovement db (JsValue.ofInt p) (c + q)
          ⟨p, MovementType.IN, q, storedReason "Stock entry" reason, c, c + q⟩,
        ⟨200, true, some ⟨JsValue.ofInt p, c, JsNumber.ofInt (c + q)⟩, none, none,
          some "Stock entry registered successfully", none, none⟩,
        [ConnCall.beginTransaction, ConnCall.select, ConnCall.update, ConnCall.insert,
          ConnCall.commit, ConnCall.release]⟩ :=
  stockIn_stores hp hq hqs hns hsel hr (hE.1 p) (hE.1 q) (hE.1 c) (hE.1 (c + q)) (hE.2 _)

/-- The run of the stock-out handler on a well-formed request for an existing
product with enough stock, without storage failure, when the columns hold the
values bound to them. -/
theorem stockOut_stores {E : Engine} {db : Db} {p c q : Int} {rest : List Int}
    {reason : JsValue} (hp : p ≠ 0) (hq : 0 < q) (hqs : q.natAbs < 10 ^ 21) (hqc : q ≤ c)
    (hns : SafeInteger (c - q))
    (hsel : selectQuantity db (JsValue.ofInt p) = c :: rest) (hr : reason.IsOptionalString)
    (hEp : E.Stores p) (hEq : E.Stores q) (hEc : E.Stores c) (hEn : E.Stores (c - q))
    (hEr : E.StoresText (storedReason "Stock exit" reason)) :
    stockOut E Faults.none db ⟨JsValue.ofInt p, JsValue.ofInt q, reason⟩ =
      ⟨applyMovement db (JsValue.ofInt p) (c - q)
          ⟨p, MovementType.OUT, q, storedReason "Stock exit" reason, c, c - q⟩,
        ⟨200, true, some ⟨JsValue.ofInt p, c, JsNumber.ofInt (c - q)⟩, none, none,
          some "Stock exit registered successfully", none, none⟩,
        [ConnCall.beginTransaction, ConnCall.select, ConnCall.update, ConnCall.insert,
          ConnCall.commit, ConnCall.release]⟩ := by
  have hg := guard_ofInt hp hq
  have hlt : (JsNumber.ofInt (c - q)).ltZero = false := by
    simp [ltZero_ofInt, hqc]
  unfold Engine.Stores at hEp hEq hEc hEn
  unfold Engine.StoresText at hEr
  simp [stockOut, Faults.none, hg, attempt, hsel, parseInt_ofInt hqs, sub_ofInt c q hns, hlt,
    updateQuantity, insertMovement, number_ofInt, hEp, hEq, hEc, hEn, reason_or_default hr, hEr,
    applyMovement]

/-- The run of the stock-out handler on a well-formed request for an existing
product with enough stock, without storage failure. -/
theorem stockOut_run {E : Engine} (hE : E.Faithful) {db : Db} {p c q : Int} {rest : List Int}
    {reason : JsValue} (hp : p ≠ 0) (hq : 0 < q) (hqs : q.natAbs < 10 ^ 21) (hqc : q ≤ c)
    (hns : SafeInteger (c - q))
    (hsel : selectQuantity db (JsValue.ofInt p) = c :: rest) (hr : reason.IsOptionalString) :
    stockOut E Faults.none db ⟨JsValue.ofInt p, JsValue.ofInt q, reason⟩ =
      ⟨applyMovement db (JsValue.ofInt p) (c - q)
          ⟨p, MovementType.OUT, q, storedReason "Stock exit" reason, c, c - q⟩,
        ⟨200, true, some ⟨JsValue.ofInt p, c, JsNumber.ofInt (c - q)⟩, none, none,
          some "Stock exit registered successfully", none, none⟩,
        [ConnCall.beginTransaction, ConnCall.select, ConnCall.update, ConnCall.insert,
          ConnCall.commit, ConnCall.release]⟩ :=
  stockOut_stores hp hq hqs hqc hns hsel hr (hE.1 p) (hE.1 q) (hE.1 c) (hE.1 (c - q)) (hE.2 _)

/-- The run of the stock-out handler when the stock is insufficient. -/
theorem stockOut_short (E : Engine) {f : Faults} {db : Db} {pid : JsValue} {c q : Int}
    {rest : List Int} {reason : JsValue}
    (hb : f.beginTransaction = none) (hs : f.select = none)
    (hpid : pid.truthy = true) (hq : 0 < q) (hqs : q.natAbs < 10 ^ 21) (hcq : c < q)
    (hsel : selectQuantity db pid = c :: rest) :
    stockOut E f db ⟨pid, JsValue.ofInt q, reason⟩ =
      ⟨db, ⟨400, false, none, none, some "Insufficient stock", none, some c,
          some (JsValue.ofInt q)⟩,
        [ConnCall.beginTransaction, ConnCall.select, ConnCall.rollback, ConnCall.release]⟩ := by
  have hlt : ((JsNumber.ofInt c).sub (JsNumber.ofInt q)).ltZero = true := by
    simp [ltZero_sub_ofInt, hcq]
  simp [stockOut, hb, hs, hpid, truthy_ofInt (ne_of_gt hq), leZero_ofInt, hq, attempt, hsel,
    parseInt_ofInt hqs, hlt]

/-! ## The store after a movement -/

theorem selectQuantity_applyMovement (db : Db) (pid : JsValue) (q : Int) (r : MovementRecord) :
    selectQuantity (applyMovement db pid q r) pid = (selectQuantity db pid).map (fun _ => q) := by
  unfold selectQuantity applyMovement
  simp only
  induction db.stock with
  | nil => simp
  | cons s rest ih =>
    by_cases h : matchesProduct pid s = true
    · have h2 : matchesProduct pid { s with quantity := q } = true := by
        simpa [matchesProduct] using h
      simp [List.filter_cons, h, h2, ih]
    · simp [List.filter_cons, h, ih]

theorem currentQuantity_applyMovement {db : Db} {pid : JsValue} {c : Int}
    (h : currentQuantity db pid = some c) (q : Int) (r : MovementRecord) :
    currentQuantity (applyMovement db pid q r) pid = some q := by
  unfold currentQuantity at h ⊢
  rw [selectQuantity_applyMovement]
  cases hs : selectQuantity db pid with
  | nil => simp [hs] at h
  | cons a rest => simp

theorem selectQuantity_of_current {db : Db} {pid : JsValue} {c : Int}
    (h : currentQuantity db pid = some c) : ∃ rest, selectQuantity db pid = c :: rest := by
  unfold currentQuantity at h
  cases hs : selectQuantity db pid with
  | nil => simp [hs] at h
  | cons a rest => simp [hs] at h; exact ⟨rest, by rw [h]⟩

/-! ## Stock-out beyond the stock -/

/-- C2: for an existing product with current quantity `c`, a stock-out of an
integer `q > c` (storage reads succeeding), `q` being an integer that
JavaScript holds exactly (of magnitude below `2 ^ 53`), is answered 400 with
the error 'Insufficient stock', `available = c` and `requested = q`; the store
is unchanged, so the quantity is still `c` and no movement record is appended.
Beyond that range the handler reads another quantity than the one requested:
`parseInt(1e21)` is 1. -/
theorem stockOut_insufficient_stock (E : Engine) (f : Faults) (db : Db) (pid reason : JsValue)
    (c q : Int) (hb : f.beginTransaction = none) (hs : f.select = none)
    (hpid : pid.truthy = true) (hc : currentQuantity db pid = some c) (hq : 0 < q)
    (hcq : c < q) (hqs : SafeInteger q) :
    (stockOut E f db ⟨pid, JsValue.ofInt q, reason⟩).response
        = ⟨400, false, none, none, some "Insufficient stock", none, some c,
            some (JsValue.ofInt q)⟩ ∧
      (stockOut E f db ⟨pid, JsValue.ofInt q, reason⟩).db = db ∧
      currentQuantity (stockOut E f db ⟨pid, JsValue.ofInt q, reason⟩).db pid = some c ∧
      (stockOut E f db ⟨pid, JsValue.ofInt q, reason⟩).db.stock_movements = db.stock_movements := by
  obtain ⟨rest, hsel⟩ := selectQuantity_of_current hc
  rw [stockOut_short E hb hs hpid hq hqs.lt_exponent hcq hsel]
  exact ⟨rfl, rfl, hc, rfl⟩

/-- Stock 3, OUT 10: the answer is the insufficient-stock error and the
quantity stays 3. -/
theorem stockOut_insufficient_stock_witness :
    currentQuantity (sampleDb 3) (JsValue.ofInt 1) = some 3 ∧
    (stockOut referenceEngine Faults.none (sampleDb 3)
        ⟨JsValue.ofInt 1, JsValue.ofInt 10, JsValue.undefined⟩).response
        = ⟨400, false, none, none, some "Insufficient stock", none, some 3,
            some (JsValue.ofInt 10)⟩ ∧
      (stockOut referenceEngine Faults.none (sampleDb 3)
        ⟨JsValue.ofInt 1, JsValue.ofInt 10, JsValue.undefined⟩).db = sampleDb 3 ∧
      currentQuantity (stockOut referenceEngine Faults.none (sampleDb 3)
        ⟨JsValue.ofInt 1, JsValue.ofInt 10, JsValue.undefined⟩).db (JsValue.ofInt 1) = some 3 ∧
      (stockOut referenceEngine Faults.none (sampleDb 3)
        ⟨JsValue.ofInt 1, JsValue.ofInt 10, JsValue.undefined⟩).db.stock_movements = [] :=
  ⟨by decide, stockOut_insufficient_stock referenceEngine Faults.none (sampleDb 3)
    (JsValue.ofInt 1) JsValue.undefined 3 10 rfl rfl (by decide) (by decide) (by decide)
    (by decide) (by decide)⟩

/-! ## Atomicity -/

/-- C4: with the effects of the transaction visible only on commit and every
storage step able to fail, each run of a movement handler ends either with the
answer 200 and a committed store holding both the new quantity and the new
movement record, or with another answer and the store it started from; a
failing INSERT (after the UPDATE) leaves the store, and so the quantity,
unchanged. -/
theorem movement_atomic (E : Engine) (f : Faults) (db : Db) (r : MovementRequest) :
    (((serve E f db r).response.status = 200 ∧
        ∃ (q : Int) (rec : MovementRecord), rec.new_quantity = q ∧
          (serve E f db r).db = applyMovement db r.body.product_id q rec) ∨
      ((serve E f db r).response.status ≠ 200 ∧ (serve E f db r).db = db)) ∧
    (f.insert.isSome = true → (serve E f db r).db = db) := by
  constructor
  · cases r with
    | stockIn body =>
      rcases stockIn_cases E f db body with h | ⟨h200, _, _, p, qi, rs, pv, nw, _, _, _, _, _, _, _, hdb⟩
      · exact Or.inr h
      · exact Or.inl ⟨h200, nw, _, rfl, hdb⟩
    | stockOut body =>
      rcases stockOut_cases E f db body with h | ⟨h200, _, _, p, qi, rs, pv, nw, _, _, _, _, _, _, _, hdb⟩
      · exact Or.inr h
      · exact Or.inl ⟨h200, nw, _, rfl, hdb⟩
  · intro hi
    obtain ⟨msg, hmsg⟩ := Option.isSome_iff_exists.mp hi
    cases r with
    | stockIn body =>
      simp only [serve, stockIn, attempt, hmsg]
      repeat' split
      all_goals rfl
    | stockOut body =>
      simp only [serve, stockOut, attempt, hmsg]
      repeat' split
      all_goals rfl

/-! ## Stock-in -/

/-- C5: for an existing product with current quantity `c` and a positive
integer `q`, the stock-in handler, without storage failure, answers 200 with
`data = {product_id, previous_quantity: c, new_quantity: c + q}` and stores
the quantity `c + q`, whatever the thresholds are, provided that `q` and
`c + q` are integers that JavaScript holds exactly (of magnitude below
`2 ^ 53`) and that the columns hold the product id, `q`, `c`, `c + q` and the
reason as they are, that is, that these are in the range of the columns.
Beyond the first range the handler adds another quantity than the one
requested (`parseInt(1e21)` is 1); a column that refuses `c + q` makes the
request a 500. -/
theorem stockIn_adds_quantity (E : Engine) (db : Db) (p c q : Int)
    (reason : JsValue) (hp : p ≠ 0) (hc : currentQuantity db (JsValue.ofInt p) = some c)
    (hq : 0 < q) (hr : reason.IsOptionalString)
    (hqs : SafeInteger q) (hns : SafeInteger (c + q))
    (hEp : E.Stores p) (hEq : E.Stores q) (hEc : E.Stores c) (hEn : E.Stores (c + q))
    (hEr : E.StoresText (storedReason "Stock entry" reason)) :
    (stockIn E Faults.none db ⟨JsValue.ofInt p, JsValue.ofInt q, reason⟩).response.status = 200 ∧
    (stockIn E Faults.none db ⟨JsValue.ofInt p, JsValue.ofInt q, reason⟩).response.success
      = true ∧
    (stockIn E Faults.none db ⟨JsValue.ofInt p, JsValue.ofInt q, reason⟩).response.data
      = some ⟨JsValue.ofInt p, c, JsNumber.ofInt (c + q)⟩ ∧
    currentQuantity (stockIn E Faults.none db ⟨JsValue.ofInt p, JsValue.ofInt q, reason⟩).db
      (JsValue.ofInt p) = some (c + q) := by
  obtain ⟨rest, hsel⟩ := selectQuantity_of_current hc
  rw [stockIn_stores hp hq hqs.lt_exponent hns hsel hr hEp hEq hEc hEn hEr]
  exact ⟨rfl, rfl, rfl, currentQuantity_applyMovement hc _ _⟩

theorem referenceEngine_faithful : referenceEngine.Faithful := by
  constructor
  · intro n
    have h1 : 0 ≤ n → (2 * n + 1).tdiv 2 = n := fun h => by
      rw [Int.tdiv_eq_ediv (by omega) (by omega)]; omega
    have h2 : n < 0 → (2 * n - 1).tdiv 2 = n := fun h => by
      have e : 2 * n - 1 = -(2 * (-n) + 1) := by ring
      rw [e, Int.neg_tdiv, Int.tdiv_eq_ediv (by omega) (by omega)]; omega
    by_cases hn : 0 ≤ n
    · simp [referenceEngine, JsValue.ofInt, JsNumber.ofInt, roundDecimal, hn, h1 hn]
    · simp [referenceEngine, JsValue.ofInt, JsNumber.ofInt, roundDecimal, hn, h2 (by omega)]
  · intro s
    rfl

/-- The engine with 32-bit integer columns is strict. -/
theorem strictEngine_strict : strictEngine.Strict := by
  constructor
  · intro n m h
    have hr := referenceEngine_faithful.1 n
    simp only [strictEngine, hr] at h
    split at h
    · rename_i hrange
      refine ⟨(Except.ok.inj h).symm, ?_⟩
      unfold SafeInteger
      omega
    · exact absurd h (by simp)
  · intro m
    refine ⟨?_, ?_, ?_⟩ <;> simp [strictEngine, referenceEngine]

theorem intColumn_strict {E : Engine} (hE : E.Strict) {n m : Int}
    (h : E.intColumn (JsValue.ofInt n) = Except.ok m) : m = n :=
  (hE.1 n m h).1

/-- Stock 10, IN 5 with reason "restock": previous 10, new 15. -/
theorem stockIn_adds_quantity_witness :
    currentQuantity (sampleDb 10) (JsValue.ofInt 1) = some 10 ∧
    (stockIn referenceEngine Faults.none (sampleDb 10)
      ⟨JsValue.ofInt 1, JsValue.ofInt 5, JsValue.string "restock"⟩).response.status = 200 ∧
    (stockIn referenceEngine Faults.none (sampleDb 10)
      ⟨JsValue.ofInt 1, JsValue.ofInt 5, JsValue.string "restock"⟩).response.success = true ∧
    (stockIn referenceEngine Faults.none (sampleDb 10)
      ⟨JsValue.ofInt 1, JsValue.ofInt 5, JsValue.string "restock"⟩).response.data
      = some ⟨JsValue.ofInt 1, 10, JsNumber.ofInt (10 + 5)⟩ ∧
    currentQuantity (stockIn referenceEngine Faults.none (sampleDb 10)
      ⟨JsValue.ofInt 1, JsValue.ofInt 5, JsValue.string "restock"⟩).db (JsValue.ofInt 1)
      = some (10 + 5) :=
  ⟨by decide, stockIn_adds_quantity referenceEngine (sampleDb 10) 1 10 5
    (JsValue.string "restock") (by decide) (by decide) (by decide)
    (Or.inr (Or.inr ⟨"restock", rfl⟩)) (by decide) (by decide)
    (referenceEngine_faithful.1 1) (referenceEngine_faithful.1 5) (referenceEngine_faithful.1 10)
    (referenceEngine_faithful.1 (10 + 5)) (referenceEngine_faithful.2 _)⟩

/-- What the bounds on the quantities keep out.  The quantity `1e21` prints in
exponent notation and `parseInt` reads it as 1: on a stock of 10 a stock-in of
`1e21` is answered 200 with the new quantity 11, and a stock-out of `1e21` is
answered 200 with the new quantity 9.  On integer columns of 32 bits a stock-in
of 1 on a stock of `2 ^ 31 - 1` is answered 500 and changes nothing. -/
theorem quantity_out_of_bounds :
    parseInt (JsValue.ofInt (10 ^ 21)) = JsNumber.ofInt 1 ∧
    (stockIn referenceEngine Faults.none (sampleDb 10)
      ⟨JsValue.ofInt 1, JsValue.ofInt (10 ^ 21), JsValue.undefined⟩).response.status = 200 ∧
    (stockIn referenceEngine Faults.none (sampleDb 10)
      ⟨JsValue.ofInt 1, JsValue.ofInt (10 ^ 21), JsValue.undefined⟩).response.data
      = some ⟨JsValue.ofInt 1, 10, JsNumber.ofInt 11⟩ ∧
    (stockOut referenceEngine Faults.none (sampleDb 10)
      ⟨JsValue.ofInt 1, JsValue.ofInt (10 ^ 21), JsValue.undefined⟩).response.status = 200 ∧
    (stockOut referenceEngine Faults.none (sampleDb 10)
      ⟨JsValue.ofInt 1, JsValue.ofInt (10 ^ 21), JsValue.undefined⟩).response.data
      = some ⟨JsValue.ofInt 1, 10, JsNumber.ofInt 9⟩ ∧
    (stockIn strictEngine Faults.none (sampleDb (2 ^ 31 - 1))
      ⟨JsValue.ofInt 1, JsValue.ofInt 1, JsValue.undefined⟩).response.status = 500 ∧
    (stockIn strictEngine Faults.none (sampleDb (2 ^ 31 - 1))
      ⟨JsValue.ofInt 1, JsValue.ofInt 1, JsValue.undefined⟩).db = sampleDb (2 ^ 31 - 1) := by
  refine ⟨by decide, by decide, by decide, by decide, by decide, by decide, by decide⟩

/-! ## The stock listings -/

theorem mem_joinStock {α : Type} {db : Db} {keep : StockRecord → Bool}
    {row : StockRecord → Product → α} {x : α} :
    x ∈ joinStock db keep row ↔
      ∃ s ∈ db.stock, keep s = true ∧ ∃ p ∈ db.products, s.product_id = p.id ∧ row s p = x := by
  simp only [joinStock, List.mem_flatMap, List.mem_filter, List.mem_map, decide_eq_true_eq]
  constructor
  · rintro ⟨s, ⟨hs, hk⟩, p, ⟨hp, hid⟩, hx⟩
    exact ⟨s, hs, hk, p, hp, hid, hx⟩
  · rintro ⟨s, hs, hk, p, hp, hid, hx⟩
    exact ⟨s, ⟨hs, hk⟩, p, ⟨hp, hid⟩, hx⟩

/-- A row of `GET /api/stock` shows a row of `stock` with the status of the
list's `CASE`. -/
theorem getStock_row {db : Db} {rows : List StockRow} (h : (getStock none db).data = some rows)
    {row : StockRow} (hrow : row ∈ rows) :
    ∃ s ∈ db.stock, row.product_id = s.product_id ∧ row.quantity = s.quantity ∧
      row.min_stock = s.min_stock ∧ row.max_stock = s.max_stock ∧ row.status = statusOfList s := by
  simp only [getStock, Option.some.injEq] at h
  subst h
  rw [List.mem_insertionSort] at hrow
  obtain ⟨s, hs, _, p, _, _, hx⟩ := mem_joinStock.mp hrow
  subst hx
  exact ⟨s, hs, rfl, rfl, rfl, rfl, rfl⟩

/-- The row of `GET /api/stock/product/:productId` shows a row of `stock` with
the status of that endpoint's `CASE`. -/
theorem getStockByProduct_row {db : Db} {productId : String} {row : StockRow}
    (h : (getStockByProduct none db productId).data = some row) :
    ∃ s ∈ db.stock, row.product_id = s.product_id ∧ row.quantity = s.quantity ∧
      row.min_stock = s.min_stock ∧ row.max_stock = s.max_stock ∧
      row.status = statusOfProduct s := by
  unfold getStockByProduct at h
  simp only at h
  split at h
  · simp [errorResponse] at h
  · rename_i r rest heq
    simp only [Option.some.injEq] at h
    subst h
    have hmem : r ∈ joinStock db (matchesProduct (JsValue.string productId)) (fun s p =>
          ({ product_id := s.product_id, quantity := s.quantity, min_stock := s.min_stock,
             max_stock := s.max_stock, product_name := p.name, sku := p.sku,
             price := JsValue.undefined, status := statusOfProduct s } : StockRow)) := by
      rw [heq]; exact List.mem_cons_self _ _
    obtain ⟨s, hs, _, p, _, _, hx⟩ := mem_joinStock.mp hmem
    subst hx
    exact ⟨s, hs, rfl, rfl, rfl, rfl, rfl⟩

/-- C10: the status of a row in `GET /api/stock` and in
`GET /api/stock/product/:productId` is the classifier of the specification
applied to that row's quantity, min_stock and max_stock: LOW if
`quantity <= min_stock`, otherwise HIGH if `quantity >= max_stock`, otherwise
NORMAL; the three cases exclude each other and cover every triple of integers,
and the two endpoints compute the same function. -/
theorem status_is_classifier :
    (∀ s : StockRecord, statusOfList s = classifyStatus s.quantity s.min_stock s.max_stock ∧
      statusOfProduct s = statusOfList s) ∧
    (∀ q mn mx : Int,
      (classifyStatus q mn mx = StockStatus.LOW ↔ q ≤ mn) ∧
      (classifyStatus q mn mx = StockStatus.HIGH ↔ mn < q ∧ mx ≤ q) ∧
      (classifyStatus q mn mx = StockStatus.NORMAL ↔ mn < q ∧ q < mx)) ∧
    (∀ (db : Db) (rows : List StockRow), (getStock none db).data = some rows →
      ∀ row ∈ rows,
        row.status = classifyStatus row.quantity row.min_stock row.max_stock) ∧
    (∀ (db : Db) (productId : String) (row : StockRow),
      (getStockByProduct none db productId).data = some row →
        row.status = classifyStatus row.quantity row.min_stock row.max_stock) := by
  refine ⟨fun s => ⟨rfl, rfl⟩, ?_, ?_, ?_⟩
  · intro q mn mx
    unfold classifyStatus
    refine ⟨?_, ?_, ?_⟩
    · split
      · simp [*]
      · split <;> simp [*]
    · split
      · simp; omega
      · split
        · simp; omega
        · simp; omega
    · split
      · simp; omega
      · split
        · simp; omega
        · simp; omega
  · intro db rows h row hrow
    obtain ⟨s, _, _, hq, hmn, hmx, hst⟩ := getStock_row h hrow
    rw [hst, hq, hmn, hmx]; rfl
  · intro db productId row h
    obtain ⟨s, _, _, hq, hmn, hmx, hst⟩ := getStockByProduct_row h
    rw [hst, hq, hmn, hmx]; rfl

/-! ## Stock-out -/

theorem matchesProduct_ofInt (p : Int) (s : StockRecord) :
    matchesProduct (JsValue.ofInt p) s = decide (p = s.product_id) := by
  simp [matchesProduct, JsValue.ofInt, JsNumber.ofInt, JsValue.toNumber, JsNumber.eqInt]

/-- After a movement on product `p` every stock row of `p` carries the new
quantity. -/
theorem applyMovement_quantity {db : Db} {p q : Int} {r : MovementRecord} {s : StockRecord}
    (hs : s ∈ (applyMovement db (JsValue.ofInt p) q r).stock) (hp : s.product_id = p) :
    s.quantity = q := by
  simp only [applyMovement, List.mem_map] at hs
  obtain ⟨s0, _, h0⟩ := hs
  by_cases hm : matchesProduct (JsValue.ofInt p) s0 = true
  · rw [if_pos hm] at h0; subst h0; rfl
  · rw [if_neg hm] at h0; subst h0
    exact absurd (by simp [matchesProduct_ofInt, hp]) hm

/-- C6: for an existing product with current quantity `c`, an integer that
JavaScript holds exactly (of magnitude below `2 ^ 53`), and a positive
integer `q <= c`, the stock-out handler (on an engine that stores integers and
strings as they are, without storage failure) answers 200 with
`data = {product_id, previous_quantity: c, new_quantity: c - q}` and stores
the quantity `c - q`; every row that either stock listing shows for the product
afterwards carries the quantity `c - q` and the status of `c - q` against the
row's thresholds. -/
theorem stockOut_subtracts_quantity (E : Engine) (hE : E.Faithful) (db : Db) (p c q : Int)
    (reason : JsValue) (hp : p ≠ 0) (hc : currentQuantity db (JsValue.ofInt p) = some c)
    (hq : 0 < q) (hqc : q ≤ c) (hcs : SafeInteger c) (hr : reason.IsOptionalString) :
    (stockOut E Faults.none db ⟨JsValue.ofInt p, JsValue.ofInt q, reason⟩).response.status
      = 200 ∧
    (stockOut E Faults.none db ⟨JsValue.ofInt p, JsValue.ofInt q, reason⟩).response.success
      = true ∧
    (stockOut E Faults.none db ⟨JsValue.ofInt p, JsValue.ofInt q, reason⟩).response.data
      = some ⟨JsValue.ofInt p, c, JsNumber.ofInt (c - q)⟩ ∧
    currentQuantity (stockOut E Faults.none db ⟨JsValue.ofInt p, JsValue.ofInt q, reason⟩).db
      (JsValue.ofInt p) = some (c - q) ∧
    (∀ rows : List StockRow,
      (getStock none
        (stockOut E Faults.none db ⟨JsValue.ofInt p, JsValue.ofInt q, reason⟩).db).data
        = some rows →
      ∀ row ∈ rows, row.product_id = p →
        row.quantity = c - q ∧
        row.status = classifyStatus (c - q) row.min_stock row.max_stock) ∧
    (∀ (productId : String) (row : StockRow),
      (getStockByProduct none
        (stockOut E Faults.none db ⟨JsValue.ofInt p, JsValue.ofInt q, reason⟩).db
        productId).data = some row →
      row.product_id = p →
        row.quantity = c - q ∧
        row.status = classifyStatus (c - q) row.min_stock row.max_stock) := by
  obtain ⟨rest, hsel⟩ := selectQuantity_of_current hc
  have hqs : q.natAbs < 10 ^ 21 := by
    have := hcs.lt_exponent
    omega
  have hns : SafeInteger (c - q) := by
    unfold SafeInteger at hcs ⊢
    omega
  rw [stockOut_run hE hp hq hqs hqc hns hsel hr]
  refine ⟨rfl, rfl, rfl, currentQuantity_applyMovement hc _ _, ?_, ?_⟩
  · intro rows h row hrow hpid
    obtain ⟨s, hs, hid, hqty, hmn, hmx, hst⟩ := getStock_row h hrow
    have hsq : s.quantity = c - q := applyMovement_quantity hs (by rw [← hid, hpid])
    refine ⟨by rw [hqty, hsq], ?_⟩
    rw [hst, hmn, hmx, ← hsq]; rfl
  · intro productId row h hpid
    obtain ⟨s, hs, hid, hqty, hmn, hmx, hst⟩ := getStockByProduct_row h
    have hsq : s.quantity = c - q := applyMovement_quantity hs (by rw [← hid, hpid])
    refine ⟨by rw [hqty, hsq], ?_⟩
    rw [hst, hmn, hmx, ← hsq]; rfl

/-- Stock 3 with min 5, OUT 1: the quantity becomes 2 and the listing shows the
product as LOW. -/
theorem stockOut_subtracts_quantity_witness :
    (getStock none (stockOut referenceEngine Faults.none (sampleDb 3)
        ⟨JsValue.ofInt 1, JsValue.ofInt 1, JsValue.undefined⟩).db).data
      = some [⟨1, 2, 5, 100, "Laptop", "LAP-001", JsValue.string "999.99", StockStatus.LOW⟩] ∧
    currentQuantity (stockOut referenceEngine Faults.none (sampleDb 3)
        ⟨JsValue.ofInt 1, JsValue.ofInt 1, JsValue.undefined⟩).db (JsValue.ofInt 1)
      = some (3 - 1) :=
  ⟨by decide, (stockOut_subtracts_quantity referenceEngine referenceEngine_faithful (sampleDb 3)
    1 3 1 JsValue.undefined (by decide) (by decide) (by decide) (by decide) (by decide)
    (Or.inl rfl)).2.2.2.1⟩

/-! ## The movement record -/

/-- What `serve` has done when it answers 200, and that it has done nothing
otherwise. -/
theorem serve_cases (E : Engine) (f : Faults) (db : Db) (r : MovementRequest) :
    ((serve E f db r).response.status ≠ 200 ∧ (serve E f db r).db = db) ∨
    ((serve E f db r).response.status = 200 ∧
      ∃ newQty : Int → JsNumber,
        Accepted E r.direction (defaultReason r.direction) newQty db r.body (serve E f db r)) := by
  cases r with
  | stockIn body =>
    rcases stockIn_cases E f db body with h | ⟨h200, hacc⟩
    · exact Or.inl h
    · exact Or.inr ⟨h200, _, hacc⟩
  | stockOut body =>
    rcases stockOut_cases E f db body with h | ⟨h200, hacc⟩
    · exact Or.inl h
    · exact Or.inr ⟨h200, _, hacc⟩

/-- On an engine that stores integers as they are, every request answered
200 appends exactly one movement record; its product and quantity columns hold
the request's `product_id` and `quantity` as the engine stores them (the
integers themselves when they are integers), its type is the direction of the
endpoint, its previous_quantity is the quantity read before the change and its
new_quantity is the quantity the stock row now holds.  Every request answered
otherwise appends none. -/
theorem movement_record_fields (E : Engine) (hE : E.Faithful) (f : Faults) (db : Db)
    (r : MovementRequest) :
    ((serve E f db r).response.status = 200 →
      ∃ (rec : MovementRecord) (prev : Int),
        (serve E f db r).db.stock_movements = db.stock_movements ++ [rec] ∧
        rec.movement_type = r.direction ∧
        E.intColumn r.body.product_id = Except.ok rec.product_id ∧
        (∀ p : Int, r.body.product_id = JsValue.ofInt p → rec.product_id = p) ∧
        E.intColumn r.body.quantity = Except.ok rec.quantity ∧
        (∀ q : Int, r.body.quantity = JsValue.ofInt q → rec.quantity = q) ∧
        currentQuantity db r.body.product_id = some prev ∧
        rec.previous_quantity = prev ∧
        currentQuantity (serve E f db r).db r.body.product_id = some rec.new_quantity) ∧
    ((serve E f db r).response.status ≠ 200 →
      (serve E f db r).db.stock_movements = db.stock_movements) := by
  rcases serve_cases E f db r with ⟨hne, hdb⟩ | ⟨h200, newQty, hacc⟩
  · exact ⟨fun h => absurd h hne, fun _ => by rw [hdb]⟩
  · refine ⟨fun _ => ?_, fun h => absurd h200 h⟩
    obtain ⟨prev, rest, p, qi, rs, pv, nw, hsel, h1, h2, _, h4, _, _, hdb⟩ := hacc
    have hcur : currentQuantity db r.body.product_id = some prev := by
      simp [currentQuantity, hsel]
    have hpv : pv = prev := by
      have := hE.1 prev
      rw [h4] at this
      exact Except.ok.inj this
    refine ⟨⟨p, r.direction, qi, rs, pv, nw⟩, prev, ?_, rfl, h1, ?_, h2, ?_, hcur, hpv, ?_⟩
    · rw [hdb]; rfl
    · intro p0 hp0
      have := hE.1 p0
      rw [← hp0, h1] at this
      exact Except.ok.inj this
    · intro q0 hq0
      have := hE.1 q0
      rw [← hq0, h2] at this
      exact Except.ok.inj this
    · rw [hdb]; exact currentQuantity_applyMovement hcur _ _

/-- Stock 10, IN 5: the one record appended is (product 1, IN, 5, 10, 15). -/
theorem movement_record_fields_witness :
    (stockIn referenceEngine Faults.none (sampleDb 10)
        ⟨JsValue.ofInt 1, JsValue.ofInt 5, JsValue.undefined⟩).db.stock_movements
      = [⟨1, MovementType.IN, 5, "Stock entry", 10, 15⟩] ∧
    ∃ (rec : MovementRecord) (prev : Int),
      (serve referenceEngine Faults.none (sampleDb 10)
        (MovementRequest.stockIn ⟨JsValue.ofInt 1, JsValue.ofInt 5, JsValue.undefined⟩)).db.stock_movements
        = (sampleDb 10).stock_movements ++ [rec] ∧
      rec.movement_type = MovementType.IN ∧
      referenceEngine.intColumn (JsValue.ofInt 1) = Except.ok rec.product_id ∧
      (∀ p : Int, JsValue.ofInt 1 = JsValue.ofInt p → rec.product_id = p) ∧
      referenceEngine.intColumn (JsValue.ofInt 5) = Except.ok rec.quantity ∧
      (∀ q : Int, JsValue.ofInt 5 = JsValue.ofInt q → rec.quantity = q) ∧
      currentQuantity (sampleDb 10) (JsValue.ofInt 1) = some prev ∧
      rec.previous_quantity = prev ∧
      currentQuantity (serve referenceEngine Faults.none (sampleDb 10)
        (MovementRequest.stockIn ⟨JsValue.ofInt 1, JsValue.ofInt 5, JsValue.undefined⟩)).db
        (JsValue.ofInt 1) = some rec.new_quantity :=
  ⟨by decide, (movement_record_fields referenceEngine referenceEngine_faithful Faults.none
    (sampleDb 10)
    (MovementRequest.stockIn ⟨JsValue.ofInt 1, JsValue.ofInt 5, JsValue.undefined⟩)).1
    (by decide)⟩

/-- C7 fails on the code for a quantity that is not an integer.  A stock-out of
1.5 units on a stock of 10 passes the validation and is answered 200; it
appends one record, of type OUT, from 10 to the 9 now in the stock row, but the
`quantity` column of the record is an integer column: on every engine that
stores integers as they are and takes 1.5 at all, what is recorded is an
integer `v`, which is not the 1.5 requested.  On a column that rounds, the
record holds 2; a stock-in of 0.5 likewise records 1 (and leaves the stock at
10). -/
theorem recorded_quantity_not_requested :
    (∀ (E : Engine) (v : Int), E.Faithful →
      E.intColumn (JsValue.number (JsNumber.fin 15 1)) = Except.ok v →
      (stockOut E Faults.none (sampleDb 10)
        ⟨JsValue.ofInt 1, JsValue.number (JsNumber.fin 15 1), JsValue.undefined⟩).response.status
        = 200 ∧
      (stockOut E Faults.none (sampleDb 10)
        ⟨JsValue.ofInt 1, JsValue.number (JsNumber.fin 15 1),
          JsValue.undefined⟩).db.stock_movements
        = [⟨1, MovementType.OUT, v, "Stock exit", 10, 9⟩] ∧
      (JsNumber.fin 15 1).eqInt v = false) ∧
    (stockOut referenceEngine Faults.none (sampleDb 10)
        ⟨JsValue.ofInt 1, JsValue.number (JsNumber.fin 15 1), JsValue.undefined⟩).response.status
      = 200 ∧
    (stockOut referenceEngine Faults.none (sampleDb 10)
        ⟨JsValue.ofInt 1, JsValue.number (JsNumber.fin 15 1),
          JsValue.undefined⟩).db.stock_movements
      = [⟨1, MovementType.OUT, 2, "Stock exit", 10, 9⟩] ∧
    currentQuantity (stockOut referenceEngine Faults.none (sampleDb 10)
        ⟨JsValue.ofInt 1, JsValue.number (JsNumber.fin 15 1), JsValue.undefined⟩).db
      (JsValue.ofInt 1) = some 9 ∧
    (stockIn referenceEngine Faults.none (sampleDb 10)
        ⟨JsValue.ofInt 1, JsValue.number (JsNumber.fin 5 1), JsValue.undefined⟩).response.status
      = 200 ∧
    (stockIn referenceEngine Faults.none (sampleDb 10)
        ⟨JsValue.ofInt 1, JsValue.number (JsNumber.fin 5 1),
          JsValue.undefined⟩).db.stock_movements
      = [⟨1, MovementType.IN, 1, "Stock entry", 10, 10⟩] := by
  refine ⟨?_, by decide, by decide, by decide, by decide, by decide⟩
  intro E v hE hv
  have hsel : selectQuantity (sampleDb 10) (JsValue.ofInt 1) = [10] := by decide
  have hg : (!(JsValue.ofInt 1).truthy || !(JsValue.number (JsNumber.fin 15 1)).truthy
      || (JsValue.number (JsNumber.fin 15 1)).toNumber.leZero) = false := by decide
  have hparse : parseInt (JsValue.number (JsNumber.fin 15 1)) = JsNumber.ofInt 1 := by decide
  have hlt : (JsNumber.ofInt 9).ltZero = false := by decide
  have hreason := textColumn_reason hE (Or.inl rfl : JsValue.undefined.IsOptionalString)
    "Stock exit"
  refine ⟨?_, ?_, ?_⟩
  · simp [stockOut, Faults.none, hg, attempt, hsel, hparse, hlt, sub_ofInt 10 1 (by decide),
      updateQuantity, insertMovement, number_ofInt, hE.1, hv, hreason, storedReason]
  · have hrun : (stockOut E Faults.none (sampleDb 10)
        ⟨JsValue.ofInt 1, JsValue.number (JsNumber.fin 15 1), JsValue.undefined⟩).db
        = applyMovement (sampleDb 10) (JsValue.ofInt 1) 9
            ⟨1, MovementType.OUT, v, "Stock exit", 10, 9⟩ := by
      simp [stockOut, Faults.none, hg, attempt, hsel, hparse, hlt, sub_ofInt 10 1 (by decide),
        updateQuantity, insertMovement, number_ofInt, hE.1, hv, hreason, storedReason,
        applyMovement]
    rw [hrun]
    rfl
  · simp only [JsNumber.eqInt, decide_eq_false_iff_not]
    intro h
    have h2 : (15 : Int) = v * 10 := by simpa using h
    omega

/-! ## Unknown products -/

/-- C9: a movement request with a truthy product_id and a positive integer
quantity whose product_id selects no stock row (storage reads succeeding) is
answered 404 with `success: false` and the error 'Product not found', and the
store is left as it was. -/
theorem unknown_product_not_found (E : Engine) (f : Faults) (db : Db) (r : MovementRequest)
    (q : Int) (hb : f.beginTransaction = none) (hs : f.select = none)
    (hpid : r.body.product_id.truthy = true) (hqty : r.body.quantity = JsValue.ofInt q)
    (hq : 0 < q) (hnone : currentQuantity db r.body.product_id = none) :
    (serve E f db r).response.status = 404 ∧
    (serve E f db r).response.success = false ∧
    (serve E f db r).response.error = some "Product not found" ∧
    (serve E f db r).response.data = none ∧
    (serve E f db r).db = db := by
  have hsel : selectQuantity db r.body.product_id = [] := by
    unfold currentQuantity at hnone
    cases h : selectQuantity db r.body.product_id with
    | nil => rfl
    | cons a rest => simp [h] at hnone
  cases r with
  | stockIn body =>
    simp only [MovementRequest.body] at hpid hqty hsel
    simp [serve, stockIn, hb, hs, hpid, hqty, truthy_ofInt (ne_of_gt hq), leZero_ofInt,
      not_le.mpr hq, attempt, hsel, errorResponse]
  | stockOut body =>
    simp only [MovementRequest.body] at hpid hqty hsel
    simp [serve, stockOut, hb, hs, hpid, hqty, truthy_ofInt (ne_of_gt hq), leZero_ofInt,
      not_le.mpr hq, attempt, hsel, errorResponse]

/-- Product 7 has no stock row in the sample store: OUT 2 for it is answered
404 and nothing changes. -/
theorem unknown_product_not_found_witness :
    currentQuantity (sampleDb 10) (JsValue.ofInt 7) = none ∧
    (stockOut referenceEngine Faults.none (sampleDb 10)
      ⟨JsValue.ofInt 7, JsValue.ofInt 2, JsValue.undefined⟩).response.status = 404 ∧
    (stockOut referenceEngine Faults.none (sampleDb 10)
      ⟨JsValue.ofInt 7, JsValue.ofInt 2, JsValue.undefined⟩).response.success = false ∧
    (stockOut referenceEngine Faults.none (sampleDb 10)
      ⟨JsValue.ofInt 7, JsValue.ofInt 2, JsValue.undefined⟩).response.error
      = some "Product not found" ∧
    (stockOut referenceEngine Faults.none (sampleDb 10)
      ⟨JsValue.ofInt 7, JsValue.ofInt 2, JsValue.undefined⟩).response.data = none ∧
    (stockOut referenceEngine Faults.none (sampleDb 10)
      ⟨JsValue.ofInt 7, JsValue.ofInt 2, JsValue.undefined⟩).db = sampleDb 10 :=
  ⟨by decide, unknown_product_not_found referenceEngine Faults.none (sampleDb 10)
    (MovementRequest.stockOut ⟨JsValue.ofInt 7, JsValue.ofInt 2, JsValue.undefined⟩) 2 rfl rfl
    (by decide) rfl (by decide) (by decide)⟩

/-! ## The recorded reason -/

/-- C8 as stated fails: a stock-in that carries the reason `""` (what the
dashboard sends when the field is left blank) is accepted and its record holds
'Stock entry', not the caller's string. -/
theorem empty_reason_replaced :
    (stockIn referenceEngine Faults.none (sampleDb 10)
      ⟨JsValue.ofInt 1, JsValue.ofInt 5, JsValue.string ""⟩).response.status = 200 ∧
    (stockIn referenceEngine Faults.none (sampleDb 10)
      ⟨JsValue.ofInt 1, JsValue.ofInt 5, JsValue.string ""⟩).db.stock_movements
      = [⟨1, MovementType.IN, 5, "Stock entry", 10, 15⟩] ∧
    ¬ (∀ rec ∈ (stockIn referenceEngine Faults.none (sampleDb 10)
        ⟨JsValue.ofInt 1, JsValue.ofInt 5, JsValue.string ""⟩).db.stock_movements,
      rec.reason = "") := by
  decide

/-- C8, amended: on an engine that stores strings as they are, the record of a
request answered 200 holds the caller's reason unchanged when the request
carries a non-empty string, and the default of the direction ('Stock entry'
for IN, 'Stock exit' for OUT) when the reason is absent, `null` or the empty
string. -/
theorem reason_recorded (E : Engine) (hE : E.Faithful) (f : Faults) (db : Db)
    (r : MovementRequest) (h200 : (serve E f db r).response.status = 200) :
    ∃ rec : MovementRecord,
      (serve E f db r).db.stock_movements = db.stock_movements ++ [rec] ∧
      (∀ s : String, r.body.reason = JsValue.string s → s ≠ "" → rec.reason = s) ∧
      (r.body.reason = JsValue.undefined ∨ r.body.reason = JsValue.null ∨
          r.body.reason = JsValue.string "" →
        rec.reason = defaultReason r.direction) ∧
      (defaultReason MovementType.IN = "Stock entry" ∧
        defaultReason MovementType.OUT = "Stock exit") := by
  rcases serve_cases E f db r with ⟨hne, _⟩ | ⟨_, newQty, hacc⟩
  · exact absurd h200 hne
  · obtain ⟨prev, rest, p, qi, rs, pv, nw, _, _, _, h3, _, _, _, hdb⟩ := hacc
    refine ⟨⟨p, r.direction, qi, rs, pv, nw⟩, by rw [hdb]; rfl, ?_, ?_, rfl, rfl⟩
    · intro s hs hne
      have h := textColumn_reason hE (Or.inr (Or.inr ⟨s, hs⟩)) (defaultReason r.direction)
      rw [h3, hs] at h
      have hemp : s.isEmpty = false := by
        rw [Bool.eq_false_iff]; intro hc; exact hne ((String.isEmpty_iff s).mp hc)
      simpa [storedReason, hemp] using Except.ok.inj h
    · intro hcase
      have hopt : r.body.reason.IsOptionalString := by
        rcases hcase with h | h | h
        · exact Or.inl h
        · exact Or.inr (Or.inl h)
        · exact Or.inr (Or.inr ⟨"", h⟩)
      have h := textColumn_reason hE hopt (defaultReason r.direction)
      rw [h3] at h
      have hrs := Except.ok.inj h
      have hemp : ("" : String).isEmpty = true := by decide
      rcases hcase with h | h | h <;> simp [hrs, h, storedReason, hemp]

/-- Stock 10, OUT 4 with the reason "sold": the record holds "sold". -/
theorem reason_recorded_witness :
    (stockOut referenceEngine Faults.none (sampleDb 10)
        ⟨JsValue.ofInt 1, JsValue.ofInt 4, JsValue.string "sold"⟩).db.stock_movements
      = [⟨1, MovementType.OUT, 4, "sold", 10, 6⟩] ∧
    ∃ rec : MovementRecord,
      (serve referenceEngine Faults.none (sampleDb 10) (MovementRequest.stockOut
        ⟨JsValue.ofInt 1, JsValue.ofInt 4, JsValue.string "sold"⟩)).db.stock_movements
        = (sampleDb 10).stock_movements ++ [rec] ∧
      (∀ s : String, JsValue.string "sold" = JsValue.string s → s ≠ "" → rec.reason = s) ∧
      (JsValue.string "sold" = JsValue.undefined ∨ JsValue.string "sold" = JsValue.null ∨
          JsValue.string "sold" = JsValue.string "" →
        rec.reason = defaultReason MovementType.OUT) ∧
      (defaultReason MovementType.IN = "Stock entry" ∧
        defaultReason MovementType.OUT = "Stock exit") :=
  ⟨by decide, reason_recorded referenceEngine referenceEngine_faithful Faults.none (sampleDb 10)
    (MovementRequest.stockOut ⟨JsValue.ofInt 1, JsValue.ofInt 4, JsValue.string "sold"⟩)
    (by decide)⟩

/-! ## Quantities that are not positive integers -/

/-- A request that passes the validation of the stock-in handler is never
answered 400. -/
theorem stockIn_not_400 (E : Engine) (f : Faults) (db : Db) (body : MovementBody)
    (hg : (!body.product_id.truthy || !body.quantity.truthy
      || body.quantity.toNumber.leZero) = false) :
    (stockIn E f db body).response.status ≠ 400 := by
  unfold stockIn
  simp only [hg]
  repeat' split
  all_goals simp_all [storageError, errorResponse]

/-- A request whose quantity is missing, zero, negative or otherwise falsy is
answered 400 by both handlers (the transaction having begun) and changes
nothing. -/
theorem nonpositive_quantity_rejected (E : Engine) (f : Faults) (db : Db)
    (r : MovementRequest) (hb : f.beginTransaction = none)
    (hq : r.body.quantity.truthy = false ∨ r.body.quantity.toNumber.leZero = true) :
    (serve E f db r).response
      = errorResponse 400 "Valid product_id and positive quantity are required" ∧
    (serve E f db r).db = db := by
  have hg : (!r.body.product_id.truthy || !r.body.quantity.truthy
      || r.body.quantity.toNumber.leZero) = true := by
    rcases hq with h | h <;> simp [h]
  cases r with
  | stockIn body =>
    simp only [MovementRequest.body] at hg
    simp only [serve, stockIn, hb, hg, if_true, and_self]
  | stockOut body =>
    simp only [MovementRequest.body] at hg
    simp only [serve, stockOut, hb, hg, if_true, and_self]

/-- C3 fails on the code: the quantities 2.5, 0.5 and "abc" pass the validation
of the stock-in handler, so that no engine and no storage failure makes the
answer a 400.  With product 1 at quantity 10 on the reference engine, the
quantity 2.5 is answered 200 and the stock row goes to 12 with one record
appended; 0.5 is answered 200 and appends a record while the stock stays 10;
"abc" is answered 500. -/
theorem malformed_quantity_passes_validation :
    (∀ (E : Engine) (f : Faults) (db : Db),
      (stockIn E f db ⟨JsValue.ofInt 1, JsValue.number (JsNumber.fin 25 1),
        JsValue.undefined⟩).response.status ≠ 400 ∧
      (stockIn E f db ⟨JsValue.ofInt 1, JsValue.number (JsNumber.fin 5 1),
        JsValue.undefined⟩).response.status ≠ 400 ∧
      (stockIn E f db ⟨JsValue.ofInt 1, JsValue.string "abc",
        JsValue.undefined⟩).response.status ≠ 400) ∧
    ((stockIn referenceEngine Faults.none (sampleDb 10)
        ⟨JsValue.ofInt 1, JsValue.number (JsNumber.fin 25 1), JsValue.undefined⟩).response.status
        = 200 ∧
      currentQuantity (stockIn referenceEngine Faults.none (sampleDb 10)
        ⟨JsValue.ofInt 1, JsValue.number (JsNumber.fin 25 1), JsValue.undefined⟩).db
        (JsValue.ofInt 1) = some 12 ∧
      (stockIn referenceEngine Faults.none (sampleDb 10)
        ⟨JsValue.ofInt 1, JsValue.number (JsNumber.fin 25 1),
          JsValue.undefined⟩).db.stock_movements.length = 1) ∧
    ((stockIn referenceEngine Faults.none (sampleDb 10)
        ⟨JsValue.ofInt 1, JsValue.number (JsNumber.fin 5 1), JsValue.undefined⟩).response.status
        = 200 ∧
      currentQuantity (stockIn referenceEngine Faults.none (sampleDb 10)
        ⟨JsValue.ofInt 1, JsValue.number (JsNumber.fin 5 1), JsValue.undefined⟩).db
        (JsValue.ofInt 1) = some 10 ∧
      (stockIn referenceEngine Faults.none (sampleDb 10)
        ⟨JsValue.ofInt 1, JsValue.number (JsNumber.fin 5 1),
          JsValue.undefined⟩).db.stock_movements.length = 1) ∧
    (stockIn referenceEngine Faults.none (sampleDb 10)
        ⟨JsValue.ofInt 1, JsValue.string "abc", JsValue.undefined⟩).response.status = 500 := by
  refine ⟨fun E f db => ⟨?_, ?_, ?_⟩, by decide, by decide, by decide⟩
  · exact stockIn_not_400 E f db _ (by decide)
  · exact stockIn_not_400 E f db _ (by decide)
  · exact stockIn_not_400 E f db _ (by decide)

/-! ## The ledger invariant -/

/-- C1 fails on the code: from product 1 at quantity 0 with an empty ledger,
one stock-in of 1.5 is accepted; the stock row goes to `0 + parseInt(1.5) = 1`
while the record takes the quantity 1.5 as bound.  On every engine that stores
integers and strings as they are, the balance of the ledger is then whatever
the quantity column makes of 1.5; on the reference engine it is 2, and the
stored quantity 1 is not the balance. -/
theorem ledger_drifts_on_fraction :
    (currentQuantity (sampleDb 0) (JsValue.ofInt 1) = some 0 ∧
      (sampleDb 0).stock_movements = []) ∧
    (∀ (E : Engine) (v : Int), E.Faithful →
      E.intColumn (JsValue.number (JsNumber.fin 15 1)) = Except.ok v →
      currentQuantity (serveAll E (sampleDb 0)
        [(Faults.none, MovementRequest.stockIn
          ⟨JsValue.ofInt 1, JsValue.number (JsNumber.fin 15 1), JsValue.undefined⟩)])
        (JsValue.ofInt 1) = some 1 ∧
      ledgerBalance 1 (serveAll E (sampleDb 0)
        [(Faults.none, MovementRequest.stockIn
          ⟨JsValue.ofInt 1, JsValue.number (JsNumber.fin 15 1),
            JsValue.undefined⟩)]).stock_movements = v) ∧
    (currentQuantity (serveAll referenceEngine (sampleDb 0)
        [(Faults.none, MovementRequest.stockIn
          ⟨JsValue.ofInt 1, JsValue.number (JsNumber.fin 15 1), JsValue.undefined⟩)])
        (JsValue.ofInt 1) = some 1 ∧
      (serveAll referenceEngine (sampleDb 0)
        [(Faults.none, MovementRequest.stockIn
          ⟨JsValue.ofInt 1, JsValue.number (JsNumber.fin 15 1),
            JsValue.undefined⟩)]).stock_movements
        = [⟨1, MovementType.IN, 2, "Stock entry", 0, 1⟩] ∧
      ledgerBalance 1 (serveAll referenceEngine (sampleDb 0)
        [(Faults.none, MovementRequest.stockIn
          ⟨JsValue.ofInt 1, JsValue.number (JsNumber.fin 15 1),
            JsValue.undefined⟩)]).stock_movements = 2) := by
  refine ⟨by decide, ?_, by decide⟩
  intro E v hE hv
  have hsel : selectQuantity (sampleDb 0) (JsValue.ofInt 1) = [0] := by decide
  have hg : (!(JsValue.ofInt 1).truthy || !(JsValue.number (JsNumber.fin 15 1)).truthy
      || (JsValue.number (JsNumber.fin 15 1)).toNumber.leZero) = false := by decide
  have hparse : parseInt (JsValue.number (JsNumber.fin 15 1)) = JsNumber.ofInt 1 := by decide
  have hreason := textColumn_reason hE (Or.inl rfl : JsValue.undefined.IsOptionalString)
    "Stock entry"
  have hrun : (stockIn E Faults.none (sampleDb 0)
      ⟨JsValue.ofInt 1, JsValue.number (JsNumber.fin 15 1), JsValue.undefined⟩).db
      = applyMovement (sampleDb 0) (JsValue.ofInt 1) 1
          ⟨1, MovementType.IN, v, "Stock entry", 0, 1⟩ := by
    simp [stockIn, Faults.none, hg, attempt, hsel, hparse, add_ofInt 0 1 (by decide),
      updateQuantity, insertMovement, number_ofInt, hE.1, hv, hreason, storedReason,
      applyMovement]
  simp only [serveAll, serve, hrun]
  constructor
  · exact currentQuantity_applyMovement (c := 0) (by decide) _ _
  · simp [applyMovement, sampleDb, ledgerBalance, ledgerSum]

/-- A stock-in answered 200 has passed the validation. -/
theorem stockIn_200_valid {E : Engine} {f : Faults} {db : Db} {body : MovementBody}
    (h : (stockIn E f db body).response.status = 200) :
    (!body.product_id.truthy || !body.quantity.truthy
      || body.quantity.toNumber.leZero) = false := by
  by_contra hg
  rw [Bool.not_eq_false] at hg
  unfold stockIn at h
  cases hb : f.beginTransaction <;> simp [hb, hg, storageError, errorResponse] at h

/-- A stock-out answered 200 has passed the validation and the stock check. -/
theorem stockOut_200_valid {E : Engine} {f : Faults} {db : Db} {body : MovementBody}
    (h : (stockOut E f db body).response.status = 200) :
    (!body.product_id.truthy || !body.quantity.truthy
      || body.quantity.toNumber.leZero) = false ∧
    ∀ prev rest, selectQuantity db body.product_id = prev :: rest →
      ((JsNumber.ofInt prev).sub (parseInt body.quantity)).ltZero = false := by
  constructor
  · by_contra hg
    rw [Bool.not_eq_false] at hg
    unfold stockOut at h
    cases hb : f.beginTransaction <;> simp [hb, hg, storageError, errorResponse] at h
  · intro prev rest hsel
    by_contra hlt
    rw [Bool.not_eq_false] at hlt
    unfold stockOut at h
    cases hb : f.beginTransaction <;> cases hs : f.select <;>
      simp [hb, hs, hsel, hlt, attempt, storageError, errorResponse] at h <;>
      split at h <;> simp at h

theorem ledgerSum_append (t : MovementType) (p : Int) (ms : List MovementRecord)
    (r : MovementRecord) :
    ledgerSum t p (ms ++ [r])
      = ledgerSum t p ms + (if r.product_id = p ∧ r.movement_type = t then r.quantity else 0) := by
  unfold ledgerSum
  by_cases h : r.product_id = p ∧ r.movement_type = t
  · simp [List.filter_append, List.filter_cons, h]
  · simp [List.filter_append, List.filter_cons, h]

theorem mem_selectQuantity {db : Db} {pid : JsValue} {prev : Int} {rest : List Int}
    (h : selectQuantity db pid = prev :: rest) :
    ∃ s ∈ db.stock, matchesProduct pid s = true ∧ s.quantity = prev := by
  have hm : prev ∈ selectQuantity db pid := by rw [h]; exact List.mem_cons_self _ _
  simp only [selectQuantity, List.mem_map, List.mem_filter] at hm
  obtain ⟨s, ⟨hs, hk⟩, hq⟩ := hm
  exact ⟨s, hs, hk, hq⟩

/-- Applying to product `p0` a movement of `d` units (`d` added for IN, taken
off for OUT) that starts from the quantity read keeps the ledger invariant of
every product. -/
theorem applyMovement_invariant {db : Db} {p p0 prev q nw : Int} {t : MovementType}
    {rs : String} (hinv : LedgerInvariant db p)
    (hprev : ∃ s ∈ db.stock, matchesProduct (JsValue.ofInt p0) s = true ∧ s.quantity = prev)
    (hnw : nw = match t with
      | MovementType.IN => prev + q
      | MovementType.OUT => prev - q)
    (hpos : p0 = p → 0 ≤ nw) :
    LedgerInvariant (applyMovement db (JsValue.ofInt p0) nw ⟨p0, t, q, rs, prev, nw⟩) p := by
  intro s' hs' hp'
  simp only [applyMovement, List.mem_map] at hs'
  obtain ⟨s, hs, hs'eq⟩ := hs'
  simp only [applyMovement, ledgerBalance, ledgerSum_append]
  by_cases hpp : p0 = p
  · subst hpp
    have hm : matchesProduct (JsValue.ofInt p0) s = true := by
      by_cases hm : matchesProduct (JsValue.ofInt p0) s = true
      · exact hm
      · rw [if_neg hm] at hs'eq; subst hs'eq
        simp [matchesProduct_ofInt, hp'] at hm
    rw [if_pos hm] at hs'eq
    subst hs'eq
    obtain ⟨s0, hs0, hm0, hq0⟩ := hprev
    have hid0 : s0.product_id = p0 := by
      simpa [matchesProduct_ofInt, eq_comm] using hm0
    have hbal := (hinv s0 hs0 hid0).1
    rw [hq0] at hbal
    simp only [ledgerBalance] at hbal
    refine ⟨?_, hpos rfl⟩
    cases t <;> simp at hnw ⊢ <;> omega
  · have hm : ¬ matchesProduct (JsValue.ofInt p0) s = true := by
      intro hm
      have hid : s.product_id = p0 := by simpa [matchesProduct_ofInt, eq_comm] using hm
      rw [if_pos hm] at hs'eq; subst hs'eq
      exact hpp (hid.symm.trans hp')
    rw [if_neg hm] at hs'eq
    subst hs'eq
    have := hinv s hs hp'
    simp only [ledgerBalance] at this
    simp [hpp, this.1, this.2]
    omega

theorem intColumn_inj {E : Engine} (hE : E.Faithful) {n m : Int}
    (h : E.intColumn (JsValue.ofInt n) = Except.ok m) : m = n := by
  rw [hE.1 n] at h
  exact (Except.ok.inj h).symm

/-- One request with integer product_id and quantity keeps the ledger
invariant on a strict engine, whatever the storage failures. -/
theorem serve_invariant {E : Engine} (hE : E.Strict) (f : Faults) {db : Db} {p : Int}
    (hinv : LedgerInvariant db p) {r : MovementRequest} (hr : r.IsIntegral) :
    LedgerInvariant (serve E f db r).db p := by
  obtain ⟨p0, q0, hp0, hq0⟩ := hr
  cases r with
  | stockIn body =>
    simp only [MovementRequest.body] at hp0 hq0
    rcases stockIn_cases E f db body with ⟨_, hdb⟩ | ⟨h200, hacc⟩
    · simp only [serve]; rw [hdb]; exact hinv
    · obtain ⟨prev, rest, pc, qi, rs, pv, nw, hsel, h1, h2, _, h4, h5, _, hdb⟩ := hacc
      have hg := stockIn_200_valid h200
      rw [hp0] at h1 hsel hdb
      rw [hq0] at h2 hg
      have hqe := (hE.1 _ _ h2).2.lt_exponent
      simp only [hq0, parseInt_ofInt hqe, add_ofInt_eq] at h5
      have e1 := intColumn_strict hE h1
      have e2 := intColumn_strict hE h2
      have e4 := intColumn_strict hE h4
      have e5 := ofSum_stored hE h5
      rw [e1, e2, e4] at hdb
      have hq : 0 < q0 := by
        simp [leZero_ofInt] at hg
        exact hg.2
      obtain ⟨s0, hs0, hm0, hq0'⟩ := mem_selectQuantity hsel
      have hid0 : s0.product_id = p0 := by simpa [matchesProduct_ofInt, eq_comm] using hm0
      simp only [serve]; rw [hdb]
      refine applyMovement_invariant hinv ⟨s0, hs0, hm0, hq0'⟩ (by simpa using e5) ?_
      intro hpp
      have := (hinv s0 hs0 (hid0.trans hpp)).2
      omega
  | stockOut body =>
    simp only [MovementRequest.body] at hp0 hq0
    rcases stockOut_cases E f db body with ⟨_, hdb⟩ | ⟨h200, hacc⟩
    · simp only [serve]; rw [hdb]; exact hinv
    · obtain ⟨prev, rest, pc, qi, rs, pv, nw, hsel, h1, h2, _, h4, h5, _, hdb⟩ := hacc
      have hlt := (stockOut_200_valid h200).2 prev rest hsel
      rw [hp0] at h1 hsel hdb
      rw [hq0] at h2
      have hqe := (hE.1 _ _ h2).2.lt_exponent
      simp only [hq0, parseInt_ofInt hqe, sub_ofInt_eq] at h5
      simp only [hq0, parseInt_ofInt hqe, ltZero_sub_ofInt, decide_eq_false_iff_not,
        not_lt] at hlt
      have e1 := intColumn_strict hE h1
      have e2 := intColumn_strict hE h2
      have e4 := intColumn_strict hE h4
      have e5 := ofSum_stored hE h5
      rw [e1, e2, e4] at hdb
      obtain ⟨s0, hs0, hm0, hq0'⟩ := mem_selectQuantity hsel
      simp only [serve]; rw [hdb]
      refine applyMovement_invariant hinv ⟨s0, hs0, hm0, hq0'⟩ (by simpa using e5) ?_
      intro _
      omega

/-- The ledger invariant survives every sequence of requests whose product_id
and quantity are integers, accepted or rejected, on a strict engine, one whose
integer columns keep an integer as it is or refuse it and hold no integer
beyond those JavaScript holds exactly: there a drift of the ledger needs a
quantity that is not an integer. -/
theorem ledger_invariant_integral (E : Engine) (hE : E.Strict) (p : Int)
    (reqs : List (Faults × MovementRequest)) :
    ∀ db : Db, LedgerInvariant db p → (∀ x ∈ reqs, x.2.IsIntegral) →
      LedgerInvariant (serveAll E db reqs) p := by
  induction reqs with
  | nil => intro db hinv _; exact hinv
  | cons x rest ih =>
    intro db hinv hall
    obtain ⟨f, r⟩ := x
    simp only [serveAll]
    exact ih _ (serve_invariant hE f hinv (hall (f, r) (List.mem_cons_self _ _)))
      (fun y hy => hall y (List.mem_cons_of_mem _ hy))

/-! ## Status boundaries -/

/-- C11 as stated fails: with no order between the thresholds, a quantity equal
to max_stock that is not above min_stock is classified LOW, not HIGH (here
quantity 5, min_stock 10, max_stock 5, and the row 5, 5, 5). -/
theorem max_boundary_not_high :
    statusOfList ⟨1, 5, 10, 5⟩ = StockStatus.LOW ∧
    statusOfList ⟨1, 5, 5, 5⟩ = StockStatus.LOW ∧
    ¬ (∀ s : StockRecord, s.quantity = s.max_stock → statusOfList s = StockStatus.HIGH) := by
  refine ⟨by decide, by decide, ?_⟩
  intro h
  exact absurd (h ⟨1, 5, 10, 5⟩ rfl) (by decide)

/-- C11, amended: in both listings a quantity equal to min_stock is classified
LOW; a quantity equal to max_stock is classified HIGH when it is above
min_stock (always so when min_stock < max_stock) and LOW when it is not; a
quantity strictly between min_stock and max_stock is classified NORMAL. -/
theorem status_boundaries (s : StockRecord) :
    (s.quantity = s.min_stock →
      statusOfList s = StockStatus.LOW ∧ statusOfProduct s = StockStatus.LOW) ∧
    (s.quantity = s.max_stock → s.min_stock < s.quantity →
      statusOfList s = StockStatus.HIGH ∧ statusOfProduct s = StockStatus.HIGH) ∧
    (s.quantity = s.max_stock → s.quantity ≤ s.min_stock →
      statusOfList s = StockStatus.LOW ∧ statusOfProduct s = StockStatus.LOW) ∧
    (s.min_stock < s.quantity → s.quantity < s.max_stock →
      statusOfList s = StockStatus.NORMAL ∧ statusOfProduct s = StockStatus.NORMAL) := by
  unfold statusOfList statusOfProduct
  refine ⟨?_, ?_, ?_, ?_⟩
  · intro h; simp [h]
  · intro h1 h2
    have h3 : ¬ s.quantity ≤ s.min_stock := by omega
    have h4 : s.quantity ≥ s.max_stock := by omega
    simp [h3, h4]
  · intro _ h2; simp [h2]
  · intro h1 h2
    have h3 : ¬ s.quantity ≤ s.min_stock := by omega
    have h4 : ¬ s.quantity ≥ s.max_stock := by omega
    simp [h3, h4]

/-- The row (quantity 100, min 5, max 100) is HIGH, the row (5, 5, 100) is LOW
and the row (50, 5, 100) is NORMAL. -/
theorem status_boundaries_witness :
    statusOfList ⟨1, 100, 5, 100⟩ = StockStatus.HIGH ∧
    statusOfList ⟨1, 5, 5, 100⟩ = StockStatus.LOW ∧
    statusOfList ⟨1, 50, 5, 100⟩ = StockStatus.NORMAL :=
  ⟨((status_boundaries ⟨1, 100, 5, 100⟩).2.1 rfl (by decide)).1,
   ((status_boundaries ⟨1, 5, 5, 100⟩).1 rfl).1,
   ((status_boundaries ⟨1, 50, 5, 100⟩).2.2.2 (by decide) (by decide)).1⟩

/-! ## The calls on the connection -/

/-- The calls of every run, by the way it ends: a request refused by the
validation gives `beginTransaction, release` only; every other run that is not
answered 200 ends with the calls `rollback, release`; a run answered 200 makes
the six calls of the committed path. -/
theorem serve_calls (E : Engine) (f : Faults) (db : Db) (r : MovementRequest) :
    (f.beginTransaction = none ∧
      (!r.body.product_id.truthy || !r.body.quantity.truthy
        || r.body.quantity.toNumber.leZero) = true ∧
      (serve E f db r).response.status = 400 ∧
      (serve E f db r).calls = [ConnCall.beginTransaction, ConnCall.release]) ∨
    ((serve E f db r).response.status ≠ 200 ∧
      (serve E f db r).calls.reverse.take 2 = [ConnCall.release, ConnCall.rollback]) ∨
    ((serve E f db r).response.status = 200 ∧
      (serve E f db r).calls = [ConnCall.beginTransaction, ConnCall.select, ConnCall.update,
        ConnCall.insert, ConnCall.commit, ConnCall.release]) := by
  cases r with
  | stockIn body =>
    simp only [serve, MovementRequest.body]
    cases hb : f.beginTransaction with
    | some msg => right; left; simp [stockIn, hb, storageError, errorResponse]
    | none =>
    by_cases hg : (!body.product_id.truthy || !body.quantity.truthy
        || body.quantity.toNumber.leZero) = true
    · left; simp only [stockIn, hb, hg, if_true]; simp [errorResponse]
    cases hs : f.select with
    | some msg => right; left; simp [stockIn, hb, hg, hs, attempt, storageError, errorResponse]
    | none =>
    cases hq : selectQuantity db body.product_id with
    | nil => right; left; simp [stockIn, hb, hg, hs, hq, attempt, errorResponse]
    | cons prev rest =>
    cases hu : f.update with
    | some msg =>
      right; left; simp [stockIn, hb, hg, hs, hq, hu, attempt, storageError, errorResponse]
    | none =>
    cases hup : updateQuantity E db ((JsNumber.ofInt prev).add (parseInt body.quantity))
        body.product_id with
    | error e =>
      right; left; simp [stockIn, hb, hg, hs, hq, hu, hup, attempt, storageError, errorResponse]
    | ok tx1 =>
    cases hi : f.insert with
    | some msg =>
      right; left
      simp [stockIn, hb, hg, hs, hq, hu, hup, hi, attempt, storageError, errorResponse]
    | none =>
    cases hin : insertMovement E tx1 body.product_id MovementType.IN body.quantity
        (body.reason.or (JsValue.string "Stock entry")) prev
        ((JsNumber.ofInt prev).add (parseInt body.quantity)) with
    | error e =>
      right; left
      simp [stockIn, hb, hg, hs, hq, hu, hup, hi, hin, attempt, storageError, errorResponse]
    | ok tx2 =>
    cases hc : f.commit with
    | some msg =>
      right; left
      simp [stockIn, hb, hg, hs, hq, hu, hup, hi, hin, hc, attempt, storageError, errorResponse]
    | none =>
      right; right
      simp [stockIn, hb, hg, hs, hq, hu, hup, hi, hin, hc, attempt]
  | stockOut body =>
    simp only [serve, MovementRequest.body]
    cases hb : f.beginTransaction with
    | some msg => right; left; simp [stockOut, hb, storageError, errorResponse]
    | none =>
    by_cases hg : (!body.product_id.truthy || !body.quantity.truthy
        || body.quantity.toNumber.leZero) = true
    · left; simp only [stockOut, hb, hg, if_true]; simp [errorResponse]
    cases hs : f.select with
    | some msg => right; left; simp [stockOut, hb, hg, hs, attempt, storageError, errorResponse]
    | none =>
    cases hq : selectQuantity db body.product_id with
    | nil => right; left; simp [stockOut, hb, hg, hs, hq, attempt, errorResponse]
    | cons prev rest =>
    by_cases hlt : ((JsNumber.ofInt prev).sub (parseInt body.quantity)).ltZero = true
    · right; left; simp [stockOut, hb, hg, hs, hq, hlt, attempt]
    cases hu : f.update with
    | some msg =>
      right; left; simp [stockOut, hb, hg, hs, hq, hlt, hu, attempt, storageError, errorResponse]
    | none =>
    cases hup : updateQuantity E db ((JsNumber.ofInt prev).sub (parseInt body.quantity))
        body.product_id with
    | error e =>
      right; left; simp [stockOut, hb, hg, hs, hq, hlt, hu, hup, attempt, storageError, errorResponse]
    | ok tx1 =>
    cases hi : f.insert with
    | some msg =>
      right; left
      simp [stockOut, hb, hg, hs, hq, hlt, hu, hup, hi, attempt, storageError, errorResponse]
    | none =>
    cases hin : insertMovement E tx1 body.product_id MovementType.OUT body.quantity
        (body.reason.or (JsValue.string "Stock exit")) prev
        ((JsNumber.ofInt prev).sub (parseInt body.quantity)) with
    | error e =>
      right; left
      simp [stockOut, hb, hg, hs, hq, hlt, hu, hup, hi, hin, attempt, storageError, errorResponse]
    | ok tx2 =>
    cases hc : f.commit with
    | some msg =>
      right; left
      simp [stockOut, hb, hg, hs, hq, hlt, hu, hup, hi, hin, hc, attempt, storageError, errorResponse]
    | none =>
      right; right
      simp [stockOut, hb, hg, hs, hq, hlt, hu, hup, hi, hin, hc, attempt]

/-- C12 fails on the code: a request refused by the validation has begun a
transaction and commits nothing, yet the handler returns without calling
`rollback`; the connection goes back to the pool after `beginTransaction`
alone.  This holds for both handlers, every engine and every store. -/
theorem validation_return_skips_rollback :
    (∀ (E : Engine) (f : Faults) (db : Db) (r : MovementRequest),
      f.beginTransaction = none →
      (!r.body.product_id.truthy || !r.body.quantity.truthy
        || r.body.quantity.toNumber.leZero) = true →
      (serve E f db r).calls = [ConnCall.beginTransaction, ConnCall.release] ∧
      ConnCall.rollback ∉ (serve E f db r).calls ∧
      ConnCall.commit ∉ (serve E f db r).calls) ∧
    (stockIn referenceEngine Faults.none (sampleDb 10)
      ⟨JsValue.ofInt 1, JsValue.ofInt 0, JsValue.undefined⟩).response.status = 400 ∧
    (stockIn referenceEngine Faults.none (sampleDb 10)
      ⟨JsValue.ofInt 1, JsValue.ofInt 0, JsValue.undefined⟩).calls
      = [ConnCall.beginTransaction, ConnCall.release] ∧
    (stockOut referenceEngine Faults.none (sampleDb 10)
      ⟨JsValue.ofInt 1, JsValue.undefined, JsValue.undefined⟩).calls
      = [ConnCall.beginTransaction, ConnCall.release] := by
  refine ⟨?_, by decide, by decide, by decide⟩
  intro E f db r hb hg
  have hcalls : (serve E f db r).calls = [ConnCall.beginTransaction, ConnCall.release] := by
    cases r with
    | stockIn body =>
      simp only [MovementRequest.body] at hg
      simp only [serve, stockIn, hb, hg, if_true]
    | stockOut body =>
      simp only [MovementRequest.body] at hg
      simp only [serve, stockOut, hb, hg, if_true]
  rw [hcalls]
  exact ⟨rfl, by decide, by decide⟩

/-! ## Release of the connection -/

/-- The `try` block of a handler never releases the connection. -/
theorem try_no_release (E : Engine) (f : Faults) (rb : Option String) (db : Db)
    (body : MovementBody) :
    ConnCall.release ∉ (stockInTry E f rb db body).calls ∧
    ConnCall.release ∉ (stockOutTry E f rb db body).calls := by
  constructor
  · show ConnCall.release ∉ (stockInTry E f rb db body).calls
    cases hb : f.beginTransaction with
    | some msg => simp [stockInTry, hb, attempt, storageError, errorResponse]
    | none =>
    by_cases hg : (!body.product_id.truthy || !body.quantity.truthy
        || body.quantity.toNumber.leZero) = true
    · simp [stockInTry, hb, hg, attempt, storageError, errorResponse]
    cases hs : f.select with
    | some msg => simp [stockInTry, hb, hg, hs, attempt, storageError, errorResponse]
    | none =>
    cases hq : selectQuantity db body.product_id with
    | nil => cases rb <;> simp [stockInTry, hb, hg, hs, hq, attempt, storageError, errorResponse]
    | cons prev rest =>
    cases hu : f.update with
    | some msg => simp [stockInTry, hb, hg, hs, hq, hu, attempt, storageError, errorResponse]
    | none =>
    cases hup : updateQuantity E db ((JsNumber.ofInt prev).add (parseInt body.quantity))
        body.product_id with
    | error e => simp [stockInTry, hb, hg, hs, hq, hu, hup, attempt, storageError, errorResponse]
    | ok tx1 =>
    cases hi : f.insert with
    | some msg => simp [stockInTry, hb, hg, hs, hq, hu, hup, hi, attempt, storageError, errorResponse]
    | none =>
    cases hin : insertMovement E tx1 body.product_id MovementType.IN body.quantity
        (body.reason.or (JsValue.string "Stock entry")) prev
        ((JsNumber.ofInt prev).add (parseInt body.quantity)) with
    | error e => simp [stockInTry, hb, hg, hs, hq, hu, hup, hi, hin, attempt, storageError, errorResponse]
    | ok tx2 =>
    cases hc : f.commit with
    | some msg => simp [stockInTry, hb, hg, hs, hq, hu, hup, hi, hin, hc, attempt, storageError, errorResponse]
    | none => simp [stockInTry, hb, hg, hs, hq, hu, hup, hi, hin, hc, attempt, storageError, errorResponse]
  · show ConnCall.release ∉ (stockOutTry E f rb db body).calls
    cases hb : f.beginTransaction with
    | some msg => simp [stockOutTry, hb, attempt, storageError, errorResponse]
    | none =>
    by_cases hg : (!body.product_id.truthy || !body.quantity.truthy
        || body.quantity.toNumber.leZero) = true
    · simp [stockOutTry, hb, hg, attempt, storageError, errorResponse]
    cases hs : f.select with
    | some msg => simp [stockOutTry, hb, hg, hs, attempt, storageError, errorResponse]
    | none =>
    cases hq : selectQuantity db body.product_id with
    | nil => cases rb <;> simp [stockOutTry, hb, hg, hs, hq, attempt, storageError, errorResponse]
    | cons prev rest =>
    by_cases hlt : ((JsNumber.ofInt prev).sub (parseInt body.quantity)).ltZero = true
    · cases rb <;> simp [stockOutTry, hb, hg, hs, hq, hlt, attempt, storageError, errorResponse]
    cases hu : f.update with
    | some msg => simp [stockOutTry, hb, hg, hs, hq, hlt, hu, attempt, storageError, errorResponse]
    | none =>
    cases hup : updateQuantity E db ((JsNumber.ofInt prev).sub (parseInt body.quantity))
        body.product_id with
    | error e => simp [stockOutTry, hb, hg, hs, hq, hlt, hu, hup, attempt, storageError, errorResponse]
    | ok tx1 =>
    cases hi : f.insert with
    | some msg => simp [stockOutTry, hb, hg, hs, hq, hlt, hu, hup, hi, attempt, storageError, errorResponse]
    | none =>
    cases hin : insertMovement E tx1 body.product_id MovementType.OUT body.quantity
        (body.reason.or (JsValue.string "Stock exit")) prev
        ((JsNumber.ofInt prev).sub (parseInt body.quantity)) with
    | error e => simp [stockOutTry, hb, hg, hs, hq, hlt, hu, hup, hi, hin, attempt, storageError, errorResponse]
    | ok tx2 =>
    cases hc : f.commit with
    | some msg => simp [stockOutTry, hb, hg, hs, hq, hlt, hu, hup, hi, hin, hc, attempt, storageError, errorResponse]
    | none => simp [stockOutTry, hb, hg, hs, hq, hlt, hu, hup, hi, hin, hc, attempt, storageError, errorResponse]

/-- With a `rollback` that does not fail, the handler with its `try`, `catch`
and `finally` blocks apart is the handler `serve`. -/
theorem handleMovement_none (E : Engine) (f : Faults) (db : Db) (r : MovementRequest) :
    handleMovement E f none db r
      = ⟨(serve E f db r).db, some (serve E f db r).response, (serve E f db r).calls⟩ := by
  cases r with
  | stockIn body =>
    simp only [handleMovement, serve]
    cases hb : f.beginTransaction with
    | some msg => simp [stockInTry, stockIn, finishRun, hb, attempt, storageError, errorResponse]
    | none =>
    by_cases hg : (!body.product_id.truthy || !body.quantity.truthy
        || body.quantity.toNumber.leZero) = true
    · simp [stockInTry, stockIn, finishRun, hb, hg, attempt, storageError, errorResponse]
    cases hs : f.select with
    | some msg => simp [stockInTry, stockIn, finishRun, hb, hg, hs, attempt, storageError, errorResponse]
    | none =>
    cases hq : selectQuantity db body.product_id with
    | nil => simp [stockInTry, stockIn, finishRun, hb, hg, hs, hq, attempt, storageError, errorResponse]
    | cons prev rest =>
    cases hu : f.update with
    | some msg => simp [stockInTry, stockIn, finishRun, hb, hg, hs, hq, hu, attempt, storageError, errorResponse]
    | none =>
    cases hup : updateQuantity E db ((JsNumber.ofInt prev).add (parseInt body.quantity))
        body.product_id with
    | error e => simp [stockInTry, stockIn, finishRun, hb, hg, hs, hq, hu, hup, attempt, storageError, errorResponse]
    | ok tx1 =>
    cases hi : f.insert with
    | some msg => simp [stockInTry, stockIn, finishRun, hb, hg, hs, hq, hu, hup, hi, attempt, storageError, errorResponse]
    | none =>
    cases hin : insertMovement E tx1 body.product_id MovementType.IN body.quantity
        (body.reason.or (JsValue.string "Stock entry")) prev
        ((JsNumber.ofInt prev).add (parseInt body.quantity)) with
    | error e => simp [stockInTry, stockIn, finishRun, hb, hg, hs, hq, hu, hup, hi, hin, attempt, storageError, errorResponse]
    | ok tx2 =>
    cases hc : f.commit with
    | some msg => simp [stockInTry, stockIn, finishRun, hb, hg, hs, hq, hu, hup, hi, hin, hc, attempt, storageError, errorResponse]
    | none => simp [stockInTry, stockIn, finishRun, hb, hg, hs, hq, hu, hup, hi, hin, hc, attempt, storageError, errorResponse]
  | stockOut body =>
    simp only [handleMovement, serve]
    cases hb : f.beginTransaction with
    | some msg => simp [stockOutTry, stockOut, finishRun, hb, attempt, storageError, errorResponse]
    | none =>
    by_cases hg : (!body.product_id.truthy || !body.quantity.truthy
        || body.quantity.toNumber.leZero) = true
    · simp [stockOutTry, stockOut, finishRun, hb, hg, attempt, storageError, errorResponse]
    cases hs : f.select with
    | some msg => simp [stockOutTry, stockOut, finishRun, hb, hg, hs, attempt, storageError, errorResponse]
    | none =>
    cases hq : selectQuantity db body.product_id with
    | nil => simp [stockOutTry, stockOut, finishRun, hb, hg, hs, hq, attempt, storageError, errorResponse]
    | cons prev rest =>
    by_cases hlt : ((JsNumber.ofInt prev).sub (parseInt body.quantity)).ltZero = true
    · simp [stockOutTry, stockOut, finishRun, hb, hg, hs, hq, hlt, attempt, storageError, errorResponse]
    cases hu : f.update with
    | some msg => simp [stockOutTry, stockOut, finishRun, hb, hg, hs, hq, hlt, hu, attempt, storageError, errorResponse]
    | none =>
    cases hup : updateQuantity E db ((JsNumber.ofInt prev).sub (parseInt body.quantity))
        body.product_id with
    | error e => simp [stockOutTry, stockOut, finishRun, hb, hg, hs, hq, hlt, hu, hup, attempt, storageError, errorResponse]
    | ok tx1 =>
    cases hi : f.insert with
    | some msg => simp [stockOutTry, stockOut, finishRun, hb, hg, hs, hq, hlt, hu, hup, hi, attempt, storageError, errorResponse]
    | none =>
    cases hin : insertMovement E tx1 body.product_id MovementType.OUT body.quantity
        (body.reason.or (JsValue.string "Stock exit")) prev
        ((JsNumber.ofInt prev).sub (parseInt body.quantity)) with
    | error e => simp [stockOutTry, stockOut, finishRun, hb, hg, hs, hq, hlt, hu, hup, hi, hin, attempt, storageError, errorResponse]
    | ok tx2 =>
    cases hc : f.commit with
    | some msg => simp [stockOutTry, stockOut, finishRun, hb, hg, hs, hq, hlt, hu, hup, hi, hin, hc, attempt, storageError, errorResponse]
    | none => simp [stockOutTry, stockOut, finishRun, hb, hg, hs, hq, hlt, hu, hup, hi, hin, hc, attempt, storageError, errorResponse]

/-- C13: once the connection is acquired, every run of the stock-in and
stock-out handlers calls `release` exactly once, as its last call: on success,
on a validation failure, for an unknown product, on insufficient stock, and
when `beginTransaction`, a statement, `commit` or `rollback` throws. -/
theorem connection_released_once (E : Engine) (f : Faults) (rollback : Option String)
    (db : Db) (r : MovementRequest) :
    (handleMovement E f rollback db r).calls.count ConnCall.release = 1 ∧
    (handleMovement E f rollback db r).calls.getLast? = some ConnCall.release := by
  have key : ∀ t : TryRun, ConnCall.release ∉ t.calls →
      (finishRun rollback db t).calls.count ConnCall.release = 1 ∧
      (finishRun rollback db t).calls.getLast? = some ConnCall.release := by
    intro t ht
    have h0 : t.calls.count ConnCall.release = 0 := List.count_eq_zero.mpr ht
    unfold finishRun
    cases t.ending with
    | returned db' response => simp [List.count_append, h0]
    | threw msg => cases rollback <;> simp [List.count_append, h0, List.count_cons]
  cases r with
  | stockIn body => exact key _ (try_no_release E f rollback db body).1
  | stockOut body => exact key _ (try_no_release E f rollback db body).2

/-! ## The movement history -/

theorem mem_joinMovements {createdAt : Nat → Nat} {db : Db} {keep : MovementRecord → Bool}
    {row : MovementRow} :
    row ∈ joinMovements createdAt db keep ↔
      ∃ im ∈ db.stock_movements.enum, keep im.2 = true ∧ ∃ p ∈ db.products,
        im.2.product_id = p.id ∧ row = ⟨im.1, im.2, createdAt im.1, p.name, p.sku⟩ := by
  simp only [joinMovements, List.mem_flatMap, List.mem_filter, List.mem_map,
    decide_eq_true_eq]
  constructor
  · rintro ⟨im, ⟨hm, hk⟩, p, ⟨hp, hid⟩, hx⟩
    exact ⟨im, hm, hk, p, hp, hid, hx.symm⟩
  · rintro ⟨im, hm, hk, p, hp, hid, hx⟩
    exact ⟨im, ⟨hm, hk⟩, p, ⟨hp, hid⟩, hx.symm⟩

theorem historyFilter_product {s : String} {m : MovementRecord} {p : Int}
    (hs : s.isEmpty = false) (hp : stringToNumber s = JsNumber.ofInt p)
    (h : historyFilter (some s) m = true) : m.product_id = p := by
  simp only [historyFilter, JsValue.truthy, hs, Bool.not_false, if_true, JsValue.toNumber, hp,
    JsNumber.ofInt, JsNumber.eqInt, pow_zero, Nat.cast_one, mul_one,
    decide_eq_true_eq] at h
  exact h.symm

/-- C14: the movement history (the query succeeding, on a ledger whose records
refer to rows of `products`) returns records of the ledger only, and with a
product id in the route only records of that product; they come newest first,
at most 100 of them, and every record within the scope of the query that is
not returned is no newer than each returned one; `count` is the number of rows
returned.  The handler is a function of the store and writes nothing. -/
theorem movement_history (createdAt : Nat → Nat) (db : Db) (productId : Option String)
    (rows : List MovementRow) (hri : LedgerRefersToProducts db)
    (h : (getMovements none createdAt db productId).data = some rows) :
    (getMovements none createdAt db productId).status = 200 ∧
    (getMovements none createdAt db productId).count = some rows.length ∧
    rows.length ≤ 100 ∧
    rows.Pairwise (fun a b => b.created_at ≤ a.created_at) ∧
    (∀ row ∈ rows, (row.id, row.movement) ∈ db.stock_movements.enum ∧
      row.created_at = createdAt row.id ∧ historyFilter productId row.movement = true) ∧
    (∀ (s : String) (p : Int), productId = some s → s.isEmpty = false →
      stringToNumber s = JsNumber.ofInt p → ∀ row ∈ rows, row.movement.product_id = p) ∧
    (∀ (i : Nat) (m : MovementRecord), (i, m) ∈ db.stock_movements.enum →
      historyFilter productId m = true → (∀ row ∈ rows, row.id ≠ i) →
      ∀ row ∈ rows, createdAt i ≤ row.created_at) := by
  simp only [getMovements, Option.some.injEq] at h
  have hsorted : List.Sorted newestFirst
      ((joinMovements createdAt db (historyFilter productId)).insertionSort newestFirst) :=
    List.sorted_insertionSort newestFirst _
  have hmem : ∀ row ∈ rows, row ∈ joinMovements createdAt db (historyFilter productId) := by
    intro row hrow
    rw [← h] at hrow
    exact (List.mem_insertionSort newestFirst).mp (List.mem_of_mem_take hrow)
  have hfields : ∀ row ∈ rows, (row.id, row.movement) ∈ db.stock_movements.enum ∧
      row.created_at = createdAt row.id ∧ historyFilter productId row.movement = true := by
    intro row hrow
    obtain ⟨im, him, hk, p, _, _, hx⟩ := mem_joinMovements.mp (hmem row hrow)
    subst hx
    exact ⟨him, rfl, hk⟩
  refine ⟨rfl, ?_, ?_, ?_, hfields, ?_, ?_⟩
  · simp only [getMovements]; rw [h]
  · rw [← h]; exact (List.length_take_le _ _)
  · rw [← h]
    exact List.Pairwise.sublist (List.take_sublist _ _) hsorted
  · intro s p hs hne hp row hrow
    have := (hfields row hrow).2.2
    rw [hs] at this
    exact historyFilter_product hne hp this
  · intro i m him hk hnot row hrow
    obtain ⟨p, hp, hid⟩ := hri m (List.snd_mem_of_mem_enum him)
    have hjoin : (⟨i, m, createdAt i, p.name, p.sku⟩ : MovementRow)
        ∈ joinMovements createdAt db (historyFilter productId) :=
      mem_joinMovements.mpr ⟨(i, m), him, hk, p, hp, hid, rfl⟩
    have hins := (List.mem_insertionSort newestFirst).mpr hjoin
    rw [← List.take_append_drop 100
      ((joinMovements createdAt db (historyFilter productId)).insertionSort newestFirst)]
      at hins hsorted
    rw [h] at hins hsorted
    rcases List.mem_append.mp hins with hin | hin
    · exact absurd rfl (hnot _ hin)
    · exact (List.pairwise_append.mp hsorted).2.2 row hrow _ hin

/-- The history of product 1 in the sample ledger, with the position in the
ledger as creation time: the third record, then the first. -/
theorem movement_history_witness :
    (getMovements none (fun i => i) historyDb (some "1")).data
      = some [⟨2, ⟨1, MovementType.OUT, 3, "sold", 15, 12⟩, 2, "Laptop", "LAP-001"⟩,
              ⟨0, ⟨1, MovementType.IN, 15, "Stock entry", 0, 15⟩, 0, "Laptop", "LAP-001"⟩] ∧
    (getMovements none (fun i => i) historyDb (some "1")).count = some 2 ∧
    (∀ row ∈ [(⟨2, ⟨1, MovementType.OUT, 3, "sold", 15, 12⟩, 2, "Laptop", "LAP-001"⟩ :
        MovementRow),
      ⟨0, ⟨1, MovementType.IN, 15, "Stock entry", 0, 15⟩, 0, "Laptop", "LAP-001"⟩],
      row.movement.product_id = 1) :=
  have hri : LedgerRefersToProducts historyDb := by
    intro m hm
    simp only [historyDb, List.mem_cons, List.mem_singleton, List.not_mem_nil, or_false] at hm
    rcases hm with rfl | rfl | rfl
    · exact ⟨⟨1, "Laptop", "LAP-001", JsValue.string "999.99", none, none⟩, by simp [historyDb], rfl⟩
    · exact ⟨⟨2, "Mouse", "MOU-001", JsValue.string "19.90", none, none⟩, by simp [historyDb], rfl⟩
    · exact ⟨⟨1, "Laptop", "LAP-001", JsValue.string "999.99", none, none⟩, by simp [historyDb], rfl⟩
  have hdata : (getMovements none (fun i => i) historyDb (some "1")).data
      = some [⟨2, ⟨1, MovementType.OUT, 3, "sold", 15, 12⟩, 2, "Laptop", "LAP-001"⟩,
              ⟨0, ⟨1, MovementType.IN, 15, "Stock entry", 0, 15⟩, 0, "Laptop", "LAP-001"⟩] := by
    decide
  have key := movement_history (fun i => i) historyDb (some "1") _ hri hdata
  ⟨hdata, key.2.1, key.2.2.2.2.2.1 "1" 1 rfl (by decide) (by decide)⟩

/-! ## Creation of a product -/

theorem insertProduct_ok {C : CatalogEngine} {insertId : Int} {db db1 : Db}
    {name description sku category : JsValue} {price : JsNumber}
    (h : insertProduct C insertId db name description sku price category = Except.ok db1) :
    ∃ row : Product, row.id = insertId ∧ C.textColumn name = Except.ok row.name ∧
      C.textColumn sku = Except.ok row.sku ∧ C.priceColumn price = Except.ok row.price ∧
      db1 = { db with products := db.products ++ [row] } := by
  unfold insertProduct at h
  split at h
  · rename_i n d s p c h1 h2 h3 h4 h5
    split at h
    · simp at h
    · simp only [Except.ok.injEq] at h
      exact ⟨⟨insertId, n, s, p, d, c⟩, rfl, h1, h3, h4, h.symm⟩
  all_goals simp at h

theorem insertStock_ok {db db2 : Db} {product_id : Int}
    (h : insertStock db product_id = Except.ok db2) :
    (∀ s ∈ db.stock, s.product_id ≠ product_id) ∧
    db2 = { db with stock := db.stock ++ [⟨product_id, 0, 5, 100⟩] } := by
  unfold insertStock at h
  split at h
  · simp at h
  · rename_i hany
    simp only [Except.ok.injEq] at h
    refine ⟨?_, h.symm⟩
    intro s hs heq
    apply hany
    simp only [List.any_eq_true, decide_eq_true_eq]
    exact ⟨s, hs, heq⟩

/-- A creation answered 201 has inserted the product row with the id the store
assigned, and exactly one stock row for that id, at quantity 0 with the
thresholds 5 and 100. -/
theorem created_product_has_stock (C : CatalogEngine) (f : CreateFaults) (insertId : Int)
    (db : Db) (body : ProductBody)
    (h : (createProduct C f insertId db body).2.status = 201) :
    ∃ row : Product, row.id = insertId ∧
      (createProduct C f insertId db body).1.products = db.products ++ [row] ∧
      (createProduct C f insertId db body).1.stock = db.stock ++ [⟨insertId, 0, 5, 100⟩] ∧
      (createProduct C f insertId db body).1.stock.filter
        (fun s => decide (s.product_id = insertId)) = [⟨insertId, 0, 5, 100⟩] := by
  by_cases hg : (!body.name.truthy || !body.sku.truthy || !body.price.truthy) = true
  · simp [createProduct, hg, errorResponse] at h
  cases h1 : execute f.insertProduct (insertProduct C insertId db body.name body.description
      body.sku (parseFloat body.price) body.category) with
  | error e =>
    by_cases hc : e.code = some "ER_DUP_ENTRY" <;>
      simp [createProduct, hg, h1, createFailed, hc, errorResponse] at h
  | ok db1 =>
    cases h2 : execute f.insertStock (insertStock db1 insertId) with
    | error e =>
      by_cases hc : e.code = some "ER_DUP_ENTRY" <;>
        simp [createProduct, hg, h1, h2, createFailed, hc, errorResponse] at h
    | ok db2 =>
      have hres : (createProduct C f insertId db body).1 = db2 := by
        simp [createProduct, hg, h1, h2]
      have e1 : insertProduct C insertId db body.name body.description body.sku
          (parseFloat body.price) body.category = Except.ok db1 := by
        cases hf : f.insertProduct <;> simp [execute, hf] at h1
        exact h1
      have e2 : insertStock db1 insertId = Except.ok db2 := by
        cases hf : f.insertStock <;> simp [execute, hf] at h2
        exact h2
      obtain ⟨row, hid, _, _, _, hdb1⟩ := insertProduct_ok e1
      obtain ⟨hfresh, hdb2⟩ := insertStock_ok e2
      have hnone : db.stock.filter (fun s => decide (s.product_id = insertId)) = [] := by
        rw [List.filter_eq_nil_iff]
        intro s hs
        have := hfresh s (by rw [hdb1]; exact hs)
        simpa using this
      rw [hres, hdb2, hdb1]
      refine ⟨row, hid, rfl, rfl, ?_⟩
      simp [List.filter_append, hnone]

/-- C16 fails on the code: the two inserts of a creation are two calls of
`pool.execute`, each committed on its own.  When the insert into `stock` throws
after the insert into `products` went through, the product row stays and has no
stock row; the request is answered 500 (409 for a duplicate key). -/
theorem product_left_without_stock :
    (∀ (C : CatalogEngine) (f : CreateFaults) (insertId : Int) (db db1 : Db)
        (body : ProductBody) (e : StorageError),
      (!body.name.truthy || !body.sku.truthy || !body.price.truthy) = false →
      execute f.insertProduct (insertProduct C insertId db body.name body.description
        body.sku (parseFloat body.price) body.category) = Except.ok db1 →
      execute f.insertStock (insertStock db1 insertId) = Except.error e →
      (createProduct C f insertId db body).1 = db1 ∧
      (createProduct C f insertId db body).2 = createFailed e) ∧
    (createProduct referenceCatalog
        ⟨none, some ⟨some "ER_LOCK_WAIT_TIMEOUT", "Lock wait timeout exceeded"⟩⟩ 1 emptyDb
        (penBody (JsValue.number (JsNumber.fin 25 1)))).1
      = { products := [⟨1, "Pen", "PEN-001", JsValue.number (JsNumber.fin 25 1),
            some "Blue pen", some "Office"⟩],
          stock := [], stock_movements := [] } ∧
    (createProduct referenceCatalog
        ⟨none, some ⟨some "ER_LOCK_WAIT_TIMEOUT", "Lock wait timeout exceeded"⟩⟩ 1 emptyDb
        (penBody (JsValue.number (JsNumber.fin 25 1)))).2
      = errorResponse 500 "Lock wait timeout exceeded" := by
  refine ⟨?_, by decide, by decide⟩
  intro C f insertId db db1 body e hg h1 h2
  simp [createProduct, hg, h1, h2]

/-! ## Validation of a creation -/

/-- The creation handler answers 400 exactly when the name, the SKU or the
price is falsy, and then the store is left as it was. -/
theorem createProduct_400_iff (C : CatalogEngine) (f : CreateFaults) (insertId : Int) (db : Db)
    (body : ProductBody) :
    ((createProduct C f insertId db body).2.status = 400 ↔
      (!body.name.truthy || !body.sku.truthy || !body.price.truthy) = true) ∧
    ((createProduct C f insertId db body).2.status = 400 →
      (createProduct C f insertId db body).1 = db) := by
  by_cases hg : (!body.name.truthy || !body.sku.truthy || !body.price.truthy) = true
  · simp [createProduct, hg, errorResponse]
  · have hne : (createProduct C f insertId db body).2.status ≠ 400 := by
      cases h1 : execute f.insertProduct (insertProduct C insertId db body.name
          body.description body.sku (parseFloat body.price) body.category) with
      | error e =>
        by_cases hc : e.code = some "ER_DUP_ENTRY" <;>
          simp [createProduct, hg, h1, createFailed, hc, errorResponse]
      | ok db1 =>
        cases h2 : execute f.insertStock (insertStock db1 insertId) with
        | error e =>
          by_cases hc : e.code = some "ER_DUP_ENTRY" <;>
            simp [createProduct, hg, h1, h2, createFailed, hc, errorResponse]
        | ok db2 => simp [createProduct, hg, h1, h2]
    exact ⟨⟨fun h => absurd h hne, fun h => absurd h hg⟩, fun h => absurd h hne⟩

/-- C17 fails on the code in two ways.  The price 0 is carried by the request
and is refused as missing, `!price` being true of the number 0: the answer is
400 on every engine.  And the price -5 passes the validation, which looks at no
sign: it is answered 400 on no engine, and on the reference engine it is
answered 201 with the price -5 stored. -/
theorem price_validation_defects :
    (∀ (C : CatalogEngine) (f : CreateFaults) (insertId : Int) (db : Db),
      (createProduct C f insertId db (penBody (JsValue.ofInt 0))).2
        = errorResponse 400 "Name, SKU, and price are required" ∧
      (createProduct C f insertId db (penBody (JsValue.ofInt 0))).1 = db) ∧
    (∀ (C : CatalogEngine) (f : CreateFaults) (insertId : Int) (db : Db),
      (createProduct C f insertId db (penBody (JsValue.ofInt (-5)))).2.status ≠ 400) ∧
    (createProduct referenceCatalog ⟨none, none⟩ 1 emptyDb
        (penBody (JsValue.ofInt (-5)))).2.status = 201 ∧
    (createProduct referenceCatalog ⟨none, none⟩ 1 emptyDb
        (penBody (JsValue.ofInt (-5)))).1.products
      = [⟨1, "Pen", "PEN-001", JsValue.number (JsNumber.fin (-5) 0), some "Blue pen",
          some "Office"⟩] := by
  refine ⟨?_, ?_, by decide, by decide⟩
  · intro C f insertId db
    have hg : (!(penBody (JsValue.ofInt 0)).name.truthy || !(penBody (JsValue.ofInt 0)).sku.truthy
        || !(penBody (JsValue.ofInt 0)).price.truthy) = true := by decide
    simp [createProduct, hg]
  · intro C f insertId db h
    have hg : ¬ (!(penBody (JsValue.ofInt (-5))).name.truthy
        || !(penBody (JsValue.ofInt (-5))).sku.truthy
        || !(penBody (JsValue.ofInt (-5))).price.truthy) = true := by decide
    exact hg (((createProduct_400_iff C f insertId db _).1).mp h)

/-! ## Duplicate keys -/

/-- C18: in `POST /api/products` an error thrown by either insert is answered
409 'SKU already exists' when its code is `ER_DUP_ENTRY` and 500 with its
message otherwise; in `POST /api/suppliers/:supplierId/products` the error of
the insert is answered 409 'Product already associated with this supplier' when
its code is `ER_DUP_ENTRY` and 500 otherwise; `success` is false in each. -/
theorem duplicate_key_conflict :
    (∀ (C : CatalogEngine) (f : CreateFaults) (insertId : Int) (db : Db) (body : ProductBody)
        (e : StorageError),
      (!body.name.truthy || !body.sku.truthy || !body.price.truthy) = false →
      (execute f.insertProduct (insertProduct C insertId db body.name body.description
          body.sku (parseFloat body.price) body.category) = Except.error e ∨
        ∃ db1, execute f.insertProduct (insertProduct C insertId db body.name body.description
            body.sku (parseFloat body.price) body.category) = Except.ok db1 ∧
          execute f.insertStock (insertStock db1 insertId) = Except.error e) →
      (e.code = some "ER_DUP_ENTRY" →
        (createProduct C f insertId db body).2.status = 409 ∧
        (createProduct C f insertId db body).2.success = false ∧
        (createProduct C f insertId db body).2.error = some "SKU already exists") ∧
      (e.code ≠ some "ER_DUP_ENTRY" →
        (createProduct C f insertId db body).2.status = 500 ∧
        (createProduct C f insertId db body).2.success = false ∧
        (createProduct C f insertId db body).2.error = some e.message)) ∧
    (∀ (supplierId : String) (body : AssociationBody) (e : StorageError),
      body.product_id.truthy = true →
      (e.code = some "ER_DUP_ENTRY" →
        (associateProduct supplierId body (Except.error e)).status = 409 ∧
        (associateProduct supplierId body (Except.error e)).success = false ∧
        (associateProduct supplierId body (Except.error e)).error
          = some "Product already associated with this supplier") ∧
      (e.code ≠ some "ER_DUP_ENTRY" →
        (associateProduct supplierId body (Except.error e)).status = 500 ∧
        (associateProduct supplierId body (Except.error e)).success = false ∧
        (associateProduct supplierId body (Except.error e)).error = some e.message)) := by
  constructor
  · intro C f insertId db body e hg hthrown
    have hresp : (createProduct C f insertId db body).2 = createFailed e := by
      rcases hthrown with h1 | ⟨db1, h1, h2⟩
      · simp [createProduct, hg, h1]
      · simp [createProduct, hg, h1, h2]
    rw [hresp]
    constructor
    · intro hc; simp [createFailed, hc, errorResponse]
    · intro hc; simp [createFailed, hc, errorResponse]
  · intro supplierId body e hp
    constructor
    · intro hc; simp [associateProduct, hp, hc, errorResponse]
    · intro hc; simp [associateProduct, hp, hc, errorResponse]

/-- A second product with the SKU of the first is answered 409, and a lost
connection is answered 500. -/
theorem duplicate_key_conflict_witness :
    (createProduct referenceCatalog ⟨none, none⟩ 2
        (createProduct referenceCatalog ⟨none, none⟩ 1 emptyDb
          (penBody (JsValue.ofInt 3))).1 (penBody (JsValue.ofInt 4))).2
      = errorResponse 409 "SKU already exists" ∧
    (associateProduct "7" ⟨JsValue.ofInt 1, JsValue.ofInt 2, JsValue.undefined⟩
        (Except.error ⟨some "ECONNRESET", "Connection lost"⟩)).status = 500 ∧
    (associateProduct "7" ⟨JsValue.ofInt 1, JsValue.ofInt 2, JsValue.undefined⟩
        (Except.error duplicateEntry)).status = 409 :=
  ⟨by decide,
   ((duplicate_key_conflict.2 "7" ⟨JsValue.ofInt 1, JsValue.ofInt 2, JsValue.undefined⟩
      ⟨some "ECONNRESET", "Connection lost"⟩ (by decide)).2 (by decide)).1,
   ((duplicate_key_conflict.2 "7" ⟨JsValue.ofInt 1, JsValue.ofInt 2, JsValue.undefined⟩
      duplicateEntry (by decide)).1 rfl).1⟩

/-! ## The ledger only grows -/

/-- C15: whatever the operation of the stock service, the engine, the storage
failures and the store before, the ledger afterwards is the ledger before with
records added at its end: one record when the operation is a stock-in or a
stock-out answered 200, none in every other case. -/
theorem ledger_append_only (E : Engine) (f : Faults) (fault : Option String)
    (createdAt : Nat → Nat) (db : Db) (op : StockOperation) :
    ∃ added : List MovementRecord,
      (op.run E f fault createdAt db).1.stock_movements = db.stock_movements ++ added ∧
      (((∃ request, op = StockOperation.movement request) ∧
          (op.run E f fault createdAt db).2 = 200) → added.length = 1) ∧
      (¬ ((∃ request, op = StockOperation.movement request) ∧
          (op.run E f fault createdAt db).2 = 200) → added = []) := by
  cases op with
  | movement request =>
    rcases serve_cases E f db request with ⟨hne, hdb⟩ | ⟨h200, newQty, hacc⟩
    · refine ⟨[], ?_, ?_, fun _ => rfl⟩
      · simp [StockOperation.run, hdb]
      · rintro ⟨_, h⟩
        exact absurd h hne
    · obtain ⟨prev, rest, p, qi, rs, pv, nw, _, _, _, _, _, _, _, hdb⟩ := hacc
      refine ⟨[⟨p, request.direction, qi, rs, pv, nw⟩], ?_, fun _ => rfl, ?_⟩
      · simp [StockOperation.run, hdb, applyMovement]
      · intro hnot
        exact absurd ⟨⟨request, rfl⟩, h200⟩ hnot
  | listStock =>
    exact ⟨[], by simp [StockOperation.run], (by rintro ⟨⟨r, hr⟩, _⟩; cases hr), fun _ => rfl⟩
  | stockOfProduct productId =>
    exact ⟨[], by simp [StockOperation.run], (by rintro ⟨⟨r, hr⟩, _⟩; cases hr), fun _ => rfl⟩
  | history productId =>
    exact ⟨[], by simp [StockOperation.run], (by rintro ⟨⟨r, hr⟩, _⟩; cases hr), fun _ => rfl⟩
  | lowStockAlerts =>
    exact ⟨[], by simp [StockOperation.run], (by rintro ⟨⟨r, hr⟩, _⟩; cases hr), fun _ => rfl⟩

/-! ## The response envelope -/

theorem faultNamed_some {fault : Option String} (h : FaultNamed fault) {msg : String}
    (hf : fault = some msg) : msg ≠ "" := by
  intro hm
  exact h (by rw [hf, hm])

theorem updateQuantity_named {E : Engine} (hE : E.Named) {db : Db} {newQty : JsNumber}
    {pid : JsValue} {e : String} (h : updateQuantity E db newQty pid = Except.error e) :
    e ≠ "" := by
  unfold updateQuantity at h
  split at h
  · rename_i e' he
    simp only [Except.error.injEq] at h
    subst h
    intro hm
    exact hE.1 _ (by rw [he, hm])
  · simp at h

theorem insertMovement_named {E : Engine} (hE : E.Named) {db : Db} {pid : JsValue}
    {t : MovementType} {q r : JsValue} {prev : Int} {nq : JsNumber} {e : String}
    (h : insertMovement E db pid t q r prev nq = Except.error e) : e ≠ "" := by
  unfold insertMovement at h
  cases h1 : E.intColumn pid <;> cases h2 : E.intColumn q <;> cases h3 : E.textColumn r <;>
    cases h4 : E.intColumn (JsValue.ofInt prev) <;>
    cases h5 : E.intColumn (JsValue.number nq) <;>
    simp only [h1, h2, h3, h4, h5, Except.error.injEq, reduceCtorEq] at h <;>
    subst h <;> intro hm <;> subst hm <;>
    first
      | exact hE.1 _ h1
      | exact hE.1 _ h2
      | exact hE.2 _ h3
      | exact hE.1 _ h4
      | exact hE.1 _ h5

theorem errorResponse_enveloped {α : Type} {status : Nat} {msg : String}
    (hs : status ≠ 200 ∧ status ≠ 201) (hm : msg ≠ "") :
    (errorResponse status msg : Response α).IsEnveloped := by
  simp [Response.IsEnveloped, errorResponse, hs.1, hs.2, hm]

theorem rows_enveloped {Row : Type} {result : Except StorageError (List Row)}
    (h : AnswerNamed result) :
    (match result with
      | Except.ok rows => listResponse rows
      | Except.error error => errorResponse 500 error.message).IsEnveloped := by
  cases result with
  | ok rows => simp [Response.IsEnveloped, listResponse]
  | error e => exact errorResponse_enveloped (by decide) (h e rfl)

/-- The response of a movement handler follows the rule of the envelope when
every error thrown has a message. -/
theorem movement_enveloped {E : Engine} {f : Faults} (hE : E.Named) (hf : f.Named) (db : Db)
    (body : MovementBody) :
    (stockIn E f db body).response.IsEnveloped ∧ (stockOut E f db body).response.IsEnveloped := by
  constructor
  · show (stockIn E f db body).response.IsEnveloped
    cases hb : f.beginTransaction with
    | some msg =>
      have hm := faultNamed_some hf.1 hb
      simp [stockIn, Response.IsEnveloped, attempt, storageError, errorResponse, hb, hm]
    | none =>
    by_cases hg : (!body.product_id.truthy || !body.quantity.truthy
        || body.quantity.toNumber.leZero) = true
    · simp only [stockIn, hb, hg, if_true]; simp [Response.IsEnveloped, errorResponse]
    cases hs : f.select with
    | some msg =>
      have hm := faultNamed_some hf.2.1 hs
      simp [stockIn, Response.IsEnveloped, attempt, storageError, errorResponse, hb, hg, hs, hm]
    | none =>
    cases hq : selectQuantity db body.product_id with
    | nil => simp [stockIn, Response.IsEnveloped, attempt, storageError, errorResponse, hb, hg, hs, hq]
    | cons prev rest =>
    cases hu : f.update with
    | some msg =>
      have hm := faultNamed_some hf.2.2.1 hu
      simp [stockIn, Response.IsEnveloped, attempt, storageError, errorResponse, hb, hg, hs, hq, hu, hm]
    | none =>
    cases hup : updateQuantity E db ((JsNumber.ofInt prev).add (parseInt body.quantity))
        body.product_id with
    | error e =>
      have hm := updateQuantity_named hE hup
      simp [stockIn, Response.IsEnveloped, attempt, storageError, errorResponse, hb, hg, hs, hq, hu, hup, hm]
    | ok tx1 =>
    cases hi : f.insert with
    | some msg =>
      have hm := faultNamed_some hf.2.2.2.1 hi
      simp [stockIn, Response.IsEnveloped, attempt, storageError, errorResponse, hb, hg, hs, hq, hu, hup, hi, hm]
    | none =>
    cases hin : insertMovement E tx1 body.product_id MovementType.IN body.quantity
        (body.reason.or (JsValue.string "Stock entry")) prev
        ((JsNumber.ofInt prev).add (parseInt body.quantity)) with
    | error e =>
      have hm := insertMovement_named hE hin
      simp [stockIn, Response.IsEnveloped, attempt, storageError, errorResponse, hb, hg, hs, hq, hu, hup, hi, hin, hm]
    | ok tx2 =>
    cases hc : f.commit with
    | some msg =>
      have hm := faultNamed_some hf.2.2.2.2 hc
      simp [stockIn, Response.IsEnveloped, attempt, storageError, errorResponse, hb, hg, hs, hq, hu, hup, hi, hin, hc, hm]
    | none => simp [stockIn, Response.IsEnveloped, attempt, storageError, errorResponse, hb, hg, hs, hq, hu, hup, hi, hin, hc]
  · show (stockOut E f db body).response.IsEnveloped
    cases hb : f.beginTransaction with
    | some msg =>
      have hm := faultNamed_some hf.1 hb
      simp [stockOut, Response.IsEnveloped, attempt, storageError, errorResponse, hb, hm]
    | none =>
    by_cases hg : (!body.product_id.truthy || !body.quantity.truthy
        || body.quantity.toNumber.leZero) = true
    · simp only [stockOut, hb, hg, if_true]; simp [Response.IsEnveloped, errorResponse]
    cases hs : f.select with
    | some msg =>
      have hm := faultNamed_some hf.2.1 hs
      simp [stockOut, Response.IsEnveloped, attempt, storageError, errorResponse, hb, hg, hs, hm]
    | none =>
    cases hq : selectQuantity db body.product_id with
    | nil => simp [stockOut, Response.IsEnveloped, attempt, storageError, errorResponse, hb, hg, hs, hq]
    | cons prev rest =>
    by_cases hlt : ((JsNumber.ofInt prev).sub (parseInt body.quantity)).ltZero = true
    · simp [stockOut, Response.IsEnveloped, attempt, storageError, errorResponse, hb, hg, hs, hq, hlt]
    cases hu : f.update with
    | some msg =>
      have hm := faultNamed_some hf.2.2.1 hu
      simp [stockOut, Response.IsEnveloped, attempt, storageError, errorResponse, hb, hg, hs, hq, hlt, hu, hm]
    | none =>
    cases hup : updateQuantity E db ((JsNumber.ofInt prev).sub (parseInt body.quantity))
        body.product_id with
    | error e =>
      have hm := updateQuantity_named hE hup
      simp [stockOut, Response.IsEnveloped, attempt, storageError, errorResponse, hb, hg, hs, hq, hlt, hu, hup, hm]
    | ok tx1 =>
    cases hi : f.insert with
    | some msg =>
      have hm := faultNamed_some hf.2.2.2.1 hi
      simp [stockOut, Response.IsEnveloped, attempt, storageError, errorResponse, hb, hg, hs, hq, hlt, hu, hup, hi, hm]
    | none =>
    cases hin : insertMovement E tx1 body.product_id MovementType.OUT body.quantity
        (body.reason.or (JsValue.string "Stock exit")) prev
        ((JsNumber.ofInt prev).sub (parseInt body.quantity)) with
    | error e =>
      have hm := insertMovement_named hE hin
      simp [stockOut, Response.IsEnveloped, attempt, storageError, errorResponse, hb, hg, hs, hq, hlt, hu, hup, hi, hin, hm]
    | ok tx2 =>
    cases hc : f.commit with
    | some msg =>
      have hm := faultNamed_some hf.2.2.2.2 hc
      simp [stockOut, Response.IsEnveloped, attempt, storageError, errorResponse, hb, hg, hs, hq, hlt, hu, hup, hi, hin, hc, hm]
    | none => simp [stockOut, Response.IsEnveloped, attempt, storageError, errorResponse, hb, hg, hs, hq, hlt, hu, hup, hi, hin, hc]

theorem insertProduct_named {C : CatalogEngine} (hC : C.Named) {insertId : Int} {db : Db}
    {name description sku : JsValue} {price : JsNumber} {category : JsValue} {e : StorageError}
    (h : insertProduct C insertId db name description sku price category = Except.error e) :
    e.message ≠ "" := by
  unfold insertProduct at h
  cases h1 : C.textColumn name <;> cases h2 : C.optionalTextColumn description <;>
    cases h3 : C.textColumn sku <;> cases h4 : C.priceColumn price <;>
    cases h5 : C.optionalTextColumn category <;>
    simp only [h1, h2, h3, h4, h5, Except.error.injEq, reduceCtorEq] at h <;>
    first
      | (subst h
         first
           | exact hC.1 _ _ h1
           | exact hC.2.1 _ _ h2
           | exact hC.1 _ _ h3
           | exact hC.2.2 _ _ h4
           | exact hC.2.1 _ _ h5)
      | (split at h
         · simp only [Except.error.injEq] at h
           subst h
           decide
         · simp at h)

theorem insertStock_named {db : Db} {product_id : Int} {e : StorageError}
    (h : insertStock db product_id = Except.error e) : e.message ≠ "" := by
  unfold insertStock at h
  split at h
  · simp only [Except.error.injEq] at h
    subst h
    decide
  · simp at h

theorem execute_named {α : Type} {fault : Option StorageError} {result : Except StorageError α}
    (hf : ∀ e, fault = some e → e.message ≠ "") (hr : AnswerNamed result) :
    AnswerNamed (execute fault result) := by
  intro e he
  cases fault with
  | some e' =>
    simp only [execute, Except.error.injEq] at he
    subst he
    exact hf _ rfl
  | none => exact hr e he

theorem createFailed_enveloped {e : StorageError} (h : e.message ≠ "") :
    (createFailed e).IsEnveloped := by
  unfold createFailed
  split
  · exact errorResponse_enveloped (by decide) (by decide)
  · exact errorResponse_enveloped (by decide) h

/-- The response of the creation of a product follows the rule of the envelope
when every error thrown has a message. -/
theorem createProduct_enveloped {C : CatalogEngine} {f : CreateFaults} (hC : C.Named)
    (hf : f.Named) (insertId : Int) (db : Db) (body : ProductBody) :
    (createProduct C f insertId db body).2.IsEnveloped := by
  by_cases hg : (!body.name.truthy || !body.sku.truthy || !body.price.truthy) = true
  · simp only [createProduct, hg, if_true]
    exact errorResponse_enveloped (by decide) (by decide)
  · cases h1 : execute f.insertProduct (insertProduct C insertId db body.name body.description
        body.sku (parseFloat body.price) body.category) with
    | error e =>
      have hm : e.message ≠ "" :=
        execute_named hf.1 (fun e he => insertProduct_named hC he) e h1
      simp only [createProduct, hg, h1]
      exact createFailed_enveloped hm
    | ok db1 =>
      cases h2 : execute f.insertStock (insertStock db1 insertId) with
      | error e =>
        have hm : e.message ≠ "" :=
          execute_named hf.2 (fun e he => insertStock_named he) e h2
        simp only [createProduct, hg, h1, h2]
        exact createFailed_enveloped hm
      | ok db2 =>
        simp [createProduct, hg, h1, h2, Response.IsEnveloped]

theorem write_enveloped {α : Type} {result : Except StorageError WriteResult}
    (h : AnswerNamed result) (missing : String) (hm : missing ≠ "") (saved : Response α)
    (hs : saved.IsEnveloped) :
    (match result with
      | Except.ok r => if r.affectedRows = 0 then errorResponse 404 missing else saved
      | Except.error error => errorResponse 500 error.message).IsEnveloped := by
  cases result with
  | ok r =>
    simp only
    split
    · exact errorResponse_enveloped (by decide) hm
    · exact hs
  | error e => exact errorResponse_enveloped (by decide) (h e rfl)

theorem savedResponse_enveloped {α : Type} (status : Nat) (hs : status = 200 ∨ status = 201)
    (data : α) (message : String) : (savedResponse status data message).IsEnveloped := by
  rcases hs with hs | hs <;> subst hs <;> simp [Response.IsEnveloped, savedResponse]

theorem messageResponse_enveloped {α : Type} (message : String) :
    (messageResponse message : Response α).IsEnveloped := by
  simp [Response.IsEnveloped, messageResponse]

theorem dataResponse_enveloped {α : Type} (data : α) : (dataResponse data).IsEnveloped := by
  simp [Response.IsEnveloped, dataResponse]

theorem fault_enveloped {α : Type} {fault : Option String} (h : FaultNamed fault)
    (sent : Response α) (hs : sent.IsEnveloped) :
    (match fault with
      | some msg => errorResponse 500 msg
      | none => sent).IsEnveloped := by
  cases fault with
  | some msg => exact errorResponse_enveloped (by decide) (faultNamed_some h rfl)
  | none => exact hs

/-- C19: every response of a handler of the stock, products and suppliers
services with status 400, 404, 409 or 500 has `success: false`, a non-empty
`error` and no `data`, and every response with status 200 or 201 has
`success: true` and no `error`; the errors thrown by the store are taken to
have a message, which is what the handlers send as `error` with a 500. -/
theorem error_envelope {Row : Type} (c : ApiCall Row) (h : c.Named) : c.Enveloped := by
  cases c with
  | getStock fault db =>
    exact fault_enveloped h _ (by simp [Response.IsEnveloped])
  | getStockByProduct fault db productId =>
    refine fault_enveloped h _ ?_
    split
    · exact errorResponse_enveloped (by decide) (by decide)
    · simp [Response.IsEnveloped]
  | stockIn E f db body => exact (movement_enveloped h.1 h.2 db body).1
  | stockOut E f db body => exact (movement_enveloped h.1 h.2 db body).2
  | getMovements fault createdAt db productId =>
    cases fault with
    | some msg =>
      simp only [ApiCall.Enveloped, getMovements]
      exact errorResponse_enveloped (by decide) (faultNamed_some h rfl)
    | none => simp [ApiCall.Enveloped, getMovements, Response.IsEnveloped, listResponse]
  | getLowStockAlerts fault db =>
    exact fault_enveloped h _ (by simp [Response.IsEnveloped, listResponse])
  | getProducts result => exact rows_enveloped h
  | getProductById result =>
    cases result with
    | ok rows =>
      cases rows with
      | nil => exact errorResponse_enveloped (by decide) (by decide)
      | cons row rest => exact dataResponse_enveloped row
    | error e => exact errorResponse_enveloped (by decide) (h e rfl)
  | createProduct C f insertId db body => exact createProduct_enveloped h.1 h.2 insertId db body
  | updateProduct id body result =>
    exact write_enveloped h _ (by decide) _ (savedResponse_enveloped 200 (Or.inl rfl) _ _)
  | deleteProduct result =>
    exact write_enveloped h _ (by decide) _ (messageResponse_enveloped _)
  | getCategories category result =>
    cases result with
    | ok rows => exact dataResponse_enveloped _
    | error e => exact errorResponse_enveloped (by decide) (h e rfl)
  | getSuppliers result => exact rows_enveloped h
  | getSupplierById result =>
    cases result with
    | ok rows =>
      cases rows with
      | nil => exact errorResponse_enveloped (by decide) (by decide)
      | cons row rest => exact dataResponse_enveloped row
    | error e => exact errorResponse_enveloped (by decide) (h e rfl)
  | createSupplier body result =>
    show (InventoryEasy.createSupplier body result).IsEnveloped
    unfold InventoryEasy.createSupplier
    split
    · exact errorResponse_enveloped (by decide) (by decide)
    · cases result with
      | ok r => exact savedResponse_enveloped 201 (Or.inr rfl) _ _
      | error e => exact errorResponse_enveloped (by decide) (h e rfl)
  | updateSupplier id body result =>
    exact write_enveloped h _ (by decide) _ (savedResponse_enveloped 200 (Or.inl rfl) _ _)
  | deleteSupplier result =>
    exact write_enveloped h _ (by decide) _ (messageResponse_enveloped _)
  | getSupplierProducts result => exact rows_enveloped h
  | associateProduct supplierId body result =>
    show (InventoryEasy.associateProduct supplierId body result).IsEnveloped
    unfold InventoryEasy.associateProduct
    split
    · exact errorResponse_enveloped (by decide) (by decide)
    · cases result with
      | ok r => exact savedResponse_enveloped 201 (Or.inr rfl) _ _
      | error e =>
        simp only
        split
        · exact errorResponse_enveloped (by decide) (by decide)
        · exact errorResponse_enveloped (by decide) (h e rfl)
  | disassociateProduct result =>
    exact write_enveloped h _ (by decide) _ (messageResponse_enveloped _)
  | getCities city result =>
    cases result with
    | ok rows => exact dataResponse_enveloped _
    | error e => exact errorResponse_enveloped (by decide) (h e rfl)

theorem referenceEngine_named : referenceEngine.Named := by
  constructor
  · intro v h
    cases v with
    | number x => cases x <;> simp [referenceEngine] at h
    | string s =>
      simp only [referenceEngine] at h
      split at h <;> simp at h
    | undefined => simp [referenceEngine] at h
    | null => simp [referenceEngine] at h
    | bool b => simp [referenceEngine] at h
  · intro v h
    cases v <;> simp [referenceEngine] at h

/-- A stock-out whose `SELECT` fails with the message `Connection lost`, and one
that asks for more than the stock holds. -/
theorem error_envelope_witness :
    (ApiCall.stockOut referenceEngine ⟨none, some "Connection lost", none, none, none⟩
        (sampleDb 3) ⟨JsValue.ofInt 1, JsValue.ofInt 10, JsValue.undefined⟩ : ApiCall Unit).Named ∧
    (ApiCall.stockOut referenceEngine ⟨none, some "Connection lost", none, none, none⟩
        (sampleDb 3) ⟨JsValue.ofInt 1, JsValue.ofInt 10, JsValue.undefined⟩ :
        ApiCall Unit).Enveloped ∧
    (stockOut referenceEngine ⟨none, some "Connection lost", none, none, none⟩
        (sampleDb 3) ⟨JsValue.ofInt 1, JsValue.ofInt 10, JsValue.undefined⟩).response
      = ⟨500, false, none, none, some "Connection lost", none, none, none⟩ :=
  ⟨⟨referenceEngine_named, by simp [Faults.Named, FaultNamed]⟩,
    error_envelope
      (ApiCall.stockOut referenceEngine ⟨none, some "Connection lost", none, none, none⟩
        (sampleDb 3) ⟨JsValue.ofInt 1, JsValue.ofInt 10, JsValue.undefined⟩ : ApiCall Unit)
      ⟨referenceEngine_named, by simp [Faults.Named, FaultNamed]⟩,
    by decide⟩


/-! ## Storage errors -/

theorem errorResponse_envelope {α : Type} (status : Nat) (msg : String) :
    (errorResponse status msg : Response α).envelope = errorResponse status msg := rfl

theorem finishRun_thrown (db : Db) (t : TryRun) (msg : String) (h : t.thrown = some msg) :
    (finishRun none db t).response = some (errorResponse 500 msg) := by
  unfold TryRun.thrown at h
  unfold finishRun
  cases hend : t.ending with
  | returned db' response => rw [hend] at h; simp at h
  | threw m =>
    rw [hend] at h
    simp only [Option.some.injEq] at h
    subst h
    rfl

theorem movement_thrown (E : Engine) (f : Faults) (db : Db) (body : MovementBody) (msg : String) :
    ((stockInTry E f none db body).thrown = some msg →
      (stockIn E f db body).response = errorResponse 500 msg) ∧
    ((stockOutTry E f none db body).thrown = some msg →
      (stockOut E f db body).response = errorResponse 500 msg) := by
  constructor
  · intro h
    have h1 := congrArg HandlerRun.response
      (handleMovement_none E f db (MovementRequest.stockIn body))
    simp only [handleMovement, serve] at h1
    rw [finishRun_thrown db _ msg h] at h1
    exact (Option.some.inj h1).symm
  · intro h
    have h1 := congrArg HandlerRun.response
      (handleMovement_none E f db (MovementRequest.stockOut body))
    simp only [handleMovement, serve] at h1
    rw [finishRun_thrown db _ msg h] at h1
    exact (Option.some.inj h1).symm

theorem fault_thrown {α : Type} (fault : Option String) (sent : Response α) (msg : String)
    (h : fault = some msg) :
    (match fault with
      | some m => errorResponse 500 m
      | none => sent) = errorResponse 500 msg := by
  subst h
  rfl

theorem thrownBy_error {α : Type} {result : Except StorageError α} {msg : String}
    (h : thrownBy result = some msg) : ∃ e, result = Except.error e ∧ e.message = msg := by
  cases result with
  | ok a => simp [thrownBy] at h
  | error e => exact ⟨e, rfl, by simpa [thrownBy] using h⟩

theorem unexpected_error {α : Type} {result : Except StorageError α} {msg : String}
    (h : unexpected result = some msg) :
    ∃ e, result = Except.error e ∧ e.code ≠ some "ER_DUP_ENTRY" ∧ e.message = msg := by
  cases result with
  | ok a => simp [unexpected] at h
  | error e =>
    by_cases hc : e.code = some "ER_DUP_ENTRY"
    · simp [unexpected, hc] at h
    · exact ⟨e, rfl, hc, by simpa [unexpected, hc] using h⟩

/-- C20, as the code has it: the two runs answer 500 and differ only in the
message of the error the `SELECT` throws, and their bodies differ: each sends
the message it was thrown.  The same holds for the list of products. -/
theorem storage_message_reaches_caller :
    (stockIn referenceEngine ⟨none, some "Connection lost", none, none, none⟩ (sampleDb 3)
        ⟨JsValue.ofInt 1, JsValue.ofInt 2, JsValue.undefined⟩).response
      = ⟨500, false, none, none, some "Connection lost", none, none, none⟩ ∧
    (stockIn referenceEngine ⟨none, some "Deadlock found", none, none, none⟩ (sampleDb 3)
        ⟨JsValue.ofInt 1, JsValue.ofInt 2, JsValue.undefined⟩).response
      = ⟨500, false, none, none, some "Deadlock found", none, none, none⟩ ∧
    (stockIn referenceEngine ⟨none, some "Connection lost", none, none, none⟩ (sampleDb 3)
        ⟨JsValue.ofInt 1, JsValue.ofInt 2, JsValue.undefined⟩).response
      ≠ (stockIn referenceEngine ⟨none, some "Deadlock found", none, none, none⟩ (sampleDb 3)
        ⟨JsValue.ofInt 1, JsValue.ofInt 2, JsValue.undefined⟩).response ∧
    (getProducts (Except.error ⟨none, "Connection lost"⟩) : Response (List Unit))
      ≠ getProducts (Except.error ⟨none, "Deadlock found"⟩) := by
  decide

/-- C20, amended: when a storage step of a handler throws an unexpected error,
the handler responds 500 with `success: false`, no `data` and, as `error`, the
message of the error thrown; the body depends on nothing else. -/
theorem storage_error_message_sent {Row : Type} (c : ApiCall Row) (msg : String)
    (h : c.thrown = some msg) : c.response = errorResponse 500 msg := by
  cases c with
  | getStock fault db =>
    show (InventoryEasy.getStock fault db).envelope = _
    unfold InventoryEasy.getStock
    rw [fault_thrown fault _ msg h]
    rfl
  | getStockByProduct fault db productId =>
    show (InventoryEasy.getStockByProduct fault db productId).envelope = _
    unfold InventoryEasy.getStockByProduct
    rw [fault_thrown fault _ msg h]
    rfl
  | stockIn E f db body =>
    show (InventoryEasy.stockIn E f db body).response.envelope = _
    rw [(movement_thrown E f db body msg).1 h]
    rfl
  | stockOut E f db body =>
    show (InventoryEasy.stockOut E f db body).response.envelope = _
    rw [(movement_thrown E f db body msg).2 h]
    rfl
  | getMovements fault createdAt db productId =>
    have hf : fault = some msg := h
    subst hf
    rfl
  | getLowStockAlerts fault db =>
    have hf : fault = some msg := h
    subst hf
    rfl
  | getProducts result =>
    obtain ⟨e, he, hm⟩ := thrownBy_error h
    subst he; subst hm; rfl
  | getProductById result =>
    obtain ⟨e, he, hm⟩ := thrownBy_error h
    subst he; subst hm; rfl
  | createProduct C f insertId db body =>
    show (InventoryEasy.createProduct C f insertId db body).2.envelope = _
    simp only [ApiCall.thrown] at h
    by_cases hg : (!body.name.truthy || !body.sku.truthy || !body.price.truthy) = true
    · simp [hg] at h
    · cases h1 : execute f.insertProduct (insertProduct C insertId db body.name body.description
          body.sku (parseFloat body.price) body.category) with
      | error e =>
        simp only [hg, h1, Bool.false_eq_true, if_false] at h
        obtain ⟨e', he, hc, hm⟩ := unexpected_error h
        cases he
        subst hm
        simp [createProduct, hg, h1, createFailed, hc, Response.envelope, errorResponse]
      | ok db1 =>
        simp only [hg, h1, Bool.false_eq_true, if_false] at h
        obtain ⟨e', he, hc, hm⟩ := unexpected_error h
        subst hm
        simp [createProduct, hg, h1, he, createFailed, hc, Response.envelope, errorResponse]
  | updateProduct id body result =>
    obtain ⟨e, he, hm⟩ := thrownBy_error h
    subst he; subst hm; rfl
  | deleteProduct result =>
    obtain ⟨e, he, hm⟩ := thrownBy_error h
    subst he; subst hm; rfl
  | getCategories category result =>
    obtain ⟨e, he, hm⟩ := thrownBy_error h
    subst he; subst hm; rfl
  | getSuppliers result =>
    obtain ⟨e, he, hm⟩ := thrownBy_error h
    subst he; subst hm; rfl
  | getSupplierById result =>
    obtain ⟨e, he, hm⟩ := thrownBy_error h
    subst he; subst hm; rfl
  | createSupplier body result =>
    show (InventoryEasy.createSupplier body result).envelope = _
    simp only [ApiCall.thrown] at h
    by_cases hg : (!body.name.truthy) = true
    · simp [hg] at h
    · simp only [hg, Bool.false_eq_true, if_false] at h
      obtain ⟨e, he, hm⟩ := thrownBy_error h
      subst he; subst hm
      simp [createSupplier, hg, Response.envelope, errorResponse]
  | updateSupplier id body result =>
    obtain ⟨e, he, hm⟩ := thrownBy_error h
    subst he; subst hm; rfl
  | deleteSupplier result =>
    obtain ⟨e, he, hm⟩ := thrownBy_error h
    subst he; subst hm; rfl
  | getSupplierProducts result =>
    obtain ⟨e, he, hm⟩ := thrownBy_error h
    subst he; subst hm; rfl
  | associateProduct supplierId body result =>
    show (InventoryEasy.associateProduct supplierId body result).envelope = _
    simp only [ApiCall.thrown] at h
    by_cases hg : (!body.product_id.truthy) = true
    · simp [hg] at h
    · simp only [hg, Bool.false_eq_true, if_false] at h
      obtain ⟨e, he, hc, hm⟩ := unexpected_error h
      subst he; subst hm
      simp [associateProduct, hg, hc, Response.envelope, errorResponse]
  | disassociateProduct result =>
    obtain ⟨e, he, hm⟩ := thrownBy_error h
    subst he; subst hm; rfl
  | getCities city result =>
    obtain ⟨e, he, hm⟩ := thrownBy_error h
    subst he; subst hm; rfl

/-- A stock-in whose `SELECT` throws `Connection lost`: that is the `error` of
its 500. -/
theorem storage_error_message_sent_witness :
    (ApiCall.stockIn referenceEngine ⟨none, some "Connection lost", none, none, none⟩
        (sampleDb 3) ⟨JsValue.ofInt 1, JsValue.ofInt 2, JsValue.undefined⟩ :
        ApiCall Unit).thrown = some "Connection lost" ∧
    (ApiCall.stockIn referenceEngine ⟨none, some "Connection lost", none, none, none⟩
        (sampleDb 3) ⟨JsValue.ofInt 1, JsValue.ofInt 2, JsValue.undefined⟩ :
        ApiCall Unit).response = errorResponse 500 "Connection lost" :=
  ⟨by decide, storage_error_message_sent _ _ (by decide)⟩


/-! ## Requests served at the same time -/

/-- The two parts of a handler, run one after the other on the same store, are
the handler. -/
theorem runAlone_eq_serve (E : Engine) (f : Faults) (db : Db) (r : MovementRequest) :
    runAlone E f db r = serve E f db r := by
  cases r with
  | stockIn body =>
    simp only [runAlone, readPhase, writePhase, serve, stockIn]
    repeat' split
    all_goals simp_all
  | stockOut body =>
    simp only [runAlone, readPhase, writePhase, serve, stockOut]
    repeat' split
    all_goals simp_all

theorem runEvent_alone (E : Engine) (reqs : List (Faults × MovementRequest)) (s : Run) (i : Nat)
    (f : Faults) (r : MovementRequest) (hi : reqs[i]? = some (f, r)) (hr : s.reads = [])
    (ha : s.answers.lookup i = none) :
    runEvent E reqs (runEvent E reqs s (Event.select i)) (Event.write i)
      = { db := (serve E f s.db r).db, reads := [],
          answers := s.answers ++ [(i, (serve E f s.db r).response)] } := by
  rw [← runAlone_eq_serve]
  cases hp : readPhase f s.db r with
  | answered out =>
    simp [runEvent, hi, hr, ha, hp, runAlone]
  | goesOn previousQty =>
    simp [runEvent, hi, hr, ha, hp, runAlone]

/-- A schedule that serves the requests one after another leaves the store the
handlers leave when they are called one after another. -/
theorem serialSchedule_db (E : Engine) (reqs : List (Faults × MovementRequest))
    (order : List Nat) (hnd : order.Nodup) (hlt : ∀ i ∈ order, i < reqs.length) (db : Db) :
    (runSchedule E reqs db (serialSchedule order)).db
      = serveAll E db (order.filterMap (fun i => reqs[i]?)) ∧
    (runSchedule E reqs db (serialSchedule order)).reads = [] := by
  have key : ∀ (order : List Nat) (s : Run), order.Nodup → (∀ i ∈ order, i < reqs.length) →
      s.reads = [] → (∀ i ∈ order, s.answers.lookup i = none) →
      ((serialSchedule order).foldl (runEvent E reqs) s).db
        = serveAll E s.db (order.filterMap (fun i => reqs[i]?)) ∧
      ((serialSchedule order).foldl (runEvent E reqs) s).reads = [] := by
    intro order
    induction order with
    | nil => intro s _ _ hr _; exact ⟨rfl, hr⟩
    | cons i rest ih =>
      intro s hnd hlt hr ha
      obtain ⟨⟨f, r⟩, hfr⟩ : ∃ x, reqs[i]? = some x :=
        ⟨_, List.getElem?_eq_getElem (hlt i (List.mem_cons_self _ _))⟩
      have hstep := runEvent_alone E reqs s i f r hfr hr (ha i (List.mem_cons_self _ _))
      have hnd2 := List.nodup_cons.mp hnd
      simp only [serialSchedule, List.flatMap_cons, List.cons_append, List.nil_append,
        List.foldl_cons, List.filterMap_cons, hfr, serveAll]
      rw [hstep]
      refine ih _ hnd2.2 (fun j hj => hlt j (List.mem_cons_of_mem _ hj)) rfl ?_
      intro j hj
      have hji : j ≠ i := fun h => hnd2.1 (h ▸ hj)
      have haj := ha j (List.mem_cons_of_mem _ hj)
      have hb : (j == i) = false := by simpa using hji
      simp [List.lookup_append, haj, List.lookup, hb]
  exact key order _ hnd hlt rfl (fun _ _ => rfl)

/-- C21 fails on the code when the plain `SELECT` of the handlers takes no lock.
Product 1 holds 10 units.  Two stock-ins of 5 whose `SELECT`s both run before
either `UPDATE` are both answered 200 and leave 15 units, each recording
10 to 15, while the two served one after another, in either order, leave 20.
Two stock-outs of 10 run the same way are both answered 200, while served one
after another, in either order, the second is answered 400. -/
theorem concurrent_update_lost :
    ((runSchedule referenceEngine [restock 5, restock 5] (sampleDb 10)
        [Event.select 0, Event.select 1, Event.write 0, Event.write 1]).statuses
        = [(0, 200), (1, 200)] ∧
      currentQuantity (runSchedule referenceEngine [restock 5, restock 5] (sampleDb 10)
        [Event.select 0, Event.select 1, Event.write 0, Event.write 1]).db (JsValue.ofInt 1)
        = some 15 ∧
      (runSchedule referenceEngine [restock 5, restock 5] (sampleDb 10)
        [Event.select 0, Event.select 1, Event.write 0, Event.write 1]).db.stock_movements
        = [⟨1, MovementType.IN, 5, "Stock entry", 10, 15⟩,
           ⟨1, MovementType.IN, 5, "Stock entry", 10, 15⟩]) ∧
    (currentQuantity (serveAll referenceEngine (sampleDb 10) [restock 5, restock 5])
        (JsValue.ofInt 1) = some 20 ∧
      (runSchedule referenceEngine [restock 5, restock 5] (sampleDb 10)
        (serialSchedule [0, 1])).statuses = [(0, 200), (1, 200)] ∧
      currentQuantity (runSchedule referenceEngine [restock 5, restock 5] (sampleDb 10)
        (serialSchedule [0, 1])).db (JsValue.ofInt 1) = some 20 ∧
      currentQuantity (runSchedule referenceEngine [restock 5, restock 5] (sampleDb 10)
        (serialSchedule [1, 0])).db (JsValue.ofInt 1) = some 20) ∧
    ((runSchedule referenceEngine [withdraw 10, withdraw 10] (sampleDb 10)
        [Event.select 0, Event.select 1, Event.write 0, Event.write 1]).statuses
        = [(0, 200), (1, 200)] ∧
      (runSchedule referenceEngine [withdraw 10, withdraw 10] (sampleDb 10)
        (serialSchedule [0, 1])).statuses = [(0, 200), (1, 400)] ∧
      (runSchedule referenceEngine [withdraw 10, withdraw 10] (sampleDb 10)
        (serialSchedule [1, 0])).statuses = [(1, 200), (0, 400)]) := by
  decide


/-! ## The list queries of products and suppliers -/

theorem isEmpty_eq_false_iff (s : String) : s.isEmpty = false ↔ s ≠ "" := by
  rw [Ne, ← String.isEmpty_iff]
  cases s.isEmpty <;> simp

theorem present_iff (filter : Option String) :
    present filter = true ↔ ∃ s, filter = some s ∧ s ≠ "" := by
  cases filter with
  | none => simp [present]
  | some s => simp [present, isEmpty_eq_false_iff]

theorem addFilter_present (q : ListQuery) (s : String) (hs : s ≠ "") (condition : String)
    (bound : String → List String) :
    addFilter q (some s) condition bound = ⟨q.text ++ condition, q.params ++ bound s⟩ := by
  have h : present (some s) = true := (present_iff _).mpr ⟨s, rfl, hs⟩
  simp [addFilter, h]

theorem addFilter_absent (q : ListQuery) (filter : Option String) (h : present filter = false)
    (condition : String) (bound : String → List String) :
    addFilter q filter condition bound = q := by
  cases filter with
  | none => rfl
  | some s => simp [addFilter, h]

theorem whenPresent_present (s : String) (hs : s ≠ "") (clause : String → Clause) :
    whenPresent (some s) clause = [clause s] := by
  simp [whenPresent, hs]

theorem whenPresent_absent (filter : Option String) (h : present filter = false)
    (clause : String → Clause) : whenPresent filter clause = [] := by
  cases filter with
  | none => rfl
  | some s =>
    have : s = "" := by simpa [present, String.isEmpty_iff] using h
    simp [whenPresent, this]

/-- A filter is given and not empty, or it adds nothing. -/
theorem filter_cases (filter : Option String) :
    (∃ s, filter = some s ∧ s ≠ "") ∨ present filter = false := by
  cases h : present filter with
  | true => exact Or.inl ((present_iff _).mp h)
  | false => exact Or.inr rfl

theorem productsQuery_parts (category search : Option String) :
    productsQuery category search
      = assemble "products" (whenPresent category (equalsClause "category")
          ++ whenPresent search (searchClause ["name", "sku"])) ∧
    placeholders (productsQuery category search).text
      = (productsQuery category search).params.length ∧
    (∃ pre : String, (productsQuery category search).text = pre ++ " ORDER BY name ASC") ∧
    (∀ c ∈ whenPresent category (equalsClause "category")
        ++ whenPresent search (searchClause ["name", "sku"]),
      placeholders c.text = c.params.length) := by
  refine ⟨?_, ?_, ⟨_, rfl⟩, ?_⟩
  · rcases filter_cases category with ⟨c, rfl, hc⟩ | hc <;>
      rcases filter_cases search with ⟨s, rfl, hs⟩ | hs <;>
      simp only [productsQuery, assemble, addFilter_present, addFilter_absent,
        whenPresent_present, whenPresent_absent, hc, hs, ne_eq, not_false_eq_true,
        equalsClause, searchClause, likePattern, likeAlternatives, List.map, List.flatten,
        List.append_nil, List.nil_append, List.cons_append, List.singleton_append,
        ListQuery.mk.injEq, and_true] <;>
      decide
  · rcases filter_cases category with ⟨c, rfl, hc⟩ | hc <;>
      rcases filter_cases search with ⟨s, rfl, hs⟩ | hs <;>
      simp only [productsQuery, addFilter_present, addFilter_absent, hc, hs, ne_eq,
        not_false_eq_true, List.length_append, List.length_cons, List.length_nil] <;>
      decide
  · intro c hc
    rcases List.mem_append.mp hc with h | h
    · cases category with
      | none => simp [whenPresent] at h
      | some v =>
        by_cases hv : v = ""
        · simp [whenPresent, hv] at h
        · simp only [whenPresent, hv, if_false, List.mem_singleton] at h
          subst h
          simp only [equalsClause, List.length_cons, List.length_nil]
          decide
    · cases search with
      | none => simp [whenPresent] at h
      | some v =>
        by_cases hv : v = ""
        · simp [whenPresent, hv] at h
        · simp only [whenPresent, hv, if_false, List.mem_singleton] at h
          subst h
          simp only [searchClause, List.map, List.length_cons, List.length_nil]
          decide

theorem mem_whenPresent {filter : Option String} {clause : String → Clause} {c : Clause}
    (h : c ∈ whenPresent filter clause) : ∃ s, filter = some s ∧ s ≠ "" ∧ c = clause s := by
  cases filter with
  | none => simp [whenPresent] at h
  | some v =>
    by_cases hv : v = ""
    · simp [whenPresent, hv] at h
    · simp only [whenPresent, hv, if_false, List.mem_singleton] at h
      exact ⟨v, rfl, hv, h⟩

theorem suppliersQuery_parts (status city search : Option String) :
    suppliersQuery status city search
      = assemble "suppliers" (whenPresent status (equalsClause "status")
          ++ whenPresent city (equalsClause "city")
          ++ whenPresent search (searchClause ["name", "contact_person", "email"])) ∧
    placeholders (suppliersQuery status city search).text
      = (suppliersQuery status city search).params.length ∧
    (∃ pre : String, (suppliersQuery status city search).text = pre ++ " ORDER BY name ASC") ∧
    (∀ c ∈ whenPresent status (equalsClause "status")
        ++ whenPresent city (equalsClause "city")
        ++ whenPresent search (searchClause ["name", "contact_person", "email"]),
      placeholders c.text = c.params.length) := by
  refine ⟨?_, ?_, ⟨_, rfl⟩, ?_⟩
  · rcases filter_cases status with ⟨a, rfl, ha⟩ | ha <;>
      rcases filter_cases city with ⟨c, rfl, hc⟩ | hc <;>
      rcases filter_cases search with ⟨s, rfl, hs⟩ | hs <;>
      simp only [suppliersQuery, assemble, addFilter_present, addFilter_absent,
        whenPresent_present, whenPresent_absent, ha, hc, hs, ne_eq, not_false_eq_true,
        equalsClause, searchClause, likePattern, likeAlternatives, List.map, List.flatten,
        List.append_nil, List.nil_append, List.cons_append, List.singleton_append,
        ListQuery.mk.injEq, and_true] <;>
      decide
  · rcases filter_cases status with ⟨a, rfl, ha⟩ | ha <;>
      rcases filter_cases city with ⟨c, rfl, hc⟩ | hc <;>
      rcases filter_cases search with ⟨s, rfl, hs⟩ | hs <;>
      simp only [suppliersQuery, addFilter_present, addFilter_absent, ha, hc, hs, ne_eq,
        not_false_eq_true, List.length_append, List.length_cons, List.length_nil] <;>
      decide
  · intro c hc
    rcases List.mem_append.mp hc with h | h
    · rcases List.mem_append.mp h with h | h
      · obtain ⟨s, -, -, rfl⟩ := mem_whenPresent h
        simp only [equalsClause, List.length_cons, List.length_nil]
        decide
      · obtain ⟨s, -, -, rfl⟩ := mem_whenPresent h
        simp only [equalsClause, List.length_cons, List.length_nil]
        decide
    · obtain ⟨s, -, -, rfl⟩ := mem_whenPresent h
      simp only [searchClause, List.map, List.length_cons, List.length_nil]
      decide

/-- C30: the queries of `GET /api/products` and `GET /api/suppliers` are the base
`SELECT` followed by one condition for each filter that is given and not empty,
in the order of the handler, and by `ORDER BY name ASC`; an absent or empty
filter adds nothing; the values bound are those of the conditions in the same
order, the pattern `%s%` once for each column searched; each condition has as
many `?` as it binds values, and so has the whole text. -/
theorem filter_query_construction (category search status city term : Option String) :
    (productsQuery category search
        = assemble "products" (whenPresent category (equalsClause "category")
            ++ whenPresent search (searchClause ["name", "sku"])) ∧
      placeholders (productsQuery category search).text
        = (productsQuery category search).params.length ∧
      (∃ pre : String, (productsQuery category search).text = pre ++ " ORDER BY name ASC") ∧
      (∀ c ∈ whenPresent category (equalsClause "category")
          ++ whenPresent search (searchClause ["name", "sku"]),
        placeholders c.text = c.params.length)) ∧
    (suppliersQuery status city term
        = assemble "suppliers" (whenPresent status (equalsClause "status")
            ++ whenPresent city (equalsClause "city")
            ++ whenPresent term (searchClause ["name", "contact_person", "email"])) ∧
      placeholders (suppliersQuery status city term).text
        = (suppliersQuery status city term).params.length ∧
      (∃ pre : String, (suppliersQuery status city term).text = pre ++ " ORDER BY name ASC") ∧
      (∀ c ∈ whenPresent status (equalsClause "status")
          ++ whenPresent city (equalsClause "city")
          ++ whenPresent term (searchClause ["name", "contact_person", "email"]),
        placeholders c.text = c.params.length)) ∧
    (∀ s : String, (searchClause ["name", "sku"] s).params = ["%" ++ s ++ "%", "%" ++ s ++ "%"] ∧
      (searchClause ["name", "contact_person", "email"] s).params
        = ["%" ++ s ++ "%", "%" ++ s ++ "%", "%" ++ s ++ "%"]) ∧
    productsQuery none (some "") = ⟨"SELECT * FROM products WHERE 1=1 ORDER BY name ASC", []⟩ ∧
    productsQuery (some "Office") (some "pen")
      = ⟨"SELECT * FROM products WHERE 1=1 AND category = ? AND (name LIKE ? OR sku LIKE ?) ORDER BY name ASC",
          ["Office", "%pen%", "%pen%"]⟩ ∧
    suppliersQuery (some "ACTIVE") none (some "acme")
      = ⟨"SELECT * FROM suppliers WHERE 1=1 AND status = ? AND (name LIKE ? OR contact_person LIKE ? OR email LIKE ?) ORDER BY name ASC",
          ["ACTIVE", "%acme%", "%acme%", "%acme%"]⟩ :=
  ⟨productsQuery_parts category search, suppliersQuery_parts status city term,
    fun _ => ⟨rfl, rfl⟩, by decide, by decide, by decide⟩

/-! ## The list of products -/

theorem keepProduct_iff (T : Collation) (category search : Option String) (p : Product) :
    keepProduct T category search p = true ↔ ProductMatches T category search p := by
  unfold keepProduct ProductMatches
  rw [Bool.and_eq_true]
  refine and_congr ?_ ?_
  · cases category with
    | none => simp
    | some v =>
      by_cases hv : v = ""
      · subst hv
        have h0 : "".isEmpty = true := by decide
        simp [present, h0]
      · have hp : present (some v) = true := (present_iff _).mpr ⟨v, rfl, hv⟩
        simp only [hp, if_true, Option.some.injEq, ne_eq]
        constructor
        · intro h w hw _
          subst hw
          cases hc : p.category with
          | none => simp [hc] at h
          | some c => exact ⟨c, rfl, by simpa [hc] using h⟩
        · intro h
          obtain ⟨c, hc, heq⟩ := h v rfl hv
          simp [hc, heq]
  · cases search with
    | none => simp
    | some s =>
      by_cases hs : s = ""
      · subst hs
        have h0 : "".isEmpty = true := by decide
        simp [present, h0]
      · have hp : present (some s) = true := (present_iff _).mpr ⟨s, rfl, hs⟩
        simp only [hp, if_true, Option.some.injEq, ne_eq, Bool.or_eq_true, likePattern]
        constructor
        · intro h w hw _
          subst hw
          exact h
        · intro h
          exact h s rfl hs

/-- C22: whatever the store and the filters, when the query does not fail the
list of products is answered 200 with `success: true` and no `error`; `data`
holds the rows of `products` that match the filters, each as often as the table
holds it, ordered by name in the order of the collation, and `count` is the
length of `data`.  With the filters `Office` and `enc` the catalog of the
example gives the pencil. -/
theorem product_list (T : Collation) (db : Db) (category search : Option String) :
    (listProducts T none db category search).status = 200 ∧
    (listProducts T none db category search).success = true ∧
    (listProducts T none db category search).error = none ∧
    (∃ rows : List Product,
      (listProducts T none db category search).data = some rows ∧
      (listProducts T none db category search).count = some rows.length ∧
      rows.Perm (db.products.filter (keepProduct T category search)) ∧
      (∀ p : Product, p ∈ rows ↔ p ∈ db.products ∧ ProductMatches T category search p) ∧
      rows.Pairwise (fun a b => T.le a.name b.name = true)) ∧
    listProducts plainCollation none catalogDb (some "Office") (some "enc")
      = ⟨200, true, some [⟨3, "Pencil", "PCL-001", JsValue.string "1.00", none, some "Office"⟩],
          some 1, none, none, none, none⟩ := by
  refine ⟨rfl, rfl, rfl, ⟨selectProducts T db category search, rfl, rfl, ?_, ?_, ?_⟩, by decide⟩
  · exact List.perm_insertionSort _ _
  · intro p
    rw [selectProducts, List.mem_insertionSort, List.mem_filter, keepProduct_iff]
  · haveI : IsTotal Product (fun a b => T.le a.name b.name = true) :=
      ⟨fun a b => T.le_total a.name b.name⟩
    haveI : IsTrans Product (fun a b => T.le a.name b.name = true) :=
      ⟨fun a b c hab hbc => T.le_trans a.name b.name c.name hab hbc⟩
    exact List.sorted_insertionSort _ _


/-! ## Rows addressed by their id -/

theorem execute_ok {α : Type} {fault : Option StorageError} {result : Except StorageError α}
    {x : α} (h : execute fault result = Except.ok x) : fault = none ∧ result = Except.ok x := by
  cases fault with
  | none => exact ⟨rfl, h⟩
  | some e => simp [execute] at h

theorem updateWhere_count {Row : Type} (keep : Row → Bool) (set : Row → Except StorageError Row) :
    ∀ (rows rows' : List Row) (n : Nat), updateWhere keep set rows = Except.ok (rows', n) →
      n = (rows.filter keep).length := by
  intro rows
  induction rows with
  | nil =>
    intro rows' n h
    simp only [updateWhere, Except.ok.injEq, Prod.mk.injEq] at h
    simp [← h.2]
  | cons row rest ih =>
    intro rows' n h
    by_cases hk : keep row = true
    · cases hs : set row with
      | error e => simp [updateWhere, hk, hs] at h
      | ok row' =>
        cases hu : updateWhere keep set rest with
        | error e => simp [updateWhere, hk, hs, hu] at h
        | ok x =>
          obtain ⟨rest', m⟩ := x
          simp only [updateWhere, hk, hs, hu, if_true, Except.ok.injEq, Prod.mk.injEq] at h
          have := ih rest' m hu
          simp [List.filter_cons, hk, ← h.2, this]
    · cases hu : updateWhere keep set rest with
      | error e => simp [updateWhere, hk, hu] at h
      | ok x =>
        obtain ⟨rest', m⟩ := x
        simp only [updateWhere, hk, hu, Bool.false_eq_true, if_false, Except.ok.injEq,
          Prod.mk.injEq] at h
        have := ih rest' m hu
        simp [List.filter_cons, hk, ← h.2, this]

theorem updateWhere_none {Row : Type} (keep : Row → Bool) (set : Row → Except StorageError Row) :
    ∀ rows : List Row, (rows.filter keep).length = 0 →
      updateWhere keep set rows = Except.ok (rows, 0) := by
  intro rows
  induction rows with
  | nil => intro _; rfl
  | cons row rest ih =>
    intro h
    by_cases hk : keep row = true
    · simp [List.filter_cons, hk] at h
    · simp only [List.filter_cons, hk] at h
      simp [updateWhere, hk, ih h]

theorem deleteWhere_none {Row : Type} (keep : Row → Bool) (rows : List Row)
    (h : (rows.filter keep).length = 0) : deleteWhere keep rows = (rows, 0) := by
  have hnil : rows.filter keep = [] := List.length_eq_zero.mp h
  have hall : ∀ row ∈ rows, (!keep row) = true := by
    intro row hrow
    cases hk : keep row with
    | false => rfl
    | true =>
      have : row ∈ rows.filter keep := List.mem_filter.mpr ⟨hrow, hk⟩
      rw [hnil] at this
      cases this
  simp only [deleteWhere, h, Prod.mk.injEq, and_true]
  exact List.filter_eq_self.mpr hall


theorem getProductById_404 (fault : Option StorageError) (db : Db) (id : String) :
    ((getProductByIdOn fault db id).status = 404 →
      (db.products.filter (fun r => matchesId id r.id)).length = 0 ∧
      (getProductByIdOn fault db id).success = false) ∧
    (fault = none → (db.products.filter (fun r => matchesId id r.id)).length = 0 →
      (getProductByIdOn fault db id).status = 404 ∧
      (getProductByIdOn fault db id).success = false) := by
  constructor
  · intro h
    cases fault with
    | some e => simp [getProductByIdOn, execute, getProductById, errorResponse] at h
    | none =>
      cases hr : db.products.filter (fun r => matchesId id r.id) with
      | nil => simp [getProductByIdOn, execute, getProductById, hr, errorResponse]
      | cons row rest => simp [getProductByIdOn, execute, getProductById, hr, dataResponse] at h
  · intro hf hm
    subst hf
    have hr := List.length_eq_zero.mp hm
    simp [getProductByIdOn, execute, getProductById, hr, errorResponse]

theorem updateProduct_404 (C : CatalogEngine) (fault : Option StorageError) (db : Db)
    (id : String) (body : ProductBody) :
    ((updateProductOn C fault db id body).2.status = 404 →
      (db.products.filter (fun r => matchesId id r.id)).length = 0 ∧
      (updateProductOn C fault db id body).2.success = false ∧
      (updateProductOn C fault db id body).1 = db) ∧
    (fault = none → (db.products.filter (fun r => matchesId id r.id)).length = 0 →
      (updateProductOn C fault db id body).2.status = 404 ∧
      (updateProductOn C fault db id body).2.success = false ∧
      (updateProductOn C fault db id body).1 = db) := by
  have key : (db.products.filter (fun r => matchesId id r.id)).length = 0 → fault = none →
      updateProductOn C fault db id body = (db, errorResponse 404 "Product not found") := by
    intro h0 hf
    subst hf
    simp [updateProductOn, execute, updateWhere_none _ _ _ h0, updateProduct, errorResponse]
  constructor
  · intro h
    cases hx : execute fault (updateWhere (fun r => matchesId id r.id)
        (setProduct C body.name body.description body.sku (parseFloat body.price)
          body.category) db.products) with
    | error e => simp [updateProductOn, hx, updateProduct, errorResponse] at h
    | ok x =>
      obtain ⟨rows, n⟩ := x
      obtain ⟨hf, hu⟩ := execute_ok hx
      have hn := updateWhere_count _ _ _ _ _ hu
      have h0 : n = 0 := by
        by_contra hne
        simp [updateProductOn, hx, updateProduct, hne, savedResponse] at h
      have hm : (db.products.filter (fun r => matchesId id r.id)).length = 0 := by
        rw [← hn, h0]
      rw [key hm hf]
      exact ⟨hm, rfl, rfl⟩
  · intro hf hm
    rw [key hm hf]
    exact ⟨rfl, rfl, rfl⟩

theorem deleteProduct_404 (fault : Option StorageError) (db : Db) (id : String) :
    ((deleteProductOn fault db id).2.status = 404 →
      (db.products.filter (fun r => matchesId id r.id)).length = 0 ∧
      (deleteProductOn fault db id).2.success = false ∧
      (deleteProductOn fault db id).1 = db) ∧
    (fault = none → (db.products.filter (fun r => matchesId id r.id)).length = 0 →
      (deleteProductOn fault db id).2.status = 404 ∧
      (deleteProductOn fault db id).2.success = false ∧
      (deleteProductOn fault db id).1 = db) := by
  have key : (db.products.filter (fun r => matchesId id r.id)).length = 0 → fault = none →
      deleteProductOn fault db id = (db, errorResponse 404 "Product not found") := by
    intro h0 hf
    subst hf
    simp [deleteProductOn, execute, deleteWhere_none _ _ h0, deleteProduct, errorResponse]
  constructor
  · intro h
    cases fault with
    | some e => simp [deleteProductOn, execute, deleteProduct, errorResponse] at h
    | none =>
      have hm : (db.products.filter (fun r => matchesId id r.id)).length = 0 := by
        by_contra hne
        simp [deleteProductOn, execute, deleteWhere, deleteProduct, hne, messageResponse] at h
      rw [key hm rfl]
      exact ⟨hm, rfl, rfl⟩
  · intro hf hm
    rw [key hm hf]
    exact ⟨rfl, rfl, rfl⟩

theorem getSupplierById_404 (fault : Option StorageError) (db : SupplierDb) (id : String) :
    ((getSupplierByIdOn fault db id).status = 404 →
      (db.suppliers.filter (fun r => matchesId id r.id)).length = 0 ∧
      (getSupplierByIdOn fault db id).success = false) ∧
    (fault = none → (db.suppliers.filter (fun r => matchesId id r.id)).length = 0 →
      (getSupplierByIdOn fault db id).status = 404 ∧
      (getSupplierByIdOn fault db id).success = false) := by
  constructor
  · intro h
    cases fault with
    | some e => simp [getSupplierByIdOn, execute, getSupplierById, errorResponse] at h
    | none =>
      cases hr : db.suppliers.filter (fun r => matchesId id r.id) with
      | nil => simp [getSupplierByIdOn, execute, getSupplierById, hr, errorResponse]
      | cons row rest => simp [getSupplierByIdOn, execute, getSupplierById, hr, dataResponse] at h
  · intro hf hm
    subst hf
    have hr := List.length_eq_zero.mp hm
    simp [getSupplierByIdOn, execute, getSupplierById, hr, errorResponse]

theorem updateSupplier_404 (S : SupplierEngine) (fault : Option StorageError)
    (db : SupplierDb) (id : String) (body : SupplierBody) :
    ((updateSupplierOn S fault db id body).2.status = 404 →
      (db.suppliers.filter (fun r => matchesId id r.id)).length = 0 ∧
      (updateSupplierOn S fault db id body).2.success = false ∧
      (updateSupplierOn S fault db id body).1 = db) ∧
    (fault = none → (db.suppliers.filter (fun r => matchesId id r.id)).length = 0 →
      (updateSupplierOn S fault db id body).2.status = 404 ∧
      (updateSupplierOn S fault db id body).2.success = false ∧
      (updateSupplierOn S fault db id body).1 = db) := by
  have key : (db.suppliers.filter (fun r => matchesId id r.id)).length = 0 → fault = none →
      updateSupplierOn S fault db id body = (db, errorResponse 404 "Supplier not found") := by
    intro h0 hf
    subst hf
    simp [updateSupplierOn, execute, updateWhere_none _ _ _ h0, updateSupplier, errorResponse]
  constructor
  · intro h
    cases hx : execute fault (updateWhere (fun r => matchesId id r.id) (setSupplier S body)
        db.suppliers) with
    | error e => simp [updateSupplierOn, hx, updateSupplier, errorResponse] at h
    | ok x =>
      obtain ⟨rows, n⟩ := x
      obtain ⟨hf, hu⟩ := execute_ok hx
      have hn := updateWhere_count _ _ _ _ _ hu
      have h0 : n = 0 := by
        by_contra hne
        simp [updateSupplierOn, hx, updateSupplier, hne, savedResponse] at h
      have hm : (db.suppliers.filter (fun r => matchesId id r.id)).length = 0 := by
        rw [← hn, h0]
      rw [key hm hf]
      exact ⟨hm, rfl, rfl⟩
  · intro hf hm
    rw [key hm hf]
    exact ⟨rfl, rfl, rfl⟩

theorem deleteSupplier_404 (fault : Option StorageError) (db : SupplierDb) (id : String) :
    ((deleteSupplierOn fault db id).2.status = 404 →
      (db.suppliers.filter (fun r => matchesId id r.id)).length = 0 ∧
      (deleteSupplierOn fault db id).2.success = false ∧
      (deleteSupplierOn fault db id).1 = db) ∧
    (fault = none → (db.suppliers.filter (fun r => matchesId id r.id)).length = 0 →
      (deleteSupplierOn fault db id).2.status = 404 ∧
      (deleteSupplierOn fault db id).2.success = false ∧
      (deleteSupplierOn fault db id).1 = db) := by
  have key : (db.suppliers.filter (fun r => matchesId id r.id)).length = 0 → fault = none →
      deleteSupplierOn fault db id = (db, errorResponse 404 "Supplier not found") := by
    intro h0 hf
    subst hf
    simp [deleteSupplierOn, execute, deleteWhere_none _ _ h0, deleteSupplier, errorResponse]
  constructor
  · intro h
    cases fault with
    | some e => simp [deleteSupplierOn, execute, deleteSupplier, errorResponse] at h
    | none =>
      have hm : (db.suppliers.filter (fun r => matchesId id r.id)).length = 0 := by
        by_contra hne
        simp [deleteSupplierOn, execute, deleteWhere, deleteSupplier, hne, messageResponse] at h
      rw [key hm rfl]
      exact ⟨hm, rfl, rfl⟩
  · intro hf hm
    rw [key hm hf]
    exact ⟨rfl, rfl, rfl⟩

theorem disassociateProduct_404 (fault : Option StorageError) (db : SupplierDb)
    (supplierId productId : String) :
    ((disassociateProductOn fault db supplierId productId).2.status = 404 →
      (db.product_suppliers.filter (fun r =>
          matchesId supplierId r.supplier_id && matchesId productId r.product_id)).length = 0 ∧
      (disassociateProductOn fault db supplierId productId).2.success = false ∧
      (disassociateProductOn fault db supplierId productId).1 = db) ∧
    (fault = none → (db.product_suppliers.filter (fun r =>
          matchesId supplierId r.supplier_id && matchesId productId r.product_id)).length = 0 →
      (disassociateProductOn fault db supplierId productId).2.status = 404 ∧
      (disassociateProductOn fault db supplierId productId).2.success = false ∧
      (disassociateProductOn fault db supplierId productId).1 = db) := by
  have key : (db.product_suppliers.filter (fun r =>
          matchesId supplierId r.supplier_id && matchesId productId r.product_id)).length = 0 →
      fault = none →
      disassociateProductOn fault db supplierId productId
        = (db, errorResponse 404 "Association not found") := by
    intro h0 hf
    subst hf
    simp [disassociateProductOn, execute, deleteWhere_none _ _ h0, disassociateProduct,
      errorResponse]
  constructor
  · intro h
    cases fault with
    | some e => simp [disassociateProductOn, execute, disassociateProduct, errorResponse] at h
    | none =>
      have hm : (db.product_suppliers.filter (fun r =>
          matchesId supplierId r.supplier_id && matchesId productId r.product_id)).length = 0 := by
        by_contra hne
        simp [disassociateProductOn, execute, deleteWhere, disassociateProduct, hne,
          messageResponse] at h
      rw [key hm rfl]
      exact ⟨hm, rfl, rfl⟩
  · intro hf hm
    rw [key hm hf]
    exact ⟨rfl, rfl, rfl⟩

theorem getStockByProduct_404 (fault : Option String) (db : Db) (productId : String) :
    ((getStockByProduct fault db productId).status = 404 →
      (joinStock db (matchesProduct (JsValue.string productId)) (fun s p => (s, p))).length = 0 ∧
      (getStockByProduct fault db productId).success = false) ∧
    (fault = none →
      (joinStock db (matchesProduct (JsValue.string productId)) (fun s p => (s, p))).length = 0 →
      (getStockByProduct fault db productId).status = 404 ∧
      (getStockByProduct fault db productId).success = false) := by
  have hlen : ∀ {α β : Type} (f : StockRecord → Product → α) (g : StockRecord → Product → β),
      (joinStock db (matchesProduct (JsValue.string productId)) f).length
        = (joinStock db (matchesProduct (JsValue.string productId)) g).length := by
    intro α β f g
    simp [joinStock, List.length_flatMap, Function.comp_def]
  constructor
  · intro h
    cases fault with
    | some e => simp [getStockByProduct, errorResponse] at h
    | none =>
      cases hr : joinStock db (matchesProduct (JsValue.string productId)) (fun s p =>
          ({ product_id := s.product_id, quantity := s.quantity, min_stock := s.min_stock,
             max_stock := s.max_stock, product_name := p.name, sku := p.sku,
             price := JsValue.undefined, status := statusOfProduct s } : StockRow)) with
      | nil =>
        refine ⟨?_, by simp [getStockByProduct, hr, errorResponse]⟩
        rw [hlen _ (fun s p =>
          ({ product_id := s.product_id, quantity := s.quantity, min_stock := s.min_stock,
             max_stock := s.max_stock, product_name := p.name, sku := p.sku,
             price := JsValue.undefined, status := statusOfProduct s } : StockRow)), hr]
        rfl
      | cons row rest => simp [getStockByProduct, hr] at h
  · intro hf hm
    subst hf
    rw [hlen _ (fun s p =>
      ({ product_id := s.product_id, quantity := s.quantity, min_stock := s.min_stock,
         max_stock := s.max_stock, product_name := p.name, sku := p.sku,
         price := JsValue.undefined, status := statusOfProduct s } : StockRow))] at hm
    have hr := List.length_eq_zero.mp hm
    simp [getStockByProduct, hr, errorResponse]

/-- C23: for `GET`, `PUT` and `DELETE` on `/api/products/:id` and
`/api/suppliers/:id`, `GET /api/stock/product/:productId` and `DELETE
/api/suppliers/:supplierId/products/:productId`: a response 404 is sent only
when no row matches the id or ids, it has `success: false`, and the database is
then as it was; and when the statement does not throw, a request whose ids match
no row is answered 404. -/
theorem unknown_id_not_found (C : CatalogEngine) (S : SupplierEngine)
    (fault : Option StorageError) (d : Database) (req : IdRequest) :
    ((req.run C S fault d).2.status = 404 →
      req.matched d = 0 ∧ (req.run C S fault d).2.success = false ∧
      (req.run C S fault d).1 = d) ∧
    (fault = none → req.matched d = 0 →
      (req.run C S fault d).2.status = 404 ∧ (req.run C S fault d).2.success = false ∧
      (req.run C S fault d).1 = d) := by
  cases req with
  | getProduct id =>
    have h := getProductById_404 fault d.inventory id
    exact ⟨fun h4 => ⟨(h.1 h4).1, (h.1 h4).2, rfl⟩,
      fun hf hm => ⟨(h.2 hf hm).1, (h.2 hf hm).2, rfl⟩⟩
  | putProduct id body =>
    have h := updateProduct_404 C fault d.inventory id body
    refine ⟨fun h4 => ⟨(h.1 h4).1, (h.1 h4).2.1, ?_⟩,
      fun hf hm => ⟨(h.2 hf hm).1, (h.2 hf hm).2.1, ?_⟩⟩
    · show ({ d with inventory := (updateProductOn C fault d.inventory id body).1 } : Database) = d
      rw [(h.1 h4).2.2]
    · show ({ d with inventory := (updateProductOn C fault d.inventory id body).1 } : Database) = d
      rw [(h.2 hf hm).2.2]
  | deleteProduct id =>
    have h := deleteProduct_404 fault d.inventory id
    refine ⟨fun h4 => ⟨(h.1 h4).1, (h.1 h4).2.1, ?_⟩,
      fun hf hm => ⟨(h.2 hf hm).1, (h.2 hf hm).2.1, ?_⟩⟩
    · show ({ d with inventory := (deleteProductOn fault d.inventory id).1 } : Database) = d
      rw [(h.1 h4).2.2]
    · show ({ d with inventory := (deleteProductOn fault d.inventory id).1 } : Database) = d
      rw [(h.2 hf hm).2.2]
  | getSupplier id =>
    have h := getSupplierById_404 fault d.supply id
    exact ⟨fun h4 => ⟨(h.1 h4).1, (h.1 h4).2, rfl⟩,
      fun hf hm => ⟨(h.2 hf hm).1, (h.2 hf hm).2, rfl⟩⟩
  | putSupplier id body =>
    have h := updateSupplier_404 S fault d.supply id body
    refine ⟨fun h4 => ⟨(h.1 h4).1, (h.1 h4).2.1, ?_⟩,
      fun hf hm => ⟨(h.2 hf hm).1, (h.2 hf hm).2.1, ?_⟩⟩
    · show ({ d with supply := (updateSupplierOn S fault d.supply id body).1 } : Database) = d
      rw [(h.1 h4).2.2]
    · show ({ d with supply := (updateSupplierOn S fault d.supply id body).1 } : Database) = d
      rw [(h.2 hf hm).2.2]
  | deleteSupplier id =>
    have h := deleteSupplier_404 fault d.supply id
    refine ⟨fun h4 => ⟨(h.1 h4).1, (h.1 h4).2.1, ?_⟩,
      fun hf hm => ⟨(h.2 hf hm).1, (h.2 hf hm).2.1, ?_⟩⟩
    · show ({ d with supply := (deleteSupplierOn fault d.supply id).1 } : Database) = d
      rw [(h.1 h4).2.2]
    · show ({ d with supply := (deleteSupplierOn fault d.supply id).1 } : Database) = d
      rw [(h.2 hf hm).2.2]
  | getStockByProduct productId =>
    have h := getStockByProduct_404 (fault.map (fun e => e.message)) d.inventory productId
    refine ⟨fun h4 => ⟨(h.1 h4).1, (h.1 h4).2, rfl⟩, fun hf hm => ?_⟩
    have hf' : fault.map (fun e => e.message) = none := by rw [hf]; rfl
    exact ⟨(h.2 hf' hm).1, (h.2 hf' hm).2, rfl⟩
  | disassociateProduct supplierId productId =>
    have h := disassociateProduct_404 fault d.supply supplierId productId
    refine ⟨fun h4 => ⟨(h.1 h4).1, (h.1 h4).2.1, ?_⟩,
      fun hf hm => ⟨(h.2 hf hm).1, (h.2 hf hm).2.1, ?_⟩⟩
    · show ({ d with supply := (disassociateProductOn fault d.supply supplierId productId).1 }
        : Database) = d
      rw [(h.1 h4).2.2]
    · show ({ d with supply := (disassociateProductOn fault d.supply supplierId productId).1 }
        : Database) = d
      rw [(h.2 hf hm).2.2]

/-- Product 7 is not in the example: a `PUT` and a `DELETE` on it are answered
404 and change nothing, while product 1 is deleted with a 200. -/
theorem unknown_id_not_found_witness :
    (IdRequest.putProduct "7" (penBody (JsValue.ofInt 3))).matched sampleDatabase = 0 ∧
    ((IdRequest.putProduct "7" (penBody (JsValue.ofInt 3))).run referenceCatalog
        referenceSuppliers none sampleDatabase).2.status = 404 ∧
    ((IdRequest.putProduct "7" (penBody (JsValue.ofInt 3))).run referenceCatalog
        referenceSuppliers none sampleDatabase).2.success = false ∧
    ((IdRequest.putProduct "7" (penBody (JsValue.ofInt 3))).run referenceCatalog
        referenceSuppliers none sampleDatabase).1 = sampleDatabase ∧
    ((IdRequest.deleteProduct "1").run referenceCatalog referenceSuppliers none
        sampleDatabase).2.status = 200 ∧
    ((IdRequest.deleteProduct "1").run referenceCatalog referenceSuppliers none
        sampleDatabase).1.inventory.products = [] :=
  ⟨by decide,
    ((unknown_id_not_found referenceCatalog referenceSuppliers none sampleDatabase
      (IdRequest.putProduct "7" (penBody (JsValue.ofInt 3)))).2 rfl (by decide)).1,
    ((unknown_id_not_found referenceCatalog referenceSuppliers none sampleDatabase
      (IdRequest.putProduct "7" (penBody (JsValue.ofInt 3)))).2 rfl (by decide)).2.1,
    ((unknown_id_not_found referenceCatalog referenceSuppliers none sampleDatabase
      (IdRequest.putProduct "7" (penBody (JsValue.ofInt 3)))).2 rfl (by decide)).2.2,
    by decide, by decide⟩


/-! ## The recorded quantity and the change of the stock -/

/-- On a strict engine an accepted movement whose product and quantity are
integers records the amount by which the stock changed: the new quantity is the
previous one plus the recorded quantity for a stock-in, minus it for a
stock-out. -/
theorem integral_movement_delta {E : Engine} (hE : E.Strict) (f : Faults) (db : Db)
    (r : MovementRequest) (hr : r.IsIntegral) (h200 : (serve E f db r).response.status = 200) :
    ∃ rec : MovementRecord,
      (serve E f db r).db.stock_movements = db.stock_movements ++ [rec] ∧
      rec.movement_type = r.direction ∧
      rec.new_quantity - rec.previous_quantity
        = (match r.direction with
          | MovementType.IN => rec.quantity
          | MovementType.OUT => -rec.quantity) := by
  obtain ⟨p, q, hp, hq⟩ := hr
  cases r with
  | stockIn body =>
    simp only [MovementRequest.body] at hp hq
    rcases stockIn_cases E f db body with h | ⟨_, prev, rest, p', qi, rs, pv, nw, _, _, hqi, _,
      hpv, hnw, _, hdb⟩
    · exact absurd h200 h.1
    · rw [hq] at hqi hnw
      have hqe := (hE.1 _ _ hqi).2.lt_exponent
      simp only [parseInt_ofInt hqe, add_ofInt_eq] at hnw
      have h1 := intColumn_strict hE hqi
      have h2 := intColumn_strict hE hpv
      have h3 := ofSum_stored hE hnw
      refine ⟨⟨p', MovementType.IN, qi, rs, pv, nw⟩, ?_, rfl, ?_⟩
      · show (stockIn E f db body).db.stock_movements = _
        rw [hdb]
        rfl
      · simp only [MovementRequest.direction]
        omega
  | stockOut body =>
    simp only [MovementRequest.body] at hp hq
    rcases stockOut_cases E f db body with h | ⟨_, prev, rest, p', qi, rs, pv, nw, _, _, hqi, _,
      hpv, hnw, _, hdb⟩
    · exact absurd h200 h.1
    · rw [hq] at hqi hnw
      have hqe := (hE.1 _ _ hqi).2.lt_exponent
      simp only [parseInt_ofInt hqe, sub_ofInt_eq] at hnw
      have h1 := intColumn_strict hE hqi
      have h2 := intColumn_strict hE hpv
      have h3 := ofSum_stored hE hnw
      refine ⟨⟨p', MovementType.OUT, qi, rs, pv, nw⟩, ?_, rfl, ?_⟩
      · show (stockOut E f db body).db.stock_movements = _
        rw [hdb]
        rfl
      · simp only [MovementRequest.direction]
        omega

/-- C24 fails on the code for a quantity that is not an integer.  A stock-in of
2.5 units on a stock of 10 is accepted and moves the stock by `parseInt(2.5)`,
that is 2, to 12, while the `quantity` column of the record receives 2.5
itself: on every engine the record is (previous 10, new 12) with the quantity
the engine makes of 2.5, which is 3 on an integer column that rounds; a
stock-out of 2.5 records 3 likewise and moves the stock by 2. -/
theorem recorded_quantity_not_the_change :
    (∀ (E : Engine) (v : Int), E.Faithful →
      E.intColumn (JsValue.number (JsNumber.fin 25 1)) = Except.ok v →
      (stockIn E Faults.none (sampleDb 10)
        ⟨JsValue.ofInt 1, JsValue.number (JsNumber.fin 25 1), JsValue.undefined⟩).response.status
        = 200 ∧
      (stockIn E Faults.none (sampleDb 10)
        ⟨JsValue.ofInt 1, JsValue.number (JsNumber.fin 25 1),
          JsValue.undefined⟩).db.stock_movements
        = [⟨1, MovementType.IN, v, "Stock entry", 10, 12⟩]) ∧
    (stockIn referenceEngine Faults.none (sampleDb 10)
        ⟨JsValue.ofInt 1, JsValue.number (JsNumber.fin 25 1), JsValue.undefined⟩).response.status
      = 200 ∧
    (stockIn referenceEngine Faults.none (sampleDb 10)
        ⟨JsValue.ofInt 1, JsValue.number (JsNumber.fin 25 1),
          JsValue.undefined⟩).db.stock_movements
      = [⟨1, MovementType.IN, 3, "Stock entry", 10, 12⟩] ∧
    (stockOut referenceEngine Faults.none (sampleDb 10)
        ⟨JsValue.ofInt 1, JsValue.number (JsNumber.fin 25 1), JsValue.undefined⟩).response.status
      = 200 ∧
    (stockOut referenceEngine Faults.none (sampleDb 10)
        ⟨JsValue.ofInt 1, JsValue.number (JsNumber.fin 25 1),
          JsValue.undefined⟩).db.stock_movements
      = [⟨1, MovementType.OUT, 3, "Stock exit", 10, 8⟩] := by
  refine ⟨?_, by decide, by decide, by decide, by decide⟩
  intro E v hE hv
  have hsel : selectQuantity (sampleDb 10) (JsValue.ofInt 1) = [10] := by decide
  have hg : (!(JsValue.ofInt 1).truthy || !(JsValue.number (JsNumber.fin 25 1)).truthy
      || (JsValue.number (JsNumber.fin 25 1)).toNumber.leZero) = false := by decide
  have hparse : parseInt (JsValue.number (JsNumber.fin 25 1)) = JsNumber.ofInt 2 := by decide
  have hreason := textColumn_reason hE (Or.inl rfl : JsValue.undefined.IsOptionalString)
    "Stock entry"
  constructor
  · simp [stockIn, Faults.none, hg, attempt, hsel, hparse, add_ofInt 10 2 (by decide),
      updateQuantity, insertMovement, number_ofInt, hE.1, hv, hreason, storedReason]
  · have hrun : (stockIn E Faults.none (sampleDb 10)
        ⟨JsValue.ofInt 1, JsValue.number (JsNumber.fin 25 1), JsValue.undefined⟩).db
        = applyMovement (sampleDb 10) (JsValue.ofInt 1) 12
            ⟨1, MovementType.IN, v, "Stock entry", 10, 12⟩ := by
      simp [stockIn, Faults.none, hg, attempt, hsel, hparse, add_ofInt 10 2 (by decide),
        updateQuantity, insertMovement, number_ofInt, hE.1, hv, hreason, storedReason,
        applyMovement]
    rw [hrun]
    rfl


/-! ## The low-stock alerts -/

theorem statusOfList_low (s : StockRecord) :
    statusOfList s = StockStatus.LOW ↔ s.quantity ≤ s.min_stock := by
  unfold statusOfList
  split
  · simp [*]
  · split <;> simp [*]

/-- The rows of the stock listing that are `LOW`, without their status, are the
rows of the alerts before sorting. -/
theorem low_rows_of_join (products : List Product) (stock : List StockRecord) :
    ((stock.flatMap (fun s =>
        (products.filter (fun p => decide (s.product_id = p.id))).map (fun p =>
          ({ product_id := s.product_id, quantity := s.quantity, min_stock := s.min_stock,
             max_stock := s.max_stock, product_name := p.name, sku := p.sku, price := p.price,
             status := statusOfList s } : StockRow)))).filter
        (fun r => decide (r.status = StockStatus.LOW))).map StockRow.alert
      = (stock.filter (fun s => decide (s.quantity ≤ s.min_stock))).flatMap (fun s =>
          (products.filter (fun p => decide (s.product_id = p.id))).map (fun p =>
            ({ product_id := s.product_id, quantity := s.quantity, min_stock := s.min_stock,
               max_stock := s.max_stock, product_name := p.name, sku := p.sku,
               price := p.price } : AlertRow))) := by
  induction stock with
  | nil => rfl
  | cons s rest ih =>
    rw [List.flatMap_cons, List.filter_append, List.map_append, ih]
    by_cases hlow : s.quantity ≤ s.min_stock
    · have hst : statusOfList s = StockStatus.LOW := (statusOfList_low s).mpr hlow
      rw [List.filter_cons_of_pos (by simpa using hlow), List.flatMap_cons]
      congr 1
      rw [List.filter_eq_self.mpr]
      · simp [List.map_map, StockRow.alert, Function.comp_def]
      · intro r hr
        obtain ⟨p, _, rfl⟩ := List.mem_map.mp hr
        simpa using hst
    · have hst : statusOfList s ≠ StockStatus.LOW := fun h => hlow ((statusOfList_low s).mp h)
      rw [List.filter_cons_of_neg (by simpa using hlow)]
      rw [List.filter_eq_nil_iff.mpr]
      · rfl
      · intro r hr
        obtain ⟨p, _, rfl⟩ := List.mem_map.mp hr
        simpa using hst

/-- C25: when the query does not fail, the low-stock alerts are answered 200
with the stock rows, joined with their product, whose quantity is at most
min_stock, in non-decreasing order of quantity, and `count` is their number;
they are the rows `GET /api/stock` reports as `LOW`, each as often as it is
there.  The handler is a function of the store and writes nothing.  In the
example the pen and the lamp are listed, the pen first. -/
theorem low_stock_alerts (db : Db) :
    (getLowStockAlerts none db).status = 200 ∧
    (∃ (alerts : List AlertRow) (rows : List StockRow),
      (getLowStockAlerts none db).data = some alerts ∧
      (getLowStockAlerts none db).count = some alerts.length ∧
      (getStock none db).data = some rows ∧
      alerts.Pairwise (fun a b => a.quantity ≤ b.quantity) ∧
      (∀ a ∈ alerts, a.quantity ≤ a.min_stock) ∧
      (∀ s ∈ db.stock, ∀ p ∈ db.products, s.product_id = p.id → s.quantity ≤ s.min_stock →
        (⟨s.product_id, s.quantity, s.min_stock, s.max_stock, p.name, p.sku, p.price⟩ : AlertRow)
          ∈ alerts) ∧
      alerts.Perm
        ((rows.filter (fun r => decide (r.status = StockStatus.LOW))).map StockRow.alert)) ∧
    (getLowStockAlerts none alertsDb).data
      = some [⟨1, 2, 5, 100, "Pen", "PEN-001", JsValue.string "2.50"⟩,
              ⟨3, 5, 5, 100, "Lamp", "LMP-001", JsValue.string "30.00"⟩] := by
  refine ⟨rfl, ⟨_, _, rfl, rfl, rfl, ?_, ?_, ?_, ?_⟩, by decide⟩
  · haveI : IsTotal AlertRow (fun a b => a.quantity ≤ b.quantity) :=
      ⟨fun a b => le_total a.quantity b.quantity⟩
    haveI : IsTrans AlertRow (fun a b => a.quantity ≤ b.quantity) :=
      ⟨fun a b c hab hbc => le_trans hab hbc⟩
    exact List.sorted_insertionSort _ _
  · intro a ha
    rw [List.mem_insertionSort, mem_joinStock] at ha
    obtain ⟨s, _, hk, p, _, _, rfl⟩ := ha
    simpa using hk
  · intro s hs p hp hsp hlow
    rw [List.mem_insertionSort, mem_joinStock]
    exact ⟨s, hs, by simpa using hlow, p, hp, hsp, rfl⟩
  · refine (List.perm_insertionSort _ _).trans ?_
    have hjoin := low_rows_of_join db.products db.stock
    have hperm : (List.insertionSort (fun a b : StockRow => a.product_name ≤ b.product_name)
        (joinStock db (fun _ => true) (fun s p =>
          ({ product_id := s.product_id, quantity := s.quantity, min_stock := s.min_stock,
             max_stock := s.max_stock, product_name := p.name, sku := p.sku, price := p.price,
             status := statusOfList s } : StockRow)))).Perm
        (joinStock db (fun _ => true) (fun s p =>
          ({ product_id := s.product_id, quantity := s.quantity, min_stock := s.min_stock,
             max_stock := s.max_stock, product_name := p.name, sku := p.sku, price := p.price,
             status := statusOfList s } : StockRow))) := List.perm_insertionSort _ _
    have h2 := ((hperm.filter (fun r => decide (r.status = StockStatus.LOW))).map
      StockRow.alert).symm
    refine List.Perm.trans ?_ h2
    simp only [joinStock, List.filter_true]
    rw [hjoin]


/-! ## The frame of a movement -/

/-- C26: a stock-in or stock-out answered 200 leaves the rows of `products`,
`suppliers` and `product_suppliers` as they were; the table `stock` keeps its
rows in their places, each with its product_id, min_stock and max_stock, and a
row of another product than the one of the request is unchanged altogether. -/
theorem movement_frame (E : Engine) (f : Faults) (d : Database) (r : MovementRequest)
    (h200 : (serveOn E f d r).2.status = 200) :
    (serveOn E f d r).1.supply = d.supply ∧
    (serveOn E f d r).1.inventory.products = d.inventory.products ∧
    List.Forall₂
      (fun before after : StockRecord =>
        after.product_id = before.product_id ∧ after.min_stock = before.min_stock ∧
        after.max_stock = before.max_stock ∧
        (matchesProduct r.body.product_id before = false → after = before) ∧
        (∀ p : Int, r.body.product_id = JsValue.ofInt p → before.product_id ≠ p →
          after = before))
      d.inventory.stock (serveOn E f d r).1.inventory.stock := by
  have hacc : ∃ (nw : Int) (rec : MovementRecord),
      (serve E f d.inventory r).db = applyMovement d.inventory r.body.product_id nw rec := by
    rcases serve_cases E f d.inventory r with h | ⟨_, _, _, _, _, _, _, _, nw, _, _, _, _, _, _,
      _, hdb⟩
    · exact absurd h200 h.1
    · exact ⟨nw, _, hdb⟩
  obtain ⟨nw, rec, hdb⟩ := hacc
  refine ⟨rfl, ?_, ?_⟩
  · show (serve E f d.inventory r).db.products = _
    rw [hdb]
    rfl
  · show List.Forall₂ _ _ (serve E f d.inventory r).db.stock
    rw [hdb]
    simp only [applyMovement]
    rw [List.forall₂_map_right_iff]
    refine List.forall₂_same.mpr ?_
    intro s _
    by_cases hm : matchesProduct r.body.product_id s = true
    · refine ⟨by simp [hm], by simp [hm], by simp [hm], by simp [hm], ?_⟩
      intro p hp hne
      rw [hp, matchesProduct_ofInt] at hm
      exact absurd (of_decide_eq_true hm).symm hne
    · simp [hm]

/-- A stock-in of 5 units of product 1 in the example: the stock row goes from
10 to 15 with its thresholds, and nothing else changes. -/
theorem movement_frame_witness :
    (serveOn referenceEngine Faults.none sampleDatabase
      (MovementRequest.stockIn ⟨JsValue.ofInt 1, JsValue.ofInt 5, JsValue.undefined⟩)).2.status
      = 200 ∧
    (serveOn referenceEngine Faults.none sampleDatabase
      (MovementRequest.stockIn ⟨JsValue.ofInt 1, JsValue.ofInt 5,
        JsValue.undefined⟩)).1.inventory.stock = [⟨1, 15, 5, 100⟩] ∧
    (serveOn referenceEngine Faults.none sampleDatabase
      (MovementRequest.stockIn ⟨JsValue.ofInt 1, JsValue.ofInt 5,
        JsValue.undefined⟩)).1.supply = sampleDatabase.supply ∧
    (serveOn referenceEngine Faults.none sampleDatabase
      (MovementRequest.stockIn ⟨JsValue.ofInt 1, JsValue.ofInt 5,
        JsValue.undefined⟩)).1.inventory.products = sampleDatabase.inventory.products :=
  ⟨by decide, by decide,
    (movement_frame referenceEngine Faults.none sampleDatabase
      (MovementRequest.stockIn ⟨JsValue.ofInt 1, JsValue.ofInt 5, JsValue.undefined⟩)
      (by decide)).1,
    (movement_frame referenceEngine Faults.none sampleDatabase
      (MovementRequest.stockIn ⟨JsValue.ofInt 1, JsValue.ofInt 5, JsValue.undefined⟩)
      (by decide)).2.1⟩


/-! ## The chain of a product's records -/

theorem chained_append (rec : MovementRecord) :
    ∀ (ms : List MovementRecord) (start : Int), Chained start ms rec.previous_quantity →
      Chained start (ms ++ [rec]) rec.new_quantity := by
  intro ms
  induction ms with
  | nil =>
    intro start h
    simp only [Chained] at h
    exact ⟨h.symm, rfl⟩
  | cons m rest ih =>
    intro start h
    exact ⟨h.1, ih _ h.2⟩

/-- One request keeps the chain of every product. -/
theorem serve_chain {E : Engine} (hE : E.Faithful) (f : Faults) {db : Db} {p start : Int}
    (hinv : ChainInvariant db p start) {r : MovementRequest} (hr : r.NamesProduct) :
    ChainInvariant (serve E f db r).db p start := by
  obtain ⟨p0, hp0⟩ := hr
  rcases serve_cases E f db r with h | ⟨_, newQty, prev, rest, p', qi, rs, pv, nw, hsel, hp', _, _,
      hpv, _, _, hdb⟩
  · rw [h.2]
    exact hinv
  · rw [hp0] at hsel hp' hdb
    have h1 : p' = p0 := intColumn_inj hE hp'
    have h2 : pv = prev := intColumn_inj hE hpv
    subst h1 h2
    obtain ⟨s0, hs0, hm0, hq0⟩ := mem_selectQuantity hsel
    rw [matchesProduct_ofInt] at hm0
    have hs0p : s0.product_id = p' := (of_decide_eq_true hm0).symm
    rw [hdb]
    intro s hs hsp
    by_cases hpp : p' = p
    · subst hpp
      have hq := applyMovement_quantity hs hsp
      have hrec : recordsOf p' (applyMovement db (JsValue.ofInt p') nw
          ⟨p', r.direction, qi, rs, pv, nw⟩).stock_movements
          = recordsOf p' db.stock_movements ++ [⟨p', r.direction, qi, rs, pv, nw⟩] := by
        simp [recordsOf, applyMovement, List.filter_append]
      rw [hrec, hq]
      have hc := hinv s0 hs0 hs0p
      rw [hq0] at hc
      exact chained_append ⟨p', r.direction, qi, rs, pv, nw⟩ _ _ hc
    · have hrec : recordsOf p (applyMovement db (JsValue.ofInt p') nw
          ⟨p', r.direction, qi, rs, pv, nw⟩).stock_movements
          = recordsOf p db.stock_movements := by
        simp [recordsOf, applyMovement, List.filter_append, hpp]
      rw [hrec]
      simp only [applyMovement, List.mem_map] at hs
      obtain ⟨s1, hs1, hs1eq⟩ := hs
      by_cases hm : matchesProduct (JsValue.ofInt p') s1 = true
      · rw [if_pos hm] at hs1eq
        rw [matchesProduct_ofInt] at hm
        have : s1.product_id = p := by rw [← hsp, ← hs1eq]
        exact absurd ((of_decide_eq_true hm).trans this) hpp
      · rw [if_neg hm] at hs1eq
        rw [← hs1eq]
        exact hinv s1 hs1 (by rw [hs1eq]; exact hsp)

/-- C27: on an engine that stores integers as they are, requests served one
after another, each naming its product by an integer, keep the chain of every
product: if the records of product `p` were chained from `start` to the stored
quantity (as they are, from the stored quantity, when the product has no record
yet), they still are afterwards, whatever the requests and the storage failures.
So the first record has the quantity before it as previous_quantity, each later
one continues the one before, and the last new_quantity is the stored quantity.
-/
theorem ledger_chained (E : Engine) (hE : E.Faithful) (p start : Int)
    (reqs : List (Faults × MovementRequest)) (db : Db) (hinv : ChainInvariant db p start)
    (hreqs : ∀ x ∈ reqs, x.2.NamesProduct) :
    ChainInvariant (serveAll E db reqs) p start := by
  induction reqs generalizing db with
  | nil => exact hinv
  | cons x rest ih =>
    obtain ⟨f, r⟩ := x
    simp only [serveAll]
    exact ih _ (serve_chain hE f hinv (hreqs (f, r) (List.mem_cons_self _ _)))
      (fun y hy => hreqs y (List.mem_cons_of_mem _ hy))

/-- Product 1 at 10 units with no record: after a stock-in of 5 and a stock-out
of 3 the ledger holds (10, 15) then (15, 12) and the stock holds 12. -/
theorem ledger_chained_witness :
    ChainInvariant (sampleDb 10) 1 10 ∧
    (∀ x ∈ [restock 5, withdraw 3], x.2.NamesProduct) ∧
    ChainInvariant (serveAll referenceEngine (sampleDb 10) [restock 5, withdraw 3]) 1 10 ∧
    (serveAll referenceEngine (sampleDb 10) [restock 5, withdraw 3]).stock_movements
      = [⟨1, MovementType.IN, 5, "Stock entry", 10, 15⟩,
         ⟨1, MovementType.OUT, 3, "Stock exit", 15, 12⟩] ∧
    currentQuantity (serveAll referenceEngine (sampleDb 10) [restock 5, withdraw 3])
      (JsValue.ofInt 1) = some 12 :=
  ⟨by decide, by
      intro x hx
      simp only [List.mem_cons, List.mem_singleton, List.not_mem_nil, or_false] at hx
      rcases hx with rfl | rfl
      · exact ⟨1, rfl⟩
      · exact ⟨1, rfl⟩,
    ledger_chained referenceEngine referenceEngine_faithful 1 10 [restock 5, withdraw 3]
      (sampleDb 10) (by decide) (by
        intro x hx
        simp only [List.mem_cons, List.mem_singleton, List.not_mem_nil, or_false] at hx
        rcases hx with rfl | rfl
        · exact ⟨1, rfl⟩
        · exact ⟨1, rfl⟩),
    by decide, by decide⟩


/-! ## A stock-in followed by a stock-out of the same quantity -/

/-- C28: for a product with a stored quantity `c` that is not negative and a
positive integer `q` such that `c + q` is an integer JavaScript holds exactly
(of magnitude below `2 ^ 53`, so that `q` and `c` are too), with no storage
failure and on an engine whose columns hold the product id, `q`, `c`, `c + q`
and the two reasons as they are (these are in the range of the columns), a
stock-in of `q` is accepted, the stock-out of `q` that follows it is accepted
too, the stored quantity is `c` again, and the ledger has grown by exactly two
records: the IN from `c` to `c + q`, then the OUT from `c + q` to `c`. -/
theorem round_trip (E : Engine) (db : Db) (p c q : Int)
    (reasonIn reasonOut : JsValue) (hp : p ≠ 0)
    (hc : currentQuantity db (JsValue.ofInt p) = some c) (hc0 : 0 ≤ c) (hq : 0 < q)
    (hrIn : reasonIn.IsOptionalString) (hrOut : reasonOut.IsOptionalString)
    (hns : SafeInteger (c + q))
    (hEp : E.Stores p) (hEq : E.Stores q) (hEc : E.Stores c) (hEn : E.Stores (c + q))
    (hErIn : E.StoresText (storedReason "Stock entry" reasonIn))
    (hErOut : E.StoresText (storedReason "Stock exit" reasonOut)) :
    (stockIn E Faults.none db ⟨JsValue.ofInt p, JsValue.ofInt q, reasonIn⟩).response.status
      = 200 ∧
    (stockOut E Faults.none
      (stockIn E Faults.none db ⟨JsValue.ofInt p, JsValue.ofInt q, reasonIn⟩).db
      ⟨JsValue.ofInt p, JsValue.ofInt q, reasonOut⟩).response.status = 200 ∧
    currentQuantity (stockOut E Faults.none
      (stockIn E Faults.none db ⟨JsValue.ofInt p, JsValue.ofInt q, reasonIn⟩).db
      ⟨JsValue.ofInt p, JsValue.ofInt q, reasonOut⟩).db (JsValue.ofInt p) = some c ∧
    (stockOut E Faults.none
      (stockIn E Faults.none db ⟨JsValue.ofInt p, JsValue.ofInt q, reasonIn⟩).db
      ⟨JsValue.ofInt p, JsValue.ofInt q, reasonOut⟩).db.stock_movements
      = db.stock_movements ++
        [⟨p, MovementType.IN, q, storedReason "Stock entry" reasonIn, c, c + q⟩,
         ⟨p, MovementType.OUT, q, storedReason "Stock exit" reasonOut, c + q, c⟩] := by
  obtain ⟨rest, hsel⟩ := selectQuantity_of_current hc
  have hqe : q.natAbs < 10 ^ 21 := by
    have := hns.lt_exponent
    omega
  have hcq : c + q - q = c := by omega
  have hcs : SafeInteger (c + q - q) := by
    unfold SafeInteger at hns ⊢
    omega
  have h1 := stockIn_stores hp hq hqe hns hsel hrIn hEp hEq hEc hEn hErIn
  have hsel1 : selectQuantity (applyMovement db (JsValue.ofInt p) (c + q)
      ⟨p, MovementType.IN, q, storedReason "Stock entry" reasonIn, c, c + q⟩) (JsValue.ofInt p)
      = (c + q) :: rest.map (fun _ => c + q) := by
    rw [selectQuantity_applyMovement, hsel]
    rfl
  have hcur1 : currentQuantity (applyMovement db (JsValue.ofInt p) (c + q)
      ⟨p, MovementType.IN, q, storedReason "Stock entry" reasonIn, c, c + q⟩) (JsValue.ofInt p)
      = some (c + q) := by
    simp [currentQuantity, hsel1]
  have h2 := stockOut_stores hp hq hqe (by omega : q ≤ c + q) hcs hsel1 hrOut hEp hEq hEn
    (by rw [hcq]; exact hEc) hErOut
  rw [h1]
  simp only
  rw [h2]
  simp only [hcq]
  refine ⟨trivial, trivial, ?_, ?_⟩
  · exact currentQuantity_applyMovement hcur1 _ _
  · simp [applyMovement]

/-- Product 1 at 10 units: a stock-in of 5 and then a stock-out of 5 leave 10
units and the two records (10, 15) and (15, 10). -/
theorem round_trip_witness :
    currentQuantity (sampleDb 10) (JsValue.ofInt 1) = some 10 ∧
    currentQuantity (stockOut referenceEngine Faults.none
      (stockIn referenceEngine Faults.none (sampleDb 10)
        ⟨JsValue.ofInt 1, JsValue.ofInt 5, JsValue.undefined⟩).db
      ⟨JsValue.ofInt 1, JsValue.ofInt 5, JsValue.undefined⟩).db (JsValue.ofInt 1) = some 10 ∧
    (stockOut referenceEngine Faults.none
      (stockIn referenceEngine Faults.none (sampleDb 10)
        ⟨JsValue.ofInt 1, JsValue.ofInt 5, JsValue.undefined⟩).db
      ⟨JsValue.ofInt 1, JsValue.ofInt 5, JsValue.undefined⟩).db.stock_movements
      = (sampleDb 10).stock_movements ++
        [⟨1, MovementType.IN, 5, storedReason "Stock entry" JsValue.undefined, 10, 10 + 5⟩,
         ⟨1, MovementType.OUT, 5, storedReason "Stock exit" JsValue.undefined, 10 + 5, 10⟩] :=
  ⟨by decide,
    (round_trip referenceEngine (sampleDb 10) 1 10 5 JsValue.undefined
      JsValue.undefined (by decide) (by decide) (by decide) (by decide) (Or.inl rfl)
      (Or.inl rfl) (by decide) (referenceEngine_faithful.1 1) (referenceEngine_faithful.1 5)
      (referenceEngine_faithful.1 10) (referenceEngine_faithful.1 (10 + 5))
      (referenceEngine_faithful.2 _) (referenceEngine_faithful.2 _)).2.2.1,
    (round_trip referenceEngine (sampleDb 10) 1 10 5 JsValue.undefined
      JsValue.undefined (by decide) (by decide) (by decide) (by decide) (Or.inl rfl)
      (Or.inl rfl) (by decide) (referenceEngine_faithful.1 1) (referenceEngine_faithful.1 5)
      (referenceEngine_faithful.1 10) (referenceEngine_faithful.1 (10 + 5))
      (referenceEngine_faithful.2 _) (referenceEngine_faithful.2 _)).2.2.2⟩


/-! ## The dashboard: `handleResponse` -/

theorem or_default_string (s : String) (h : s ≠ "") (dflt : JsValue) :
    (JsValue.string s).or dflt = JsValue.string s := by
  have : (JsValue.string s).truthy = true := by
    simp [JsValue.truthy, isEmpty_eq_false_iff, h]
  simp [JsValue.or, this]

/-- C29: for a body that is a JSON value other than `null`, `handleResponse`
returns the body exactly when `response.ok` holds and `success` is truthy; in
every other case it throws the `Error` made from `error || 'Error en la
petición'`, whose message is the `error` of the body when that is a non-empty
string and the default when `error` is absent, `null` or empty.  A response of
a handler with `success: false`, or with a status outside 200 to 299, is never
returned: its `error` is thrown. -/
theorem handleResponse_rule {α : Type} (ok : Bool) (success error : JsValue) (content : α) :
    (handleResponse ⟨ok, Except.ok (ParsedBody.value success error content)⟩
        = Except.ok (ParsedBody.value success error content) ↔
      ok = true ∧ success.truthy = true) ∧
    (¬ (ok = true ∧ success.truthy = true) →
      handleResponse ⟨ok, Except.ok (ParsedBody.value success error content)⟩
        = Except.error (Thrown.error (error.or (JsValue.string "Error en la petición"))) ∧
      (∀ s : String, error = JsValue.string s → s ≠ "" →
        handleResponse ⟨ok, Except.ok (ParsedBody.value success error content)⟩
          = Except.error (Thrown.error (JsValue.string s))) ∧
      (error = JsValue.undefined ∨ error = JsValue.null ∨ error = JsValue.string "" →
        handleResponse ⟨ok, Except.ok (ParsedBody.value success error content)⟩
          = Except.error (Thrown.error (JsValue.string "Error en la petición")))) ∧
    (∀ (β : Type) (r : Response β), r.success = false ∨ r.status < 200 ∨ 299 < r.status →
      ∃ argument, handleResponse r.fetched = Except.error (Thrown.error argument) ∧
        ∀ e : String, r.error = some e → e ≠ "" → argument = JsValue.string e) := by
  have hthrow : ¬ (ok = true ∧ success.truthy = true) →
      handleResponse ⟨ok, Except.ok (ParsedBody.value success error content)⟩
        = Except.error (Thrown.error (error.or (JsValue.string "Error en la petición"))) := by
    intro h
    have hc : (!ok || !success.truthy) = true := by
      cases ok <;> cases hs : success.truthy <;> simp_all
    simp [handleResponse, hc]
  refine ⟨⟨?_, ?_⟩, ?_, ?_⟩
  · intro h
    by_contra hn
    rw [hthrow hn] at h
    cases h
  · rintro ⟨hok, hs⟩
    simp [handleResponse, hok, hs]
  · intro hn
    refine ⟨hthrow hn, ?_, ?_⟩
    · intro s hs hne
      rw [hthrow hn, hs, or_default_string s hne]
    · intro he
      rw [hthrow hn]
      rcases he with rfl | rfl | rfl <;> rfl
  · intro β r hr
    have hn : ¬ (decide (200 ≤ r.status ∧ r.status ≤ 299) = true ∧
        (JsValue.bool r.success).truthy = true) := by
      rintro ⟨h1, h2⟩
      have h1' := of_decide_eq_true h1
      rcases hr with h | h | h
      · rw [h] at h2
        cases h2
      · omega
      · omega
    have hc : (!decide (200 ≤ r.status ∧ r.status ≤ 299) || !(JsValue.bool r.success).truthy)
        = true := by
      cases h1 : decide (200 ≤ r.status ∧ r.status ≤ 299) <;>
        cases h2 : (JsValue.bool r.success).truthy <;> simp_all
    refine ⟨(match r.error with
      | some e => JsValue.string e
      | none => JsValue.undefined).or (JsValue.string "Error en la petición"),
      by simp only [handleResponse, Response.fetched, hc, if_true], ?_⟩
    intro e he hne
    rw [he]
    exact or_default_string e hne _

end InventoryEasy
